import Mathlib

/-!
# Win32/WGL window backend of GLFW (`src/win32/win32_window.c`)

A shallow embedding of the pixel-format enumeration, the rendering-context
negotiation, the open-window protocol, the key translation, the window
procedure and the colour-depth split of the Win32 backend, together with
theorems about them.

Conventions of the embedding.

* Handles and function pointers (`HWND`, `HDC`, `HGLRC`, `PFN...`) are natural
  numbers, `0` being `NULL`.
* C `int` values are `Int`; `DWORD` flag words and `BYTE` fields are `Nat`.
  Where the 32-bit range of `int` and `long` matters (`getFullWindowSize`), each
  stored value and each arithmetic result goes through `toLong`, which reduces
  it modulo `2^32` into that range.
* A call through a function pointer of the window record appends the value of
  the pointer to the list `through` of the state.
* Every call that leaves the program (the Win32 API, WGL, the driver, and the
  functions of GLFW defined in other translation units) is a field of `Env`,
  a deterministic oracle: the same call with the same arguments gives the same
  answer.
* Window messages delivered re-entrantly to `windowProc` while a native call
  runs are outside this model.
* The parameters `wParam` and `lParam` of a window message are natural numbers
  holding the bit pattern of the machine word; `LOWORD`, `HIWORD` and the masks
  of the source act on that pattern.
* What the thread's message queue and keyboard answer while one message is
  dispatched (`GetMessageTime`, `PeekMessage`, `GetKeyboardState`) is a
  `MessageContext`, given with the message.
-/

namespace Glfw

/-! ## Constants of the platform headers -/

/-- Attribute selector `WGL_NUMBER_PIXEL_FORMATS_ARB` of `wglext.h`. -/
def WGL_NUMBER_PIXEL_FORMATS_ARB : Int := 0x2000
/-- Attribute selector `WGL_DRAW_TO_WINDOW_ARB` of `wglext.h`. -/
def WGL_DRAW_TO_WINDOW_ARB : Int := 0x2001
/-- Attribute selector `WGL_SUPPORT_OPENGL_ARB` of `wglext.h`. -/
def WGL_SUPPORT_OPENGL_ARB : Int := 0x2010
/-- Attribute selector `WGL_DOUBLE_BUFFER_ARB` of `wglext.h`. -/
def WGL_DOUBLE_BUFFER_ARB : Int := 0x2011
/-- Attribute selector `WGL_STEREO_ARB` of `wglext.h`. -/
def WGL_STEREO_ARB : Int := 0x2012
/-- Attribute selector `WGL_PIXEL_TYPE_ARB` of `wglext.h`. -/
def WGL_PIXEL_TYPE_ARB : Int := 0x2013
/-- Attribute selector `WGL_RED_BITS_ARB` of `wglext.h`. -/
def WGL_RED_BITS_ARB : Int := 0x2015
/-- Attribute selector `WGL_GREEN_BITS_ARB` of `wglext.h`. -/
def WGL_GREEN_BITS_ARB : Int := 0x2017
/-- Attribute selector `WGL_BLUE_BITS_ARB` of `wglext.h`. -/
def WGL_BLUE_BITS_ARB : Int := 0x2019
/-- Attribute selector `WGL_ALPHA_BITS_ARB` of `wglext.h`. -/
def WGL_ALPHA_BITS_ARB : Int := 0x201B
/-- Attribute selector `WGL_ACCUM_RED_BITS_ARB` of `wglext.h`. -/
def WGL_ACCUM_RED_BITS_ARB : Int := 0x201E
/-- Attribute selector `WGL_ACCUM_GREEN_BITS_ARB` of `wglext.h`. -/
def WGL_ACCUM_GREEN_BITS_ARB : Int := 0x201F
/-- Attribute selector `WGL_ACCUM_BLUE_BITS_ARB` of `wglext.h`. -/
def WGL_ACCUM_BLUE_BITS_ARB : Int := 0x2020
/-- Attribute selector `WGL_ACCUM_ALPHA_BITS_ARB` of `wglext.h`. -/
def WGL_ACCUM_ALPHA_BITS_ARB : Int := 0x2021
/-- Attribute selector `WGL_DEPTH_BITS_ARB` of `wglext.h`. -/
def WGL_DEPTH_BITS_ARB : Int := 0x2022
/-- Attribute selector `WGL_STENCIL_BITS_ARB` of `wglext.h`. -/
def WGL_STENCIL_BITS_ARB : Int := 0x2023
/-- Attribute selector `WGL_AUX_BUFFERS_ARB` of `wglext.h`. -/
def WGL_AUX_BUFFERS_ARB : Int := 0x2024
/-- Pixel type value `WGL_TYPE_RGBA_ARB` of `wglext.h`. -/
def WGL_TYPE_RGBA_ARB : Int := 0x202B
/-- Attribute selector `WGL_SAMPLES_ARB` of `wglext.h`. -/
def WGL_SAMPLES_ARB : Int := 0x2042

/-- Context attribute name `WGL_CONTEXT_MAJOR_VERSION_ARB` of `wglext.h`. -/
def WGL_CONTEXT_MAJOR_VERSION_ARB : Int := 0x2091
/-- Context attribute name `WGL_CONTEXT_MINOR_VERSION_ARB` of `wglext.h`. -/
def WGL_CONTEXT_MINOR_VERSION_ARB : Int := 0x2092
/-- Context attribute name `WGL_CONTEXT_FLAGS_ARB` of `wglext.h`. -/
def WGL_CONTEXT_FLAGS_ARB : Int := 0x2094
/-- Context attribute name `WGL_CONTEXT_PROFILE_MASK_ARB` of `wglext.h`. -/
def WGL_CONTEXT_PROFILE_MASK_ARB : Int := 0x9126
/-- Context flag bit `WGL_CONTEXT_DEBUG_BIT_ARB` of `wglext.h`. -/
def WGL_CONTEXT_DEBUG_BIT_ARB : Nat := 0x0001
/-- Context flag bit `WGL_CONTEXT_FORWARD_COMPATIBLE_BIT_ARB` of `wglext.h`. -/
def WGL_CONTEXT_FORWARD_COMPATIBLE_BIT_ARB : Nat := 0x0002
/-- Profile bit `WGL_CONTEXT_CORE_PROFILE_BIT_ARB` of `wglext.h`. -/
def WGL_CONTEXT_CORE_PROFILE_BIT_ARB : Nat := 0x00000001
/-- Profile bit `WGL_CONTEXT_COMPATIBILITY_PROFILE_BIT_ARB` of `wglext.h`. -/
def WGL_CONTEXT_COMPATIBILITY_PROFILE_BIT_ARB : Nat := 0x00000002
/-- Profile bit `WGL_CONTEXT_ES2_PROFILE_BIT_EXT` of `wglext.h`. -/
def WGL_CONTEXT_ES2_PROFILE_BIT_EXT : Nat := 0x00000004

/-- Descriptor flag `PFD_DOUBLEBUFFER` of `wingdi.h`. -/
def PFD_DOUBLEBUFFER : Nat := 0x00000001
/-- Descriptor flag `PFD_STEREO` of `wingdi.h`. -/
def PFD_STEREO : Nat := 0x00000002
/-- Descriptor flag `PFD_DRAW_TO_WINDOW` of `wingdi.h`. -/
def PFD_DRAW_TO_WINDOW : Nat := 0x00000004
/-- Descriptor flag `PFD_SUPPORT_OPENGL` of `wingdi.h`. -/
def PFD_SUPPORT_OPENGL : Nat := 0x00000020
/-- Descriptor flag `PFD_GENERIC_FORMAT` of `wingdi.h`. -/
def PFD_GENERIC_FORMAT : Nat := 0x00000040
/-- Descriptor flag `PFD_GENERIC_ACCELERATED` of `wingdi.h`. -/
def PFD_GENERIC_ACCELERATED : Nat := 0x00001000
/-- Pixel type value `PFD_TYPE_RGBA` of `wingdi.h`. -/
def PFD_TYPE_RGBA : Nat := 0

/-- Window style `WS_OVERLAPPED` of `winuser.h`. -/
def WS_OVERLAPPED : Nat := 0x00000000
/-- Window style `WS_POPUP` of `winuser.h`. -/
def WS_POPUP : Nat := 0x80000000
/-- Window style `WS_VISIBLE` of `winuser.h`. -/
def WS_VISIBLE : Nat := 0x10000000
/-- Window style `WS_CLIPSIBLINGS` of `winuser.h`. -/
def WS_CLIPSIBLINGS : Nat := 0x04000000
/-- Window style `WS_CLIPCHILDREN` of `winuser.h`. -/
def WS_CLIPCHILDREN : Nat := 0x02000000
/-- Window style `WS_CAPTION` of `winuser.h`. -/
def WS_CAPTION : Nat := 0x00C00000
/-- Window style `WS_SYSMENU` of `winuser.h`. -/
def WS_SYSMENU : Nat := 0x00080000
/-- Window style `WS_SIZEBOX` of `winuser.h`. -/
def WS_SIZEBOX : Nat := 0x00040000
/-- Window style `WS_MINIMIZEBOX` of `winuser.h`. -/
def WS_MINIMIZEBOX : Nat := 0x00020000
/-- Window style `WS_MAXIMIZEBOX` of `winuser.h`. -/
def WS_MAXIMIZEBOX : Nat := 0x00010000
/-- Extended window style `WS_EX_APPWINDOW` of `winuser.h`. -/
def WS_EX_APPWINDOW : Nat := 0x00040000
/-- Extended window style `WS_EX_WINDOWEDGE` of `winuser.h`. -/
def WS_EX_WINDOWEDGE : Nat := 0x00000100

/-- The value `GL_TRUE`. -/
def GL_TRUE : Int := 1
/-- The value `GL_FALSE`. -/
def GL_FALSE : Int := 0

/-! ## Constants of the message and keyboard headers -/

/-- The virtual key code `VK_BACK` of `winuser.h`. -/
def VK_BACK : Nat := 0x08
/-- The virtual key code `VK_TAB` of `winuser.h`. -/
def VK_TAB : Nat := 0x09
/-- The virtual key code `VK_CLEAR` of `winuser.h`. -/
def VK_CLEAR : Nat := 0x0C
/-- The virtual key code `VK_RETURN` of `winuser.h`. -/
def VK_RETURN : Nat := 0x0D
/-- The virtual key code `VK_SHIFT` of `winuser.h`. -/
def VK_SHIFT : Nat := 0x10
/-- The virtual key code `VK_CONTROL` of `winuser.h`. -/
def VK_CONTROL : Nat := 0x11
/-- The virtual key code `VK_MENU` of `winuser.h`. -/
def VK_MENU : Nat := 0x12
/-- The virtual key code `VK_PAUSE` of `winuser.h`. -/
def VK_PAUSE : Nat := 0x13
/-- The virtual key code `VK_CAPITAL` of `winuser.h`. -/
def VK_CAPITAL : Nat := 0x14
/-- The virtual key code `VK_ESCAPE` of `winuser.h`. -/
def VK_ESCAPE : Nat := 0x1B
/-- The virtual key code `VK_SPACE` of `winuser.h`. -/
def VK_SPACE : Nat := 0x20
/-- The virtual key code `VK_PRIOR` of `winuser.h`. -/
def VK_PRIOR : Nat := 0x21
/-- The virtual key code `VK_NEXT` of `winuser.h`. -/
def VK_NEXT : Nat := 0x22
/-- The virtual key code `VK_END` of `winuser.h`. -/
def VK_END : Nat := 0x23
/-- The virtual key code `VK_HOME` of `winuser.h`. -/
def VK_HOME : Nat := 0x24
/-- The virtual key code `VK_LEFT` of `winuser.h`. -/
def VK_LEFT : Nat := 0x25
/-- The virtual key code `VK_UP` of `winuser.h`. -/
def VK_UP : Nat := 0x26
/-- The virtual key code `VK_RIGHT` of `winuser.h`. -/
def VK_RIGHT : Nat := 0x27
/-- The virtual key code `VK_DOWN` of `winuser.h`. -/
def VK_DOWN : Nat := 0x28
/-- The virtual key code `VK_INSERT` of `winuser.h`. -/
def VK_INSERT : Nat := 0x2D
/-- The virtual key code `VK_DELETE` of `winuser.h`. -/
def VK_DELETE : Nat := 0x2E
/-- The virtual key code `VK_LWIN` of `winuser.h`. -/
def VK_LWIN : Nat := 0x5B
/-- The virtual key code `VK_RWIN` of `winuser.h`. -/
def VK_RWIN : Nat := 0x5C
/-- The virtual key code `VK_APPS` of `winuser.h`. -/
def VK_APPS : Nat := 0x5D
/-- The virtual key code `VK_NUMPAD0` of `winuser.h`. -/
def VK_NUMPAD0 : Nat := 0x60
/-- The virtual key code `VK_NUMPAD1` of `winuser.h`. -/
def VK_NUMPAD1 : Nat := 0x61
/-- The virtual key code `VK_NUMPAD2` of `winuser.h`. -/
def VK_NUMPAD2 : Nat := 0x62
/-- The virtual key code `VK_NUMPAD3` of `winuser.h`. -/
def VK_NUMPAD3 : Nat := 0x63
/-- The virtual key code `VK_NUMPAD4` of `winuser.h`. -/
def VK_NUMPAD4 : Nat := 0x64
/-- The virtual key code `VK_NUMPAD5` of `winuser.h`. -/
def VK_NUMPAD5 : Nat := 0x65
/-- The virtual key code `VK_NUMPAD6` of `winuser.h`. -/
def VK_NUMPAD6 : Nat := 0x66
/-- The virtual key code `VK_NUMPAD7` of `winuser.h`. -/
def VK_NUMPAD7 : Nat := 0x67
/-- The virtual key code `VK_NUMPAD8` of `winuser.h`. -/
def VK_NUMPAD8 : Nat := 0x68
/-- The virtual key code `VK_NUMPAD9` of `winuser.h`. -/
def VK_NUMPAD9 : Nat := 0x69
/-- The virtual key code `VK_MULTIPLY` of `winuser.h`. -/
def VK_MULTIPLY : Nat := 0x6A
/-- The virtual key code `VK_ADD` of `winuser.h`. -/
def VK_ADD : Nat := 0x6B
/-- The virtual key code `VK_SUBTRACT` of `winuser.h`. -/
def VK_SUBTRACT : Nat := 0x6D
/-- The virtual key code `VK_DECIMAL` of `winuser.h`. -/
def VK_DECIMAL : Nat := 0x6E
/-- The virtual key code `VK_DIVIDE` of `winuser.h`. -/
def VK_DIVIDE : Nat := 0x6F
/-- The virtual key code `VK_F1` of `winuser.h`. -/
def VK_F1 : Nat := 0x70
/-- The virtual key code `VK_F2` of `winuser.h`. -/
def VK_F2 : Nat := 0x71
/-- The virtual key code `VK_F3` of `winuser.h`. -/
def VK_F3 : Nat := 0x72
/-- The virtual key code `VK_F4` of `winuser.h`. -/
def VK_F4 : Nat := 0x73
/-- The virtual key code `VK_F5` of `winuser.h`. -/
def VK_F5 : Nat := 0x74
/-- The virtual key code `VK_F6` of `winuser.h`. -/
def VK_F6 : Nat := 0x75
/-- The virtual key code `VK_F7` of `winuser.h`. -/
def VK_F7 : Nat := 0x76
/-- The virtual key code `VK_F8` of `winuser.h`. -/
def VK_F8 : Nat := 0x77
/-- The virtual key code `VK_F9` of `winuser.h`. -/
def VK_F9 : Nat := 0x78
/-- The virtual key code `VK_F10` of `winuser.h`. -/
def VK_F10 : Nat := 0x79
/-- The virtual key code `VK_F11` of `winuser.h`. -/
def VK_F11 : Nat := 0x7A
/-- The virtual key code `VK_F12` of `winuser.h`. -/
def VK_F12 : Nat := 0x7B
/-- The virtual key code `VK_F13` of `winuser.h`. -/
def VK_F13 : Nat := 0x7C
/-- The virtual key code `VK_F14` of `winuser.h`. -/
def VK_F14 : Nat := 0x7D
/-- The virtual key code `VK_F15` of `winuser.h`. -/
def VK_F15 : Nat := 0x7E
/-- The virtual key code `VK_F16` of `winuser.h`. -/
def VK_F16 : Nat := 0x7F
/-- The virtual key code `VK_F17` of `winuser.h`. -/
def VK_F17 : Nat := 0x80
/-- The virtual key code `VK_F18` of `winuser.h`. -/
def VK_F18 : Nat := 0x81
/-- The virtual key code `VK_F19` of `winuser.h`. -/
def VK_F19 : Nat := 0x82
/-- The virtual key code `VK_F20` of `winuser.h`. -/
def VK_F20 : Nat := 0x83
/-- The virtual key code `VK_F21` of `winuser.h`. -/
def VK_F21 : Nat := 0x84
/-- The virtual key code `VK_F22` of `winuser.h`. -/
def VK_F22 : Nat := 0x85
/-- The virtual key code `VK_F23` of `winuser.h`. -/
def VK_F23 : Nat := 0x86
/-- The virtual key code `VK_F24` of `winuser.h`. -/
def VK_F24 : Nat := 0x87
/-- The virtual key code `VK_NUMLOCK` of `winuser.h`. -/
def VK_NUMLOCK : Nat := 0x90
/-- The virtual key code `VK_SCROLL` of `winuser.h`. -/
def VK_SCROLL : Nat := 0x91
/-- The virtual key code `VK_RSHIFT` of `winuser.h`. -/
def VK_RSHIFT : Nat := 0xA1

/-- The window message `WM_CREATE` of `winuser.h`. -/
def WM_CREATE : Nat := 0x0001
/-- The window message `WM_MOVE` of `winuser.h`. -/
def WM_MOVE : Nat := 0x0003
/-- The window message `WM_SIZE` of `winuser.h`. -/
def WM_SIZE : Nat := 0x0005
/-- The window message `WM_ACTIVATE` of `winuser.h`. -/
def WM_ACTIVATE : Nat := 0x0006
/-- The window message `WM_PAINT` of `winuser.h`. -/
def WM_PAINT : Nat := 0x000F
/-- The window message `WM_CLOSE` of `winuser.h`. -/
def WM_CLOSE : Nat := 0x0010
/-- The window message `WM_DISPLAYCHANGE` of `winuser.h`. -/
def WM_DISPLAYCHANGE : Nat := 0x007E
/-- The window message `WM_KEYDOWN` of `winuser.h`. -/
def WM_KEYDOWN : Nat := 0x0100
/-- The window message `WM_KEYUP` of `winuser.h`. -/
def WM_KEYUP : Nat := 0x0101
/-- The window message `WM_SYSKEYDOWN` of `winuser.h`. -/
def WM_SYSKEYDOWN : Nat := 0x0104
/-- The window message `WM_SYSKEYUP` of `winuser.h`. -/
def WM_SYSKEYUP : Nat := 0x0105
/-- The window message `WM_SYSCOMMAND` of `winuser.h`. -/
def WM_SYSCOMMAND : Nat := 0x0112
/-- The window message `WM_MOUSEMOVE` of `winuser.h`. -/
def WM_MOUSEMOVE : Nat := 0x0200
/-- The window message `WM_LBUTTONDOWN` of `winuser.h`. -/
def WM_LBUTTONDOWN : Nat := 0x0201
/-- The window message `WM_LBUTTONUP` of `winuser.h`. -/
def WM_LBUTTONUP : Nat := 0x0202
/-- The window message `WM_RBUTTONDOWN` of `winuser.h`. -/
def WM_RBUTTONDOWN : Nat := 0x0204
/-- The window message `WM_RBUTTONUP` of `winuser.h`. -/
def WM_RBUTTONUP : Nat := 0x0205
/-- The window message `WM_MBUTTONDOWN` of `winuser.h`. -/
def WM_MBUTTONDOWN : Nat := 0x0207
/-- The window message `WM_MBUTTONUP` of `winuser.h`. -/
def WM_MBUTTONUP : Nat := 0x0208
/-- The window message `WM_MOUSEWHEEL` of `winuser.h`. -/
def WM_MOUSEWHEEL : Nat := 0x020A
/-- The window message `WM_XBUTTONDOWN` of `winuser.h`. -/
def WM_XBUTTONDOWN : Nat := 0x020B
/-- The window message `WM_XBUTTONUP` of `winuser.h`. -/
def WM_XBUTTONUP : Nat := 0x020C
/-- The window message `WM_MOUSEHWHEEL` of `winuser.h`. -/
def WM_MOUSEHWHEEL : Nat := 0x020E

/-- The value `WA_INACTIVE` of `winuser.h`. -/
def WA_INACTIVE : Nat := 0
/-- The value `SC_KEYMENU` of `winuser.h`. -/
def SC_KEYMENU : Nat := 0xF100
/-- The value `SC_SCREENSAVE` of `winuser.h`. -/
def SC_SCREENSAVE : Nat := 0xF140
/-- The value `SC_MONITORPOWER` of `winuser.h`. -/
def SC_MONITORPOWER : Nat := 0xF170
/-- The value `XBUTTON1` of `winuser.h`. -/
def XBUTTON1 : Nat := 1
/-- The value `XBUTTON2` of `winuser.h`. -/
def XBUTTON2 : Nat := 2
/-- The value `WHEEL_DELTA` of `winuser.h`. -/
def WHEEL_DELTA : Int := 120
/-- The value `SW_MINIMIZE` of `winuser.h`. -/
def SW_MINIMIZE : Nat := 6

/-! ## Constants of GLFW's own headers -/

/-- Modelled from the spec: `glfw3.h` is not among the sources. The error kinds
of section 7 (platform error, out of memory, OpenGL unavailable, version
unavailable), with `GLFW_NO_ERROR` for "no error reported". -/
inductive ErrorCode where
  | GLFW_NO_ERROR
  | GLFW_OUT_OF_MEMORY
  | GLFW_OPENGL_UNAVAILABLE
  | GLFW_VERSION_UNAVAILABLE
  | GLFW_PLATFORM_ERROR
  deriving DecidableEq, Repr, Inhabited

/-- Modelled from the spec: `glfw3.h` is not among the sources. The profile
selection of a creation request is none (`0`), core, compatibility or ES2; the
three selectors are distinct non-zero integers. This is the core selector. -/
def GLFW_OPENGL_CORE_PROFILE : Int := 0x00000001
/-- Modelled from the spec: the compatibility profile selector of `glfw3.h`
(see `GLFW_OPENGL_CORE_PROFILE`). -/
def GLFW_OPENGL_COMPAT_PROFILE : Int := 0x00000002
/-- Modelled from the spec: the ES2 profile selector of `glfw3.h`
(see `GLFW_OPENGL_CORE_PROFILE`). -/
def GLFW_OPENGL_ES2_PROFILE : Int := 0x00000004

/-- Modelled from the spec: the windowed mode selector of `glfw3.h`; a window
is either windowed or fullscreen. -/
def GLFW_WINDOWED : Int := 0x00010001
/-- Modelled from the spec: the fullscreen mode selector of `glfw3.h`. -/
def GLFW_FULLSCREEN : Int := 0x00010002

/-! ## Key, action and button identifiers of GLFW's own headers -/

/-- Modelled from the spec: `glfw3.h` is not among the sources. The key translator
(section 4.6) answers with an abstract key identifier: "unknown", a named
special key, or the code of a printable Latin-1 character. The named
identifiers are distinct integers above the character codes, numbered upwards
from `GLFW_KEY_SPECIAL`; "unknown" is negative. -/
def GLFW_KEY_UNKNOWN : Int := -1
/-- Modelled from the spec: a key identifier of `glfw3.h`
(see `GLFW_KEY_UNKNOWN`). -/
def GLFW_KEY_SPACE : Int := 32
/-- Modelled from the spec: a key identifier of `glfw3.h`
(see `GLFW_KEY_UNKNOWN`). -/
def GLFW_KEY_SPECIAL : Int := 256
/-- Modelled from the spec: a key identifier of `glfw3.h`
(see `GLFW_KEY_UNKNOWN`). -/
def GLFW_KEY_ESC : Int := 257
/-- Modelled from the spec: a key identifier of `glfw3.h`
(see `GLFW_KEY_UNKNOWN`). -/
def GLFW_KEY_F1 : Int := 258
/-- Modelled from the spec: a key identifier of `glfw3.h`
(see `GLFW_KEY_UNKNOWN`). -/
def GLFW_KEY_F2 : Int := 259
/-- Modelled from the spec: a key identifier of `glfw3.h`
(see `GLFW_KEY_UNKNOWN`). -/
def GLFW_KEY_F3 : Int := 260
/-- Modelled from the spec: a key identifier of `glfw3.h`
(see `GLFW_KEY_UNKNOWN`). -/
def GLFW_KEY_F4 : Int := 261
/-- Modelled from the spec: a key identifier of `glfw3.h`
(see `GLFW_KEY_UNKNOWN`). -/
def GLFW_KEY_F5 : Int := 262
/-- Modelled from the spec: a key identifier of `glfw3.h`
(see `GLFW_KEY_UNKNOWN`). -/
def GLFW_KEY_F6 : Int := 263
/-- Modelled from the spec: a key identifier of `glfw3.h`
(see `GLFW_KEY_UNKNOWN`). -/
def GLFW_KEY_F7 : Int := 264
/-- Modelled from the spec: a key identifier of `glfw3.h`
(see `GLFW_KEY_UNKNOWN`). -/
def GLFW_KEY_F8 : Int := 265
/-- Modelled from the spec: a key identifier of `glfw3.h`
(see `GLFW_KEY_UNKNOWN`). -/
def GLFW_KEY_F9 : Int := 266
/-- Modelled from the spec: a key identifier of `glfw3.h`
(see `GLFW_KEY_UNKNOWN`). -/
def GLFW_KEY_F10 : Int := 267
/-- Modelled from the spec: a key identifier of `glfw3.h`
(see `GLFW_KEY_UNKNOWN`). -/
def GLFW_KEY_F11 : Int := 268
/-- Modelled from the spec: a key identifier of `glfw3.h`
(see `GLFW_KEY_UNKNOWN`). -/
def GLFW_KEY_F12 : Int := 269
/-- Modelled from the spec: a key identifier of `glfw3.h`
(see `GLFW_KEY_UNKNOWN`). -/
def GLFW_KEY_F13 : Int := 270
/-- Modelled from the spec: a key identifier of `glfw3.h`
(see `GLFW_KEY_UNKNOWN`). -/
def GLFW_KEY_F14 : Int := 271
/-- Modelled from the spec: a key identifier of `glfw3.h`
(see `GLFW_KEY_UNKNOWN`). -/
def GLFW_KEY_F15 : Int := 272
/-- Modelled from the spec: a key identifier of `glfw3.h`
(see `GLFW_KEY_UNKNOWN`). -/
def GLFW_KEY_F16 : Int := 273
/-- Modelled from the spec: a key identifier of `glfw3.h`
(see `GLFW_KEY_UNKNOWN`). -/
def GLFW_KEY_F17 : Int := 274
/-- Modelled from the spec: a key identifier of `glfw3.h`
(see `GLFW_KEY_UNKNOWN`). -/
def GLFW_KEY_F18 : Int := 275
/-- Modelled from the spec: a key identifier of `glfw3.h`
(see `GLFW_KEY_UNKNOWN`). -/
def GLFW_KEY_F19 : Int := 276
/-- Modelled from the spec: a key identifier of `glfw3.h`
(see `GLFW_KEY_UNKNOWN`). -/
def GLFW_KEY_F20 : Int := 277
/-- Modelled from the spec: a key identifier of `glfw3.h`
(see `GLFW_KEY_UNKNOWN`). -/
def GLFW_KEY_F21 : Int := 278
/-- Modelled from the spec: a key identifier of `glfw3.h`
(see `GLFW_KEY_UNKNOWN`). -/
def GLFW_KEY_F22 : Int := 279
/-- Modelled from the spec: a key identifier of `glfw3.h`
(see `GLFW_KEY_UNKNOWN`). -/
def GLFW_KEY_F23 : Int := 280
/-- Modelled from the spec: a key identifier of `glfw3.h`
(see `GLFW_KEY_UNKNOWN`). -/
def GLFW_KEY_F24 : Int := 281
/-- Modelled from the spec: a key identifier of `glfw3.h`
(see `GLFW_KEY_UNKNOWN`). -/
def GLFW_KEY_F25 : Int := 282
/-- Modelled from the spec: a key identifier of `glfw3.h`
(see `GLFW_KEY_UNKNOWN`). -/
def GLFW_KEY_UP : Int := 283
/-- Modelled from the spec: a key identifier of `glfw3.h`
(see `GLFW_KEY_UNKNOWN`). -/
def GLFW_KEY_DOWN : Int := 284
/-- Modelled from the spec: a key identifier of `glfw3.h`
(see `GLFW_KEY_UNKNOWN`). -/
def GLFW_KEY_LEFT : Int := 285
/-- Modelled from the spec: a key identifier of `glfw3.h`
(see `GLFW_KEY_UNKNOWN`). -/
def GLFW_KEY_RIGHT : Int := 286
/-- Modelled from the spec: a key identifier of `glfw3.h`
(see `GLFW_KEY_UNKNOWN`). -/
def GLFW_KEY_LSHIFT : Int := 287
/-- Modelled from the spec: a key identifier of `glfw3.h`
(see `GLFW_KEY_UNKNOWN`). -/
def GLFW_KEY_RSHIFT : Int := 288
/-- Modelled from the spec: a key identifier of `glfw3.h`
(see `GLFW_KEY_UNKNOWN`). -/
def GLFW_KEY_LCTRL : Int := 289
/-- Modelled from the spec: a key identifier of `glfw3.h`
(see `GLFW_KEY_UNKNOWN`). -/
def GLFW_KEY_RCTRL : Int := 290
/-- Modelled from the spec: a key identifier of `glfw3.h`
(see `GLFW_KEY_UNKNOWN`). -/
def GLFW_KEY_LALT : Int := 291
/-- Modelled from the spec: a key identifier of `glfw3.h`
(see `GLFW_KEY_UNKNOWN`). -/
def GLFW_KEY_RALT : Int := 292
/-- Modelled from the spec: a key identifier of `glfw3.h`
(see `GLFW_KEY_UNKNOWN`). -/
def GLFW_KEY_TAB : Int := 293
/-- Modelled from the spec: a key identifier of `glfw3.h`
(see `GLFW_KEY_UNKNOWN`). -/
def GLFW_KEY_ENTER : Int := 294
/-- Modelled from the spec: a key identifier of `glfw3.h`
(see `GLFW_KEY_UNKNOWN`). -/
def GLFW_KEY_BACKSPACE : Int := 295
/-- Modelled from the spec: a key identifier of `glfw3.h`
(see `GLFW_KEY_UNKNOWN`). -/
def GLFW_KEY_INSERT : Int := 296
/-- Modelled from the spec: a key identifier of `glfw3.h`
(see `GLFW_KEY_UNKNOWN`). -/
def GLFW_KEY_DEL : Int := 297
/-- Modelled from the spec: a key identifier of `glfw3.h`
(see `GLFW_KEY_UNKNOWN`). -/
def GLFW_KEY_PAGEUP : Int := 298
/-- Modelled from the spec: a key identifier of `glfw3.h`
(see `GLFW_KEY_UNKNOWN`). -/
def GLFW_KEY_PAGEDOWN : Int := 299
/-- Modelled from the spec: a key identifier of `glfw3.h`
(see `GLFW_KEY_UNKNOWN`). -/
def GLFW_KEY_HOME : Int := 300
/-- Modelled from the spec: a key identifier of `glfw3.h`
(see `GLFW_KEY_UNKNOWN`). -/
def GLFW_KEY_END : Int := 301
/-- Modelled from the spec: a key identifier of `glfw3.h`
(see `GLFW_KEY_UNKNOWN`). -/
def GLFW_KEY_KP_0 : Int := 302
/-- Modelled from the spec: a key identifier of `glfw3.h`
(see `GLFW_KEY_UNKNOWN`). -/
def GLFW_KEY_KP_1 : Int := 303
/-- Modelled from the spec: a key identifier of `glfw3.h`
(see `GLFW_KEY_UNKNOWN`). -/
def GLFW_KEY_KP_2 : Int := 304
/-- Modelled from the spec: a key identifier of `glfw3.h`
(see `GLFW_KEY_UNKNOWN`). -/
def GLFW_KEY_KP_3 : Int := 305
/-- Modelled from the spec: a key identifier of `glfw3.h`
(see `GLFW_KEY_UNKNOWN`). -/
def GLFW_KEY_KP_4 : Int := 306
/-- Modelled from the spec: a key identifier of `glfw3.h`
(see `GLFW_KEY_UNKNOWN`). -/
def GLFW_KEY_KP_5 : Int := 307
/-- Modelled from the spec: a key identifier of `glfw3.h`
(see `GLFW_KEY_UNKNOWN`). -/
def GLFW_KEY_KP_6 : Int := 308
/-- Modelled from the spec: a key identifier of `glfw3.h`
(see `GLFW_KEY_UNKNOWN`). -/
def GLFW_KEY_KP_7 : Int := 309
/-- Modelled from the spec: a key identifier of `glfw3.h`
(see `GLFW_KEY_UNKNOWN`). -/
def GLFW_KEY_KP_8 : Int := 310
/-- Modelled from the spec: a key identifier of `glfw3.h`
(see `GLFW_KEY_UNKNOWN`). -/
def GLFW_KEY_KP_9 : Int := 311
/-- Modelled from the spec: a key identifier of `glfw3.h`
(see `GLFW_KEY_UNKNOWN`). -/
def GLFW_KEY_KP_DIVIDE : Int := 312
/-- Modelled from the spec: a key identifier of `glfw3.h`
(see `GLFW_KEY_UNKNOWN`). -/
def GLFW_KEY_KP_MULTIPLY : Int := 313
/-- Modelled from the spec: a key identifier of `glfw3.h`
(see `GLFW_KEY_UNKNOWN`). -/
def GLFW_KEY_KP_SUBTRACT : Int := 314
/-- Modelled from the spec: a key identifier of `glfw3.h`
(see `GLFW_KEY_UNKNOWN`). -/
def GLFW_KEY_KP_ADD : Int := 315
/-- Modelled from the spec: a key identifier of `glfw3.h`
(see `GLFW_KEY_UNKNOWN`). -/
def GLFW_KEY_KP_DECIMAL : Int := 316
/-- Modelled from the spec: a key identifier of `glfw3.h`
(see `GLFW_KEY_UNKNOWN`). -/
def GLFW_KEY_KP_EQUAL : Int := 317
/-- Modelled from the spec: a key identifier of `glfw3.h`
(see `GLFW_KEY_UNKNOWN`). -/
def GLFW_KEY_KP_ENTER : Int := 318
/-- Modelled from the spec: a key identifier of `glfw3.h`
(see `GLFW_KEY_UNKNOWN`). -/
def GLFW_KEY_KP_NUM_LOCK : Int := 319
/-- Modelled from the spec: a key identifier of `glfw3.h`
(see `GLFW_KEY_UNKNOWN`). -/
def GLFW_KEY_CAPS_LOCK : Int := 320
/-- Modelled from the spec: a key identifier of `glfw3.h`
(see `GLFW_KEY_UNKNOWN`). -/
def GLFW_KEY_SCROLL_LOCK : Int := 321
/-- Modelled from the spec: a key identifier of `glfw3.h`
(see `GLFW_KEY_UNKNOWN`). -/
def GLFW_KEY_PAUSE : Int := 322
/-- Modelled from the spec: a key identifier of `glfw3.h`
(see `GLFW_KEY_UNKNOWN`). -/
def GLFW_KEY_LSUPER : Int := 323
/-- Modelled from the spec: a key identifier of `glfw3.h`
(see `GLFW_KEY_UNKNOWN`). -/
def GLFW_KEY_RSUPER : Int := 324
/-- Modelled from the spec: a key identifier of `glfw3.h`
(see `GLFW_KEY_UNKNOWN`). -/
def GLFW_KEY_MENU : Int := 325

/-- Modelled from the spec: the action of a key or button event is press or
release (`glfw3.h`). This is release. -/
def GLFW_RELEASE : Int := 0
/-- Modelled from the spec: the press action of `glfw3.h` (see `GLFW_RELEASE`). -/
def GLFW_PRESS : Int := 1

/-- Modelled from the spec: a mouse button identifier of `glfw3.h`; the
buttons are numbered from 0. -/
def GLFW_MOUSE_BUTTON_LEFT : Int := 0
/-- Modelled from the spec: a mouse button identifier of `glfw3.h`; the
buttons are numbered from 0. -/
def GLFW_MOUSE_BUTTON_RIGHT : Int := 1
/-- Modelled from the spec: a mouse button identifier of `glfw3.h`; the
buttons are numbered from 0. -/
def GLFW_MOUSE_BUTTON_MIDDLE : Int := 2
/-- Modelled from the spec: a mouse button identifier of `glfw3.h`; the
buttons are numbered from 0. -/
def GLFW_MOUSE_BUTTON_4 : Int := 3
/-- Modelled from the spec: a mouse button identifier of `glfw3.h`; the
buttons are numbered from 0. -/
def GLFW_MOUSE_BUTTON_5 : Int := 4

/-! ## Data model -/

/-- The fields of `PIXELFORMATDESCRIPTOR` that the backend reads. -/
structure PIXELFORMATDESCRIPTOR where
  dwFlags : Nat := 0
  iPixelType : Nat := 0
  cRedBits : Nat := 0
  cGreenBits : Nat := 0
  cBlueBits : Nat := 0
  cAlphaBits : Nat := 0
  cAccumRedBits : Nat := 0
  cAccumGreenBits : Nat := 0
  cAccumBlueBits : Nat := 0
  cAccumAlphaBits : Nat := 0
  cDepthBits : Nat := 0
  cStencilBits : Nat := 0
  cAuxBuffers : Nat := 0
  deriving DecidableEq, Repr, Inhabited

/-- The record `_GLFWfbconfig`: one framebuffer configuration. -/
structure FBConfig where
  redBits : Int := 0
  greenBits : Int := 0
  blueBits : Int := 0
  alphaBits : Int := 0
  depthBits : Int := 0
  stencilBits : Int := 0
  accumRedBits : Int := 0
  accumGreenBits : Int := 0
  accumBlueBits : Int := 0
  accumAlphaBits : Int := 0
  auxBuffers : Int := 0
  stereo : Int := 0
  samples : Int := 0
  platformID : Int := 0
  deriving DecidableEq, Repr, Inhabited

/-- The record `_GLFWwndconfig`: the window creation request. The field `share`
is the rendering context of the window named by `wndconfig->share`, when that
pointer is not null. -/
structure WndConfig where
  refreshRate : Int := 0
  windowNoResize : Bool := false
  glMajor : Int := 1
  glMinor : Int := 0
  glForward : Bool := false
  glDebug : Bool := false
  glProfile : Int := 0
  share : Option Nat := none
  deriving DecidableEq, Repr, Inhabited

/-- The member `WGL` of `_GLFWwindow`: device context, rendering context, the
resolved extension entry points and the capability flags. -/
structure WGL where
  DC : Nat := 0
  context : Nat := 0
  SwapIntervalEXT : Nat := 0
  GetPixelFormatAttribivARB : Nat := 0
  GetExtensionsStringARB : Nat := 0
  GetExtensionsStringEXT : Nat := 0
  CreateContextAttribsARB : Nat := 0
  has_WGL_EXT_swap_control : Bool := false
  has_WGL_ARB_pixel_format : Bool := false
  has_WGL_ARB_multisample : Bool := false
  has_WGL_ARB_create_context : Bool := false
  has_WGL_ARB_create_context_profile : Bool := false
  has_WGL_EXT_create_context_es2_profile : Bool := false
  deriving DecidableEq, Repr, Inhabited

/-- The member `Win32` of `_GLFWwindow`. -/
structure Win32Window where
  handle : Nat := 0
  dwStyle : Nat := 0
  dwExStyle : Nat := 0
  desiredRefreshRate : Int := 0
  oldMouseX : Int := 0
  oldMouseY : Int := 0
  mouseMoved : Int := GL_FALSE
  deriving DecidableEq, Repr, Inhabited

/-- The fields of `_GLFWwindow` that window creation and the window procedure
read or write. -/
structure GLFWwindow where
  mode : Int := GLFW_WINDOWED
  width : Int := 0
  height : Int := 0
  positionX : Int := 0
  positionY : Int := 0
  iconified : Int := GL_FALSE
  closeRequested : Int := GL_FALSE
  mousePosX : Int := 0
  mousePosY : Int := 0
  WGL : WGL := {}
  Win32 : Win32Window := {}
  deriving DecidableEq, Repr, Inhabited

/-- A pointer to a window, as far as the backend tells pointers apart: null,
the window the operation works on, or some other window. -/
inductive WindowPtr where
  | null
  | this
  | other
  deriving DecidableEq, Repr, Inhabited

/-- The member `_glfwLibrary.Win32.monitor`. -/
structure Monitor where
  width : Int := 0
  height : Int := 0
  refreshRate : Int := 0
  bitsPerPixel : Int := 0
  modeChanged : Bool := false
  deriving DecidableEq, Repr, Inhabited

/-- The fields of the global `_glfwLibrary` that window creation and the window
procedure read or write, with the error last reported through
`_glfwSetError`. A callback field tells whether the callback is set. -/
structure Library where
  currentWindow : WindowPtr := .null
  activeWindow : WindowPtr := .null
  cursorLockWindow : WindowPtr := .null
  charCallback : Bool := false
  mousePosCallback : Bool := false
  windowSizeCallback : Bool := false
  windowIconifyCallback : Bool := false
  windowRefreshCallback : Bool := false
  classAtom : Nat := 0
  monitor : Monitor := {}
  error : ErrorCode := .GLFW_NO_ERROR
  deriving DecidableEq, Repr, Inhabited

/-- The capability flags of a window. -/
inductive Capability where
  | has_WGL_EXT_swap_control
  | has_WGL_ARB_pixel_format
  | has_WGL_ARB_multisample
  | has_WGL_ARB_create_context
  | has_WGL_ARB_create_context_profile
  | has_WGL_EXT_create_context_es2_profile
  deriving DecidableEq, Repr, Inhabited

/-- What an execution leaves in the log. A native window is named by its
ordinal: the number of the `CreateWindowEx` call that made it (1 for the
first). -/
inductive Event where
  | createWindow
  | destroyWindow (native : Nat)
  | readFlag (flag : Capability) (native : Nat)
  | initWGLExtensions (native : Nat)
  | CreateContextAttribsARB (dc share : Nat) (attribs : List Int)
  | wglCreateContext (dc : Nat)
  deriving DecidableEq, Repr, Inhabited

/-- The structure `MSG` of `winuser.h`, as far as `translateKey` reads it. -/
structure MSG where
  message : Nat := 0
  wParam : Nat := 0
  lParam : Nat := 0
  time : Nat := 0
  deriving DecidableEq, Repr, Inhabited

/-- What the thread answers while one message is dispatched: the time of the
message (`GetMessageTime`), the message that `PeekMessage` with `PM_NOREMOVE`
finds next in the queue (`none` when it returns `FALSE`), and the key-state
array that `GetKeyboardState` fills. -/
structure MessageContext where
  time : Nat := 0
  next : Option MSG := none
  keyboardState : List Nat := []
  deriving DecidableEq, Repr, Inhabited

/-- What the window procedure sends out: the calls of the input sinks of
GLFW (`_glfwInput...`, defined in another file), of the callbacks of the
library, and of the native functions that change no field of the model. The
calls of `translateKey` are recorded as well. -/
inductive InputEvent where
  | translateKey (wParam lParam : Nat)
  | inputKey (key action : Int)
  | inputChar (character : Int)
  | inputMouseClick (button action : Int)
  | inputScroll (x y : Int)
  | inputWindowFocus (activated : Bool)
  | windowIconifyCallback (iconified : Int)
  | mousePosCallback (x y : Int)
  | windowSizeCallback (width height : Int)
  | windowRefreshCallback
  | restoreVideoMode
  | SetWindowLongPtr (hWnd : Nat)
  | ShowWindow (handle cmd : Nat)
  | ShowCursor (visible : Bool)
  | ClipCursor (rect : Option (Int × Int × Int × Int))
  | SetCapture (hWnd : Nat)
  | ReleaseCapture
  deriving DecidableEq, Repr, Inhabited

/-- The world outside the translation unit. -/
structure Env where
  /-- The call `GetPixelFormatAttribivARB(dc, pixelFormat, 0, 1, &attrib, &value)`:
  `none` when it returns `FALSE`, the value written otherwise. -/
  GetPixelFormatAttribivARB : Nat → Int → Int → Option Int := fun _ _ _ => none
  /-- The call `DescribePixelFormat(dc, pixelFormat, size, ppfd)`: its return
  value and the descriptor it writes; the flag tells whether `ppfd` is given
  (`true`) or `NULL` (`false`). -/
  DescribePixelFormat : Nat → Int → Bool → Int × PIXELFORMATDESCRIPTOR :=
    fun _ _ _ => (0, {})
  /-- Whether `malloc` of an array of that many `_GLFWfbconfig` succeeds. -/
  malloc : Int → Bool := fun _ => true
  /-- The contents of a freshly allocated `_GLFWfbconfig`. -/
  uninitialized : FBConfig := {}
  /-- The contents of an `int` local that has not been assigned. -/
  uninitializedInt : Int := 0
  /-- The call `SetPixelFormat(dc, pixelFormat, &pfd)`. -/
  SetPixelFormat : Nat → Int → PIXELFORMATDESCRIPTOR → Bool := fun _ _ _ => false
  /-- The call through `CreateContextAttribsARB(dc, share, attribs)`; the list
  is the zero-terminated attribute list. -/
  CreateContextAttribsARB : Nat → Nat → List Int → Nat := fun _ _ _ => 0
  /-- The call `wglCreateContext(dc)`. -/
  wglCreateContext : Nat → Nat := fun _ => 0
  /-- The call `wglShareLists(share, context)`. -/
  wglShareLists : Nat → Nat → Bool := fun _ _ => false
  /-- The call `wglGetProcAddress(name)` while the given context is current. -/
  wglGetProcAddress : Nat → String → Nat := fun _ _ => 0
  /-- Modelled from the spec: `_glfwPlatformExtensionSupported` is defined in
  another file; `extensionSupported(name) -> bool`, asked while the given
  context is current. -/
  extensionSupported : Nat → String → Bool := fun _ _ => false
  /-- Modelled from the spec: `_glfwChooseFBConfig` is defined in another file;
  `bestMatchFormat(requested, candidates[]) -> candidate | none`, given the
  array and the number of its valid entries. -/
  chooseFBConfig : FBConfig → List FBConfig → Nat → Option FBConfig := fun _ _ _ => none
  /-- The call `RegisterClass(&wc)`. -/
  RegisterClass : Nat := 0
  /-- The call `AdjustWindowRectEx(&rect, dwStyle, FALSE, dwExStyle)` on the
  rectangle `(left, top, right, bottom)`. -/
  AdjustWindowRectEx : Int × Int × Int × Int → Nat → Nat → Int × Int × Int × Int :=
    fun r _ _ => r
  /-- The origin `(left, top)` of the desktop work area. -/
  workArea : Int × Int := (0, 0)
  /-- The result of the `n`-th call of `CreateWindowEx` (counting from 1), given
  the extended style, the style, the position and the size. -/
  CreateWindowEx : Nat → Nat → Nat → Int × Int → Int × Int → Nat := fun _ _ _ _ _ => 0
  /-- The call `GetDC(handle)`. -/
  GetDC : Nat → Nat := fun _ => 0
  /-- The cursor position in client coordinates of the window, as
  `GetCursorPos` followed by `ScreenToClient` give it. -/
  cursorPos : Nat → Int × Int := fun _ => (0, 0)
  /-- Modelled from the spec: `_glfwSetVideoMode` is defined in another file;
  it applies the fullscreen video mode closest to the given width, height,
  bit depth and refresh rate and writes back the values it chose. The flag is
  the last argument of the call. -/
  setVideoMode : Int × Int × Int × Int → Bool → Int × Int × Int × Int := fun m _ => m
  /-- The call `MapVirtualKey(code, mapType)` of the keyboard layout: map type
  0 takes a virtual key code to a scan code, 1 a scan code to a virtual key
  code, 2 a virtual key code to a character. -/
  MapVirtualKey : Nat → Nat → Nat := fun _ _ => 0
  /-- The call `CharUpperW` on a single character passed in place of the
  pointer. -/
  CharUpperW : Nat → Nat := fun c => c
  /-- The call `ToUnicode(virtualKey, scanCode, keyboardState, buffer, 10, 0)`:
  its return value and the characters it writes to the buffer. -/
  ToUnicode : Nat → Nat → List Nat → Int × List Nat := fun _ _ _ => (0, [])
  /-- The call `GetWindowRect(handle, &rect)`: `none` when it fails, the
  rectangle `(left, top, right, bottom)` otherwise. -/
  GetWindowRect : Nat → Option (Int × Int × Int × Int) := fun _ => none
  /-- The call `DefWindowProc(hWnd, uMsg, wParam, lParam)`. -/
  DefWindowProc : Nat → Nat → Nat → Nat → Int := fun _ _ _ _ => 0

instance : Inhabited Env := ⟨{}⟩

/-! ## Attribute query and format enumeration -/

/-- The function `getPixelFormatAttrib`: the attribute of the pixel format, or 0
when the query fails. -/
def getPixelFormatAttrib (env : Env) (wgl : WGL) (pixelFormat attrib : Int) : Int :=
  match env.GetPixelFormatAttribivARB wgl.DC pixelFormat attrib with
  | none => 0
  | some value => value

/-- The body of the loop of `getFBConfigs` up to the assignment of `platformID`:
`none` when the iteration ends in `continue`, the fields written to
`result[*found]` otherwise. -/
def readFBConfig (env : Env) (wgl : WGL) (i : Int) : Option FBConfig :=
  if wgl.has_WGL_ARB_pixel_format then
    if getPixelFormatAttrib env wgl i WGL_SUPPORT_OPENGL_ARB = 0 ∨
        getPixelFormatAttrib env wgl i WGL_DRAW_TO_WINDOW_ARB = 0 ∨
        getPixelFormatAttrib env wgl i WGL_DOUBLE_BUFFER_ARB = 0 then
      none
    else if getPixelFormatAttrib env wgl i WGL_PIXEL_TYPE_ARB ≠ WGL_TYPE_RGBA_ARB then
      none
    else
      some
        { env.uninitialized with
          redBits := getPixelFormatAttrib env wgl i WGL_RED_BITS_ARB
          greenBits := getPixelFormatAttrib env wgl i WGL_GREEN_BITS_ARB
          blueBits := getPixelFormatAttrib env wgl i WGL_BLUE_BITS_ARB
          alphaBits := getPixelFormatAttrib env wgl i WGL_ALPHA_BITS_ARB
          depthBits := getPixelFormatAttrib env wgl i WGL_DEPTH_BITS_ARB
          stencilBits := getPixelFormatAttrib env wgl i WGL_STENCIL_BITS_ARB
          accumRedBits := getPixelFormatAttrib env wgl i WGL_ACCUM_RED_BITS_ARB
          accumGreenBits := getPixelFormatAttrib env wgl i WGL_ACCUM_GREEN_BITS_ARB
          accumBlueBits := getPixelFormatAttrib env wgl i WGL_ACCUM_BLUE_BITS_ARB
          accumAlphaBits := getPixelFormatAttrib env wgl i WGL_ACCUM_ALPHA_BITS_ARB
          auxBuffers := getPixelFormatAttrib env wgl i WGL_AUX_BUFFERS_ARB
          stereo := getPixelFormatAttrib env wgl i WGL_STEREO_ARB
          samples :=
            if wgl.has_WGL_ARB_multisample then
              getPixelFormatAttrib env wgl i WGL_SAMPLES_ARB
            else 0 }
  else
    let pfd := (env.DescribePixelFormat wgl.DC i true).2
    if (env.DescribePixelFormat wgl.DC i true).1 = 0 then
      none
    else if pfd.dwFlags &&& PFD_DRAW_TO_WINDOW = 0 ∨
        pfd.dwFlags &&& PFD_SUPPORT_OPENGL = 0 ∨
        pfd.dwFlags &&& PFD_DOUBLEBUFFER = 0 then
      none
    else if pfd.dwFlags &&& PFD_GENERIC_ACCELERATED = 0 ∧
        pfd.dwFlags &&& PFD_GENERIC_FORMAT ≠ 0 then
      none
    else if pfd.iPixelType ≠ PFD_TYPE_RGBA then
      none
    else
      some
        { env.uninitialized with
          redBits := pfd.cRedBits
          greenBits := pfd.cGreenBits
          blueBits := pfd.cBlueBits
          alphaBits := pfd.cAlphaBits
          depthBits := pfd.cDepthBits
          stencilBits := pfd.cStencilBits
          accumRedBits := pfd.cAccumRedBits
          accumGreenBits := pfd.cAccumGreenBits
          accumBlueBits := pfd.cAccumBlueBits
          accumAlphaBits := pfd.cAccumAlphaBits
          auxBuffers := pfd.cAuxBuffers
          stereo := if pfd.dwFlags &&& PFD_STEREO ≠ 0 then GL_TRUE else GL_FALSE
          samples := 0 }

/-- One iteration of the loop of `getFBConfigs` on the pair of the array
`result` and the counter `*found`: a rejected format leaves both as they are,
an accepted one is stored at index `*found` with `platformID = i` and the
counter moves on. -/
def getFBConfigsStep (env : Env) (wgl : WGL) (st : List FBConfig × Nat) (i : Nat) :
    List FBConfig × Nat :=
  match readFBConfig env wgl i with
  | none => st
  | some cfg => (st.1.set st.2 { cfg with platformID := i }, st.2 + 1)

/-- The value of `count` in `getFBConfigs`. -/
def formatCount (env : Env) (wgl : WGL) : Int :=
  if wgl.has_WGL_ARB_pixel_format then
    getPixelFormatAttrib env wgl 1 WGL_NUMBER_PIXEL_FORMATS_ARB
  else
    (env.DescribePixelFormat wgl.DC 1 false).1

/-- The function `getFBConfigs`. An error stands for `_glfwSetError(e)` followed
by `return NULL` (with `*found` left at 0); otherwise the result is the array
of `count` entries and the final value of `*found`, the loop
`for (i = 1; i <= count; i++)` being a fold over `1..count` (the count a driver
reports is far below `INT_MAX`, so the counter `i` does not overflow). -/
def getFBConfigs (env : Env) (wgl : WGL) : Except ErrorCode (List FBConfig × Nat) :=
  let count := formatCount env wgl
  if count = 0 then
    .error .GLFW_OPENGL_UNAVAILABLE
  else if !env.malloc count then
    .error .GLFW_OUT_OF_MEMORY
  else
    .ok ((List.range' 1 count.toNat).foldl (getFBConfigsStep env wgl)
      (List.replicate count.toNat env.uninitialized, 0))

/-! ## Execution state -/

/-- The state an operation on a window runs in: the window record, the library
globals, and three pieces of bookkeeping that the program itself does not
hold: the log of events, the number of `CreateWindowEx` calls made so far
(the ordinal of the newest native window), and how many native windows,
device contexts and rendering contexts are currently allocated. The list
`input` holds what the window procedure has sent out so far, and the list
`through` the values of the function pointers of the window record that calls
have gone through so far, in order (0 is a call through `NULL`). -/
structure State where
  window : GLFWwindow := {}
  lib : Library := {}
  log : List Event := []
  input : List InputEvent := []
  through : List Nat := []
  native : Nat := 0
  liveWindows : Nat := 0
  liveDCs : Nat := 0
  liveContexts : Nat := 0
  deriving DecidableEq, Repr, Inhabited

/-- Modelled from the spec: `_glfwSetError` is defined in another file; the
error is reported through an error signal the caller consults after the
call. -/
def setError (e : ErrorCode) (s : State) : State :=
  { s with lib := { s.lib with error := e } }

/-- Appends an event to the log. -/
def emit (ev : Event) (s : State) : State :=
  { s with log := s.log ++ [ev] }

/-- Records a call through the function pointer `fn` of the window record. -/
def callThrough (fn : Nat) (s : State) : State :=
  { s with through := s.through ++ [fn] }

/-- Replaces the member `WGL` of the window. -/
def setWGL (wgl : WGL) (s : State) : State :=
  { s with window := { s.window with WGL := wgl } }

/-- Modelled from the spec: `glfwMakeWindowCurrent` is defined in another
file; "make context current (window | none)" records which window's context
is current. -/
def glfwMakeWindowCurrent (w : WindowPtr) (s : State) : State :=
  { s with lib := { s.lib with currentWindow := w } }

/-! ## Context creation

A function that can leave defined behaviour returns an `Option`: `none` is an
execution that stores outside the local array `attribs`. -/

/-- The local array `int attribs[7]` of `createContext` with the index `i`. -/
structure AttribBuf where
  i : Nat
  attribs : List Int
  deriving DecidableEq, Repr

/-- The local declaration `int i = 0, attribs[7]`: seven unassigned entries. -/
def AttribBuf.declare (env : Env) : AttribBuf :=
  { i := 0, attribs := List.replicate 7 env.uninitializedInt }

/-- The statement `attribs[i++] = v`: undefined when `i` is not an index of
the array. -/
def AttribBuf.store (b : AttribBuf) (v : Int) : Option AttribBuf :=
  if b.i < b.attribs.length then
    some { i := b.i + 1, attribs := b.attribs.set b.i v }
  else none

/-- The value of `flags` in the block that handles `glForward` and `glDebug`. -/
def contextFlags (wndconfig : WndConfig) : Nat :=
  let flags : Nat := 0
  let flags :=
    if wndconfig.glForward then flags ||| WGL_CONTEXT_FORWARD_COMPATIBLE_BIT_ARB else flags
  let flags := if wndconfig.glDebug then flags ||| WGL_CONTEXT_DEBUG_BIT_ARB else flags
  flags

/-- The first two blocks that fill `attribs` in `createContext`: the explicit
version and the context flags. -/
def storeVersionAndFlags (wndconfig : WndConfig) (b : AttribBuf) : Option AttribBuf :=
  (if wndconfig.glMajor ≠ 1 ∨ wndconfig.glMinor ≠ 0 then
      (((b.store WGL_CONTEXT_MAJOR_VERSION_ARB).bind fun b =>
        b.store wndconfig.glMajor).bind fun b =>
        b.store WGL_CONTEXT_MINOR_VERSION_ARB).bind fun b =>
        b.store wndconfig.glMinor
    else some b).bind fun b =>
  if wndconfig.glForward ∨ wndconfig.glDebug then
    (b.store WGL_CONTEXT_FLAGS_ARB).bind fun b => b.store (contextFlags wndconfig)
  else some b

/-- The value of `flags` in the block that handles `glProfile`, once the two
support checks have passed. -/
def profileFlags (wndconfig : WndConfig) : Nat :=
  if wndconfig.glProfile = GLFW_OPENGL_CORE_PROFILE then
    WGL_CONTEXT_CORE_PROFILE_BIT_ARB
  else if wndconfig.glProfile = GLFW_OPENGL_COMPAT_PROFILE then
    WGL_CONTEXT_COMPATIBILITY_PROFILE_BIT_ARB
  else if wndconfig.glProfile = GLFW_OPENGL_ES2_PROFILE then
    WGL_CONTEXT_ES2_PROFILE_BIT_EXT
  else 0

/-- The two stores that end the block handling `glProfile`. -/
def storeProfile (wndconfig : WndConfig) (b : AttribBuf) : Option AttribBuf :=
  (b.store WGL_CONTEXT_PROFILE_MASK_ARB).bind fun b => b.store (profileFlags wndconfig)

/-- The end of the modern branch of `createContext`: the terminating zero, the
call through `window->WGL.CreateContextAttribsARB` with the attributes stored
so far, and the test of its result. -/
def finishCreateContextAttribs (env : Env) (share : Nat) (b : AttribBuf) (s : State) :
    Option (Bool × State) :=
  (b.store 0).bind fun b =>
  let attribs := b.attribs.take b.i
  let context := env.CreateContextAttribsARB s.window.WGL.DC share attribs
  let s := callThrough s.window.WGL.CreateContextAttribsARB s
  let s := emit (.CreateContextAttribsARB s.window.WGL.DC share attribs) s
  let s := setWGL { s.window.WGL with context := context } s
  if context = 0 then
    some (false, setError .GLFW_VERSION_UNAVAILABLE s)
  else
    some (true, { s with liveContexts := s.liveContexts + 1 })

/-- The value of `share` in `createContext`: the context of the window named
by `wndconfig->share`, or `NULL`. -/
def shareContext (wndconfig : WndConfig) : Nat :=
  match wndconfig.share with
  | some context => context
  | none => 0

/-- The function `createContext`. -/
def createContext (env : Env) (wndconfig : WndConfig) (pixelFormat : Int) (s : State) :
    Option (Bool × State) :=
  let share : Nat := shareContext wndconfig
  let described := env.DescribePixelFormat s.window.WGL.DC pixelFormat true
  if described.1 = 0 then
    some (false, setError .GLFW_OPENGL_UNAVAILABLE s)
  else if !env.SetPixelFormat s.window.WGL.DC pixelFormat described.2 then
    some (false, setError .GLFW_OPENGL_UNAVAILABLE s)
  else
    let s := emit (.readFlag .has_WGL_ARB_create_context s.native) s
    if s.window.WGL.has_WGL_ARB_create_context then
      (storeVersionAndFlags wndconfig (AttribBuf.declare env)).bind fun b =>
      if wndconfig.glProfile ≠ 0 then
        let s := emit (.readFlag .has_WGL_ARB_create_context_profile s.native) s
        if !s.window.WGL.has_WGL_ARB_create_context_profile then
          some (false, setError .GLFW_VERSION_UNAVAILABLE s)
        else if wndconfig.glProfile = GLFW_OPENGL_ES2_PROFILE then
          let s := emit (.readFlag .has_WGL_EXT_create_context_es2_profile s.native) s
          if !s.window.WGL.has_WGL_EXT_create_context_es2_profile then
            some (false, setError .GLFW_VERSION_UNAVAILABLE s)
          else
            (storeProfile wndconfig b).bind fun b => finishCreateContextAttribs env share b s
        else
          (storeProfile wndconfig b).bind fun b => finishCreateContextAttribs env share b s
      else
        finishCreateContextAttribs env share b s
    else
      let context := env.wglCreateContext s.window.WGL.DC
      let s := emit (.wglCreateContext s.window.WGL.DC) s
      let s := setWGL { s.window.WGL with context := context } s
      if context = 0 then
        some (false, setError .GLFW_PLATFORM_ERROR s)
      else
        let s := { s with liveContexts := s.liveContexts + 1 }
        if share ≠ 0 ∧ !env.wglShareLists share context then
          some (false, setError .GLFW_PLATFORM_ERROR s)
        else
          some (true, s)

/-! ## Extension capability cache -/

/-- The two blocks of assignments that open `initWGLExtensions`: every function
pointer loaded below is set to `NULL` and every flag listed there to
`GL_FALSE`. -/
def resetWGLExtensions (wgl : WGL) : WGL :=
  { wgl with
    SwapIntervalEXT := 0
    GetPixelFormatAttribivARB := 0
    GetExtensionsStringARB := 0
    GetExtensionsStringEXT := 0
    CreateContextAttribsARB := 0
    has_WGL_EXT_swap_control := false
    has_WGL_ARB_pixel_format := false
    has_WGL_ARB_multisample := false
    has_WGL_ARB_create_context := false
    has_WGL_ARB_create_context_profile := false }

/-- The lookup of the extension-string entry points: the `EXT` variant first,
the `ARB` variant when the first is not found. -/
def resolveExtensionsString (env : Env) (wgl : WGL) : WGL :=
  let wgl : WGL :=
    { wgl with
      GetExtensionsStringEXT := env.wglGetProcAddress wgl.context "wglGetExtensionsStringEXT" }
  if wgl.GetExtensionsStringEXT = 0 then
    { wgl with
      GetExtensionsStringARB := env.wglGetProcAddress wgl.context "wglGetExtensionsStringARB" }
  else wgl

/-- The probe of `WGL_ARB_multisample`. -/
def probeMultisample (env : Env) (wgl : WGL) : WGL :=
  if env.extensionSupported wgl.context "WGL_ARB_multisample" then
    { wgl with has_WGL_ARB_multisample := true }
  else wgl

/-- The probe of `WGL_ARB_create_context`. -/
def probeCreateContext (env : Env) (wgl : WGL) : WGL :=
  if env.extensionSupported wgl.context "WGL_ARB_create_context" then
    let wgl : WGL :=
      { wgl with
        CreateContextAttribsARB :=
          env.wglGetProcAddress wgl.context "wglCreateContextAttribsARB" }
    if wgl.CreateContextAttribsARB ≠ 0 then
      { wgl with has_WGL_ARB_create_context := true }
    else wgl
  else wgl

/-- The probe of `WGL_ARB_create_context_profile`. -/
def probeCreateContextProfile (env : Env) (wgl : WGL) : WGL :=
  if wgl.has_WGL_ARB_create_context then
    if env.extensionSupported wgl.context "WGL_ARB_create_context_profile" then
      { wgl with has_WGL_ARB_create_context_profile := true }
    else wgl
  else wgl

/-- The probe of `WGL_EXT_create_context_es2_profile`. -/
def probeES2Profile (env : Env) (wgl : WGL) : WGL :=
  if wgl.has_WGL_ARB_create_context ∧ wgl.has_WGL_ARB_create_context_profile then
    if env.extensionSupported wgl.context "WGL_EXT_create_context_es2_profile" then
      { wgl with has_WGL_EXT_create_context_es2_profile := true }
    else wgl
  else wgl

/-- The probe of `WGL_EXT_swap_control`. -/
def probeSwapControl (env : Env) (wgl : WGL) : WGL :=
  if env.extensionSupported wgl.context "WGL_EXT_swap_control" then
    let wgl : WGL :=
      { wgl with SwapIntervalEXT := env.wglGetProcAddress wgl.context "wglSwapIntervalEXT" }
    if wgl.SwapIntervalEXT ≠ 0 then
      { wgl with has_WGL_EXT_swap_control := true }
    else wgl
  else wgl

/-- The probe of `WGL_ARB_pixel_format`. -/
def probePixelFormat (env : Env) (wgl : WGL) : WGL :=
  if env.extensionSupported wgl.context "WGL_ARB_pixel_format" then
    let wgl : WGL :=
      { wgl with
        GetPixelFormatAttribivARB :=
          env.wglGetProcAddress wgl.context "wglGetPixelFormatAttribivARB" }
    if wgl.GetPixelFormatAttribivARB ≠ 0 then
      { wgl with has_WGL_ARB_pixel_format := true }
    else wgl
  else wgl

/-- The function `initWGLExtensions` on the member `WGL` of the window, whose
context is current: the blocks above in the order of the source, with the
early return when neither extension-string entry point resolves. -/
def initWGLExtensions (env : Env) (wgl : WGL) : WGL :=
  let wgl := resolveExtensionsString env (resetWGLExtensions wgl)
  if wgl.GetExtensionsStringEXT = 0 ∧ wgl.GetExtensionsStringARB = 0 then
    wgl
  else
    let wgl := probeMultisample env wgl
    let wgl := probeCreateContext env wgl
    let wgl := probeCreateContextProfile env wgl
    let wgl := probeES2Profile env wgl
    let wgl := probeSwapControl env wgl
    probePixelFormat env wgl

/-! ## Window creation -/

/-- The structure `RECT`. -/
structure RECT where
  left : Int
  top : Int
  right : Int
  bottom : Int
  deriving DecidableEq, Repr

/-- The value that a 32-bit `int` or `long` holds for the arithmetic result
`x`: the number of the range `-2^31 .. 2^31 - 1` that differs from `x` by a
multiple of `2^32`. It is `x` itself exactly when `x` is in that range; any
other `x` is an overflow of the source. -/
def toLong (x : Int) : Int := (x + 2 ^ 31) % 2 ^ 32 - 2 ^ 31

/-- The function `getFullWindowSize`: the pair `(*fullWidth, *fullHeight)`. The
members of the `RECT` are `long` and the results are `int`, both 32 bits wide:
every value stored and every result of the arithmetic goes through
`toLong`. -/
def getFullWindowSize (env : Env) (window : GLFWwindow) (clientWidth clientHeight : Int) :
    Int × Int :=
  let rect : RECT :=
    { left := 0, right := toLong (clientWidth - 1), top := 0,
      bottom := toLong (clientHeight - 1) }
  let adjusted :=
    env.AdjustWindowRectEx (rect.left, rect.top, rect.right, rect.bottom)
      window.Win32.dwStyle window.Win32.dwExStyle
  let rect : RECT :=
    { left := toLong adjusted.1, top := toLong adjusted.2.1, right := toLong adjusted.2.2.1,
      bottom := toLong adjusted.2.2.2 }
  (toLong (toLong (rect.right - rect.left) + 1), toLong (toLong (rect.bottom - rect.top) + 1))

/-- The function `choosePixelFormat`: the pixel format chosen, or 0. The first
statement of `getFBConfigs` reads `has_WGL_ARB_pixel_format`; that read is
logged here, for the native window the record refers to. When the flag is
set, `getFBConfigs` queries the format count and the attributes of each format
through `getPixelFormatAttrib`, each time by a call through
`window->WGL.GetPixelFormatAttribivARB`; the record does not change during the
enumeration, and the pointer these calls go through is recorded once. -/
def choosePixelFormat (env : Env) (fbconfig : FBConfig) (s : State) : Int × State :=
  let s := emit (.readFlag .has_WGL_ARB_pixel_format s.native) s
  let s :=
    if s.window.WGL.has_WGL_ARB_pixel_format then
      callThrough s.window.WGL.GetPixelFormatAttribivARB s
    else s
  match getFBConfigs env s.window.WGL with
  | .error e => (0, setError e s)
  | .ok (fbconfigs, fbcount) =>
    match env.chooseFBConfig fbconfig fbconfigs fbcount with
    | none => (0, s)
    | some closest => (closest.platformID, s)

/-- The window styles `(dwStyle, dwExStyle)` that `createWindow` computes. -/
def windowStyles (window : GLFWwindow) (wndconfig : WndConfig) : Nat × Nat :=
  let dwStyle := WS_CLIPSIBLINGS ||| WS_CLIPCHILDREN ||| WS_VISIBLE
  let dwExStyle := WS_EX_APPWINDOW
  if window.mode = GLFW_FULLSCREEN then
    (dwStyle ||| WS_POPUP, dwExStyle)
  else
    let dwStyle := dwStyle ||| (WS_OVERLAPPED ||| WS_CAPTION ||| WS_SYSMENU ||| WS_MINIMIZEBOX)
    if !wndconfig.windowNoResize then
      (dwStyle ||| (WS_MAXIMIZEBOX ||| WS_SIZEBOX), dwExStyle ||| WS_EX_WINDOWEDGE)
    else
      (dwStyle, dwExStyle)

/-- The end of `createWindow`, after `createContext` has succeeded: the context
is made current, the extensions are probed and the mouse position is read. -/
def finishCreateWindow (env : Env) (s : State) : State :=
  let s := glfwMakeWindowCurrent .this s
  let s := emit (.initWGLExtensions s.native) s
  let s := setWGL (initWGLExtensions env s.window.WGL) s
  let pos := env.cursorPos s.window.Win32.handle
  { s with
    window :=
      { s.window with
        mousePosX := pos.1
        mousePosY := pos.2
        Win32 := { s.window.Win32 with oldMouseX := pos.1, oldMouseY := pos.2 } } }

/-- The beginning of `createWindow`, through the call of `CreateWindowEx`: the
styles are computed and remembered, the full size and the position are
computed, and the handle returned is stored in the window. -/
def createNativeWindow (env : Env) (wndconfig : WndConfig) (s : State) : State :=
  let s := emit .createWindow s
  let styles := windowStyles s.window wndconfig
  let s :=
    { s with
      window :=
        { s.window with
          Win32 := { s.window.Win32 with dwStyle := styles.1, dwExStyle := styles.2 } } }
  let full := getFullWindowSize env s.window s.window.width s.window.height
  let wa : Int × Int := if s.window.mode = GLFW_FULLSCREEN then (0, 0) else env.workArea
  let handle :=
    env.CreateWindowEx (s.native + 1) s.window.Win32.dwExStyle s.window.Win32.dwStyle wa full
  { s with
    native := s.native + 1
    window := { s.window with Win32 := { s.window.Win32 with handle := handle } } }

/-- The function `createWindow`. -/
def createWindow (env : Env) (wndconfig : WndConfig) (fbconfig : FBConfig) (s : State) :
    Option (Bool × State) :=
  let s := createNativeWindow env wndconfig s
  if s.window.Win32.handle = 0 then
    some (false, setError .GLFW_PLATFORM_ERROR s)
  else
    let s := { s with liveWindows := s.liveWindows + 1 }
    let dc := env.GetDC s.window.Win32.handle
    let s := setWGL { s.window.WGL with DC := dc } s
    if dc = 0 then
      some (false, setError .GLFW_PLATFORM_ERROR s)
    else
      let s := { s with liveDCs := s.liveDCs + 1 }
      let chosen := choosePixelFormat env fbconfig s
      if chosen.1 = 0 then
        some (false, chosen.2)
      else
        (createContext env wndconfig chosen.1 chosen.2).bind fun created =>
        if !created.1 then
          some (false, created.2)
        else
          some (true, finishCreateWindow env created.2)

/-- The first two blocks of `destroyWindow` (those duplicated from
`glfwCloseWindow`): the window stops being the current and the active
window. -/
def forgetWindow (s : State) : State :=
  let s := if s.lib.currentWindow = .this then glfwMakeWindowCurrent .null s else s
  if s.lib.activeWindow = .this then { s with lib := { s.lib with activeWindow := .null } }
  else s

/-- The block of `destroyWindow` that deletes the rendering context. -/
def deleteContext (s : State) : State :=
  if s.window.WGL.context ≠ 0 then
    { setWGL { s.window.WGL with context := 0 } s with liveContexts := s.liveContexts - 1 }
  else s

/-- The block of `destroyWindow` that releases the device context. -/
def releaseDC (s : State) : State :=
  if s.window.WGL.DC ≠ 0 then
    { setWGL { s.window.WGL with DC := 0 } s with liveDCs := s.liveDCs - 1 }
  else s

/-- The block of `destroyWindow` that destroys the native window. -/
def destroyNativeWindow (s : State) : State :=
  if s.window.Win32.handle ≠ 0 then
    { s with
      window := { s.window with Win32 := { s.window.Win32 with handle := 0 } }
      liveWindows := s.liveWindows - 1 }
  else s

/-- The function `destroyWindow`: its blocks in the order of the source. -/
def destroyWindow (s : State) : State :=
  let s := emit (.destroyWindow s.native) s
  let s := forgetWindow s
  let s := deleteContext s
  let s := releaseDC s
  destroyNativeWindow s

/-- The function `registerWindowClass`: the class atom, or 0 with the error
set. -/
def registerWindowClass (env : Env) (s : State) : Nat × State :=
  let classAtom := env.RegisterClass
  if classAtom = 0 then
    (0, setError .GLFW_PLATFORM_ERROR s)
  else
    (classAtom, s)

/-- The fullscreen block of `_glfwPlatformOpenWindow`: the monitor record after
the video mode has been set. -/
def setFullscreenMode (env : Env) (wndconfig : WndConfig) (fbconfig : FBConfig) (s : State) :
    State :=
  let bpp := fbconfig.redBits + fbconfig.greenBits + fbconfig.blueBits
  let bpp := if bpp < 15 ∨ bpp ≥ 24 then 32 else bpp
  let applied :=
    env.setVideoMode (s.window.width, s.window.height, bpp, wndconfig.refreshRate) false
  { s with
    lib :=
      { s.lib with
        monitor :=
          { width := applied.1
            height := applied.2.1
            bitsPerPixel := applied.2.2.1
            refreshRate := applied.2.2.2
            modeChanged := true } } }

/-- The part of `_glfwPlatformOpenWindow` after the first `createWindow` has
succeeded: the capability checks, the decision to recreate and the
recreation. The calls that follow a successful creation (`SetWindowPos`,
`setForegroundWindow`, `SetFocus`) change nothing in the state. -/
def negotiate (env : Env) (wndconfig : WndConfig) (fbconfig : FBConfig) (s : State) :
    Option (Bool × State) :=
  let recreateContext := false
  let recreateContext :=
    if (wndconfig.glMajor ≠ 1 ∨ wndconfig.glMinor ≠ 0) ∧
        s.window.WGL.has_WGL_ARB_create_context then true
    else recreateContext
  if (wndconfig.glForward ∨ wndconfig.glDebug) ∧
      !s.window.WGL.has_WGL_ARB_create_context then
    some (false, setError .GLFW_VERSION_UNAVAILABLE s)
  else
    let recreateContext :=
      if wndconfig.glForward ∨ wndconfig.glDebug then true else recreateContext
    if wndconfig.glProfile ≠ 0 ∧ !s.window.WGL.has_WGL_ARB_create_context_profile then
      some (false, setError .GLFW_VERSION_UNAVAILABLE s)
    else
      let recreateContext := if wndconfig.glProfile ≠ 0 then true else recreateContext
      let recreateContext :=
        if fbconfig.samples > 0 ∧ s.window.WGL.has_WGL_ARB_multisample ∧
            s.window.WGL.has_WGL_ARB_pixel_format then true
        else recreateContext
      if recreateContext then
        (createWindow env wndconfig fbconfig (destroyWindow s)).bind fun recreated =>
        if !recreated.1 then some (false, recreated.2) else some (true, recreated.2)
      else
        some (true, s)

/-- The beginning of `_glfwPlatformOpenWindow`, up to the first call of
`createWindow`: the desired refresh rate is stored, the window class is
registered if it is not yet, and for a fullscreen window the video mode is set.
The result is `false` when the function returns `GL_FALSE` here. -/
def openWindowPrologue (env : Env) (wndconfig : WndConfig) (fbconfig : FBConfig)
    (s : State) : Bool × State :=
  let s :=
    { s with
      window :=
        { s.window with
          Win32 := { s.window.Win32 with desiredRefreshRate := wndconfig.refreshRate } } }
  let registered : Nat × State :=
    if s.lib.classAtom = 0 then
      let r := registerWindowClass env s
      (r.1, { r.2 with lib := { r.2.lib with classAtom := r.1 } })
    else (s.lib.classAtom, s)
  if registered.1 = 0 then
    (false, registered.2)
  else
    let s := registered.2
    (true,
      if s.window.mode = GLFW_FULLSCREEN then setFullscreenMode env wndconfig fbconfig s else s)

/-- The function `_glfwPlatformOpenWindow`. -/
def _glfwPlatformOpenWindow (env : Env) (wndconfig : WndConfig) (fbconfig : FBConfig)
    (s : State) : Option (Bool × State) :=
  let started := openWindowPrologue env wndconfig fbconfig s
  if !started.1 then
    some (false, started.2)
  else
    (createWindow env wndconfig fbconfig started.2).bind fun first =>
    if !first.1 then
      some (false, first.2)
    else
      negotiate env wndconfig fbconfig first.2

/-! ## Key and character translation -/

/-- The macro `LOWORD`: bits 0 to 15 of the word. -/
def LOWORD (l : Nat) : Nat := l &&& 0xFFFF

/-- The macro `HIWORD`: bits 16 to 31 of the word. -/
def HIWORD (l : Nat) : Nat := (l >>> 16) &&& 0xFFFF

/-- The first `switch` of `translateKey`: the virtual key codes that name a
key of the numeric keypad when Num Lock is off, each with the key identifier
returned for it. -/
def keypadOverlap : List (Nat × Int) :=
  [ (VK_INSERT, GLFW_KEY_KP_0),
    (VK_END, GLFW_KEY_KP_1),
    (VK_DOWN, GLFW_KEY_KP_2),
    (VK_NEXT, GLFW_KEY_KP_3),
    (VK_LEFT, GLFW_KEY_KP_4),
    (VK_CLEAR, GLFW_KEY_KP_5),
    (VK_RIGHT, GLFW_KEY_KP_6),
    (VK_HOME, GLFW_KEY_KP_7),
    (VK_UP, GLFW_KEY_KP_8),
    (VK_PRIOR, GLFW_KEY_KP_9),
    (VK_DIVIDE, GLFW_KEY_KP_DIVIDE),
    (VK_MULTIPLY, GLFW_KEY_KP_MULTIPLY),
    (VK_SUBTRACT, GLFW_KEY_KP_SUBTRACT),
    (VK_ADD, GLFW_KEY_KP_ADD),
    (VK_DELETE, GLFW_KEY_KP_DECIMAL) ]

/-- The check for numeric keypad keys that opens `translateKey`: when bit 8 of
the high word of `lParam` is clear, the scan code in its low byte is mapped to
a virtual key code and looked up in `keypadOverlap`. -/
def keypadKey (env : Env) (lParam : Nat) : Option Int :=
  let hiFlags := HIWORD lParam
  if hiFlags &&& 0x100 = 0 then
    keypadOverlap.lookup (env.MapVirtualKey (hiFlags &&& 0xFF) 1)
  else none

/-- The case labels of the second `switch` of `translateKey` that return a
fixed key identifier. -/
def specialKeys : List (Nat × Int) :=
  [ (VK_ESCAPE, GLFW_KEY_ESC),
    (VK_TAB, GLFW_KEY_TAB),
    (VK_BACK, GLFW_KEY_BACKSPACE),
    (VK_HOME, GLFW_KEY_HOME),
    (VK_END, GLFW_KEY_END),
    (VK_PRIOR, GLFW_KEY_PAGEUP),
    (VK_NEXT, GLFW_KEY_PAGEDOWN),
    (VK_INSERT, GLFW_KEY_INSERT),
    (VK_DELETE, GLFW_KEY_DEL),
    (VK_LEFT, GLFW_KEY_LEFT),
    (VK_UP, GLFW_KEY_UP),
    (VK_RIGHT, GLFW_KEY_RIGHT),
    (VK_DOWN, GLFW_KEY_DOWN),
    (VK_F1, GLFW_KEY_F1),
    (VK_F2, GLFW_KEY_F2),
    (VK_F3, GLFW_KEY_F3),
    (VK_F4, GLFW_KEY_F4),
    (VK_F5, GLFW_KEY_F5),
    (VK_F6, GLFW_KEY_F6),
    (VK_F7, GLFW_KEY_F7),
    (VK_F8, GLFW_KEY_F8),
    (VK_F9, GLFW_KEY_F9),
    (VK_F10, GLFW_KEY_F10),
    (VK_F11, GLFW_KEY_F11),
    (VK_F12, GLFW_KEY_F12),
    (VK_F13, GLFW_KEY_F13),
    (VK_F14, GLFW_KEY_F14),
    (VK_F15, GLFW_KEY_F15),
    (VK_F16, GLFW_KEY_F16),
    (VK_F17, GLFW_KEY_F17),
    (VK_F18, GLFW_KEY_F18),
    (VK_F19, GLFW_KEY_F19),
    (VK_F20, GLFW_KEY_F20),
    (VK_F21, GLFW_KEY_F21),
    (VK_F22, GLFW_KEY_F22),
    (VK_F23, GLFW_KEY_F23),
    (VK_F24, GLFW_KEY_F24),
    (VK_SPACE, GLFW_KEY_SPACE),
    (VK_NUMPAD0, GLFW_KEY_KP_0),
    (VK_NUMPAD1, GLFW_KEY_KP_1),
    (VK_NUMPAD2, GLFW_KEY_KP_2),
    (VK_NUMPAD3, GLFW_KEY_KP_3),
    (VK_NUMPAD4, GLFW_KEY_KP_4),
    (VK_NUMPAD5, GLFW_KEY_KP_5),
    (VK_NUMPAD6, GLFW_KEY_KP_6),
    (VK_NUMPAD7, GLFW_KEY_KP_7),
    (VK_NUMPAD8, GLFW_KEY_KP_8),
    (VK_NUMPAD9, GLFW_KEY_KP_9),
    (VK_DIVIDE, GLFW_KEY_KP_DIVIDE),
    (VK_MULTIPLY, GLFW_KEY_KP_MULTIPLY),
    (VK_SUBTRACT, GLFW_KEY_KP_SUBTRACT),
    (VK_ADD, GLFW_KEY_KP_ADD),
    (VK_DECIMAL, GLFW_KEY_KP_DECIMAL),
    (VK_NUMLOCK, GLFW_KEY_KP_NUM_LOCK),
    (VK_CAPITAL, GLFW_KEY_CAPS_LOCK),
    (VK_SCROLL, GLFW_KEY_SCROLL_LOCK),
    (VK_PAUSE, GLFW_KEY_PAUSE),
    (VK_LWIN, GLFW_KEY_LSUPER),
    (VK_RWIN, GLFW_KEY_RSUPER),
    (VK_APPS, GLFW_KEY_MENU) ]

/-- The case `VK_SHIFT` of `translateKey`. -/
def translateShift (env : Env) (lParam : Nat) : Int :=
  let scan_code := env.MapVirtualKey VK_RSHIFT 0
  if (lParam &&& 0x01ff0000) >>> 16 = scan_code then GLFW_KEY_RSHIFT
  else GLFW_KEY_LSHIFT

/-- The case `VK_CONTROL` of `translateKey`. -/
def translateControl (queue : MessageContext) (lParam : Nat) : Int :=
  if lParam &&& 0x01000000 ≠ 0 then GLFW_KEY_RCTRL
  else
    let msg_time := queue.time
    match queue.next with
    | some next_msg =>
      if next_msg.message = WM_KEYDOWN ∨ next_msg.message = WM_SYSKEYDOWN then
        if next_msg.wParam = VK_MENU ∧ next_msg.lParam &&& 0x01000000 ≠ 0 ∧
            next_msg.time = msg_time then
          GLFW_KEY_UNKNOWN
        else GLFW_KEY_LCTRL
      else GLFW_KEY_LCTRL
    | none => GLFW_KEY_LCTRL

/-- The case `default` of `translateKey`. -/
def translatePrintable (env : Env) (wParam : Nat) : Int :=
  let wParam := env.MapVirtualKey (wParam % 2 ^ 32) 2 &&& 0x0000FFFF
  let wParam := env.CharUpperW wParam
  if (wParam ≥ 32 ∧ wParam ≤ 126) ∨ (wParam ≥ 160 ∧ wParam ≤ 255) then (wParam : Int)
  else GLFW_KEY_UNKNOWN

/-- The function `translateKey`. -/
def translateKey (env : Env) (queue : MessageContext) (wParam lParam : Nat) : Int :=
  match keypadKey env lParam with
  | some key => key
  | none =>
    if wParam = VK_SHIFT then translateShift env lParam
    else if wParam = VK_CONTROL then translateControl queue lParam
    else if wParam = VK_MENU then
      if lParam &&& 0x01000000 ≠ 0 then GLFW_KEY_RALT else GLFW_KEY_LALT
    else if wParam = VK_RETURN then
      if lParam &&& 0x01000000 ≠ 0 then GLFW_KEY_KP_ENTER else GLFW_KEY_ENTER
    else
      match specialKeys.lookup wParam with
      | some key => key
      | none => translatePrintable env wParam

/-- Appends an event to what the window procedure has sent out. -/
def send (ev : InputEvent) (s : State) : State :=
  { s with input := s.input ++ [ev] }

/-- The function `translateChar`, on the parameters truncated to `DWORD`. -/
def translateChar (env : Env) (queue : MessageContext) (wParam lParam : Nat) (s : State) :
    State :=
  let scan_code := (lParam &&& 0x01ff0000) >>> 16
  let (num_chars, unicode_buf) := env.ToUnicode wParam scan_code queue.keyboardState
  (unicode_buf.take num_chars.toNat).foldl (fun s c => send (.inputChar (c : Int)) s) s

/-! ## Window procedure -/

/-- The conversion `(int)((short) w)` of a 16-bit word. -/
def toShort (w : Nat) : Int :=
  if w % 2 ^ 16 < 2 ^ 15 then ((w % 2 ^ 16 : Nat) : Int)
  else ((w % 2 ^ 16 : Nat) : Int) - 2 ^ 16

/-- The conversion `(int) w` of a message parameter: the low 32 bits, read as
a signed number. -/
def toInt32 (w : Nat) : Int :=
  if w % 2 ^ 32 < 2 ^ 31 then ((w % 2 ^ 32 : Nat) : Int)
  else ((w % 2 ^ 32 : Nat) : Int) - 2 ^ 32

/-- The function `_glfwPlatformShowMouseCursor`. -/
def _glfwPlatformShowMouseCursor (s : State) : State :=
  let s := send .ReleaseCapture s
  let s := send (.ClipCursor none) s
  send (.ShowCursor true) s

/-- The function `_glfwPlatformHideMouseCursor`. -/
def _glfwPlatformHideMouseCursor (env : Env) (s : State) : State :=
  let s := send (.ShowCursor false) s
  let s :=
    match env.GetWindowRect s.window.Win32.handle with
    | some ClipWindowRect => send (.ClipCursor (some ClipWindowRect)) s
    | none => s
  send (.SetCapture s.window.Win32.handle) s

/-- The function `_glfwPlatformIconifyWindow`. -/
def _glfwPlatformIconifyWindow (s : State) : State :=
  send (.ShowWindow s.window.Win32.handle SW_MINIMIZE) s

/-- The update of the clipping rectangle in the cases `WM_SIZE` and `WM_MOVE`
of `windowProc`. -/
def updateClipRect (env : Env) (s : State) : State :=
  if s.lib.cursorLockWindow = .this then
    match env.GetWindowRect s.window.Win32.handle with
    | some ClipWindowRect => send (.ClipCursor (some ClipWindowRect)) s
    | none => s
  else s

/-- The branch of the case `WM_ACTIVATE` taken when the window was deactivated
or iconified. -/
def deactivated (iconified : Bool) (s : State) : State :=
  let s := if s.lib.cursorLockWindow = .this then _glfwPlatformShowMouseCursor s else s
  if s.window.mode = GLFW_FULLSCREEN then
    let s := if ¬ iconified then _glfwPlatformIconifyWindow s else s
    if s.lib.monitor.modeChanged then
      let s := send .restoreVideoMode s
      { s with lib := { s.lib with monitor := { s.lib.monitor with modeChanged := false } } }
    else s
  else s

/-- The branch of the case `WM_ACTIVATE` taken when the window was
activated. -/
def activated (env : Env) (s : State) : State :=
  let s := if s.lib.cursorLockWindow = .this then _glfwPlatformHideMouseCursor env s else s
  if s.window.mode = GLFW_FULLSCREEN then
    if ¬ s.lib.monitor.modeChanged then
      let applied := env.setVideoMode (s.lib.monitor.width, s.lib.monitor.height,
        s.lib.monitor.bitsPerPixel, s.lib.monitor.refreshRate) true
      { s with
        lib :=
          { s.lib with
            monitor :=
              { width := applied.1
                height := applied.2.1
                bitsPerPixel := applied.2.2.1
                refreshRate := applied.2.2.2
                modeChanged := true } } }
    else s
  else s

/-- The end of the case `WM_ACTIVATE`: the focus sink is told, and a change of
the iconified state is recorded and reported. -/
def reportActivation (active iconified : Bool) (s : State) : State :=
  let s := send (.inputWindowFocus active) s
  let iconified : Int := if iconified then 1 else 0
  if iconified ≠ s.window.iconified then
    let s := { s with window := { s.window with iconified := iconified } }
    if s.lib.windowIconifyCallback then send (.windowIconifyCallback s.window.iconified) s
    else s
  else s

/-- The case `WM_ACTIVATE` of `windowProc`. -/
def onActivate (env : Env) (wParam : Nat) (s : State) : Int × State :=
  let active : Bool := LOWORD wParam ≠ WA_INACTIVE
  let iconified : Bool := HIWORD wParam ≠ 0
  let active : Bool := if active ∧ iconified then false else active
  let s :=
    if ¬ active ∧ s.lib.activeWindow = .this then deactivated iconified s
    else if active ∧ s.lib.activeWindow ≠ .this then activated env s
    else s
  (0, reportActivation active iconified s)

/-- The case `WM_SYSCOMMAND` of `windowProc`: the result when the procedure
returns from within the case, `none` when it goes on to `DefWindowProc`. -/
def onSysCommand (wParam : Nat) (s : State) : Option Int :=
  let command := wParam &&& 0xfff0
  if command = SC_SCREENSAVE ∨ command = SC_MONITORPOWER then
    if s.window.mode = GLFW_FULLSCREEN then some 0 else none
  else if command = SC_KEYMENU then some 0
  else none

/-- The cases `WM_KEYDOWN` and `WM_SYSKEYDOWN` of `windowProc`. -/
def onKeyDown (env : Env) (queue : MessageContext) (wParam lParam : Nat) (s : State) :
    Int × State :=
  let s := send (.translateKey wParam lParam) s
  let s := send (.inputKey (translateKey env queue wParam lParam) GLFW_PRESS) s
  let s :=
    if s.lib.charCallback then translateChar env queue (wParam % 2 ^ 32) (lParam % 2 ^ 32) s
    else s
  (0, s)

/-- The cases `WM_KEYUP` and `WM_SYSKEYUP` of `windowProc`. -/
def onKeyUp (env : Env) (queue : MessageContext) (wParam lParam : Nat) (s : State) :
    Int × State :=
  let s :=
    if wParam = VK_SHIFT then
      let s := send (.inputKey GLFW_KEY_LSHIFT GLFW_RELEASE) s
      send (.inputKey GLFW_KEY_RSHIFT GLFW_RELEASE) s
    else
      let s := send (.translateKey wParam lParam) s
      send (.inputKey (translateKey env queue wParam lParam) GLFW_RELEASE) s
  (0, s)

/-- The cases of `windowProc` for a button of the mouse going down. -/
def onButtonDown (hWnd : Nat) (button : Int) (s : State) : State :=
  let s := send (.SetCapture hWnd) s
  send (.inputMouseClick button GLFW_PRESS) s

/-- The cases of `windowProc` for a button of the mouse going up. -/
def onButtonUp (button : Int) (s : State) : State :=
  let s := send .ReleaseCapture s
  send (.inputMouseClick button GLFW_RELEASE) s

/-- The case `WM_XBUTTONDOWN` of `windowProc`. -/
def onXButtonDown (hWnd wParam : Nat) (s : State) : Int × State :=
  let s :=
    if HIWORD wParam = XBUTTON1 then onButtonDown hWnd GLFW_MOUSE_BUTTON_4 s
    else if HIWORD wParam = XBUTTON2 then onButtonDown hWnd GLFW_MOUSE_BUTTON_5 s
    else s
  (1, s)

/-- The case `WM_XBUTTONUP` of `windowProc`. -/
def onXButtonUp (wParam : Nat) (s : State) : Int × State :=
  let s :=
    if HIWORD wParam = XBUTTON1 then onButtonUp GLFW_MOUSE_BUTTON_4 s
    else if HIWORD wParam = XBUTTON2 then onButtonUp GLFW_MOUSE_BUTTON_5 s
    else s
  (1, s)

/-- The case `WM_MOUSEMOVE` of `windowProc`. -/
def onMouseMove (lParam : Nat) (s : State) : Int × State :=
  let newMouseX := toShort (LOWORD lParam)
  let newMouseY := toShort (HIWORD lParam)
  let s :=
    if newMouseX ≠ s.window.Win32.oldMouseX ∨ newMouseY ≠ s.window.Win32.oldMouseY then
      let window := s.window
      let window : GLFWwindow :=
        if s.lib.cursorLockWindow = .this then
          { window with
            mousePosX := window.mousePosX + (newMouseX - window.Win32.oldMouseX)
            mousePosY := window.mousePosY + (newMouseY - window.Win32.oldMouseY) }
        else
          { window with mousePosX := newMouseX, mousePosY := newMouseY }
      let window : GLFWwindow :=
        { window with
          Win32 :=
            { window.Win32 with
              oldMouseX := newMouseX, oldMouseY := newMouseY, mouseMoved := GL_TRUE } }
      let s := { s with window := window }
      if s.lib.mousePosCallback then
        send (.mousePosCallback s.window.mousePosX s.window.mousePosY) s
      else s
    else s
  (0, s)

/-- The amount `(((int) wParam) >> 16) / WHEEL_DELTA` of the wheel cases of
`windowProc`: the shift of the signed value is the arithmetic one of the
compilers for this platform, the division truncates toward zero. -/
def wheelSteps (wParam : Nat) : Int :=
  Int.tdiv (toInt32 wParam >>> (16 : Nat)) WHEEL_DELTA

/-- The case `WM_SIZE` of `windowProc`. -/
def onSize (env : Env) (lParam : Nat) (s : State) : Int × State :=
  let s : State :=
    { s with window := { s.window with width := LOWORD lParam, height := HIWORD lParam } }
  let s := updateClipRect env s
  let s :=
    if s.lib.windowSizeCallback then send (.windowSizeCallback s.window.width s.window.height) s
    else s
  (0, s)

/-- The case `WM_MOVE` of `windowProc`. -/
def onMove (env : Env) (lParam : Nat) (s : State) : Int × State :=
  let s : State :=
    { s with
      window := { s.window with positionX := LOWORD lParam, positionY := HIWORD lParam } }
  (0, updateClipRect env s)

/-- The function `windowProc`, for a message to the window of the state: the
value it returns and the state it leaves. The window record is the one that
`GetWindowLongPtr(hWnd, 0)` gives. -/
def windowProc (env : Env) (queue : MessageContext) (hWnd uMsg wParam lParam : Nat)
    (s : State) : Int × State :=
  if uMsg = WM_CREATE then
    (env.DefWindowProc hWnd uMsg wParam lParam, send (.SetWindowLongPtr hWnd) s)
  else if uMsg = WM_ACTIVATE then onActivate env wParam s
  else if uMsg = WM_SYSCOMMAND then
    match onSysCommand wParam s with
    | some result => (result, s)
    | none => (env.DefWindowProc hWnd uMsg wParam lParam, s)
  else if uMsg = WM_CLOSE then
    (0, { s with window := { s.window with closeRequested := GL_TRUE } })
  else if uMsg = WM_KEYDOWN ∨ uMsg = WM_SYSKEYDOWN then onKeyDown env queue wParam lParam s
  else if uMsg = WM_KEYUP ∨ uMsg = WM_SYSKEYUP then onKeyUp env queue wParam lParam s
  else if uMsg = WM_LBUTTONDOWN then (0, onButtonDown hWnd GLFW_MOUSE_BUTTON_LEFT s)
  else if uMsg = WM_RBUTTONDOWN then (0, onButtonDown hWnd GLFW_MOUSE_BUTTON_RIGHT s)
  else if uMsg = WM_MBUTTONDOWN then (0, onButtonDown hWnd GLFW_MOUSE_BUTTON_MIDDLE s)
  else if uMsg = WM_XBUTTONDOWN then onXButtonDown hWnd wParam s
  else if uMsg = WM_LBUTTONUP then (0, onButtonUp GLFW_MOUSE_BUTTON_LEFT s)
  else if uMsg = WM_RBUTTONUP then (0, onButtonUp GLFW_MOUSE_BUTTON_RIGHT s)
  else if uMsg = WM_MBUTTONUP then (0, onButtonUp GLFW_MOUSE_BUTTON_MIDDLE s)
  else if uMsg = WM_XBUTTONUP then onXButtonUp wParam s
  else if uMsg = WM_MOUSEMOVE then onMouseMove lParam s
  else if uMsg = WM_MOUSEWHEEL then (0, send (.inputScroll 0 (wheelSteps wParam)) s)
  else if uMsg = WM_MOUSEHWHEEL then (0, send (.inputScroll (wheelSteps wParam) 0) s)
  else if uMsg = WM_SIZE then onSize env lParam s
  else if uMsg = WM_MOVE then onMove env lParam s
  else if uMsg = WM_PAINT then
    let s := if s.lib.windowRefreshCallback then send .windowRefreshCallback s else s
    (env.DefWindowProc hWnd uMsg wParam lParam, s)
  else (env.DefWindowProc hWnd uMsg wParam lParam, s)

/-- A message as it is dispatched: the message and what the thread answers
while the window procedure handles it. -/
structure Dispatch where
  msg : MSG := {}
  queue : MessageContext := {}
  deriving DecidableEq, Repr, Inhabited

/-- The window procedure run on a sequence of messages to the window with the
given handle, one after the other. -/
def dispatchAll (env : Env) (hWnd : Nat) (msgs : List Dispatch) (s : State) : State :=
  msgs.foldl
    (fun s d => (windowProc env d.queue hWnd d.msg.message d.msg.wParam d.msg.lParam s).2) s

/-! ## Swap interval -/

/-- The function `bpp2rgb`: the values written to `*r`, `*g` and `*b`. -/
def bpp2rgb (bpp : Int) : Int × Int × Int :=
  let bpp := if bpp = 32 then 24 else bpp
  let r := Int.tdiv bpp 3
  let g := r
  let b := r
  let delta := bpp - r * 3
  let g := if delta ≥ 1 then g + 1 else g
  let r := if delta = 2 then r + 1 else r
  (r, g, b)

/-! ## What the enumeration filter means -/

/-- Whether the modern attribute query for the format answers with a non-zero
value. -/
def attribNonZero (env : Env) (wgl : WGL) (i attrib : Int) : Bool :=
  match env.GetPixelFormatAttribivARB wgl.DC i attrib with
  | some value => value != 0
  | none => false

/-- Whether the descriptor of the format has one of the bits of `flag` set. -/
def descriptorFlag (env : Env) (wgl : WGL) (i : Int) (flag : Nat) : Bool :=
  (env.DescribePixelFormat wgl.DC i true).2.dwFlags &&& flag != 0

/-- Whether the legacy description of the format succeeds. -/
def isDescribed (env : Env) (wgl : WGL) (i : Int) : Bool :=
  (env.DescribePixelFormat wgl.DC i true).1 != 0

/-- The format can draw to a window. -/
def isWindowDrawable (env : Env) (wgl : WGL) (i : Int) : Bool :=
  if wgl.has_WGL_ARB_pixel_format then attribNonZero env wgl i WGL_DRAW_TO_WINDOW_ARB
  else descriptorFlag env wgl i PFD_DRAW_TO_WINDOW

/-- The format is double-buffered. -/
def isDoubleBuffered (env : Env) (wgl : WGL) (i : Int) : Bool :=
  if wgl.has_WGL_ARB_pixel_format then attribNonZero env wgl i WGL_DOUBLE_BUFFER_ARB
  else descriptorFlag env wgl i PFD_DOUBLEBUFFER

/-- The format supports OpenGL. -/
def supportsOpenGL (env : Env) (wgl : WGL) (i : Int) : Bool :=
  if wgl.has_WGL_ARB_pixel_format then attribNonZero env wgl i WGL_SUPPORT_OPENGL_ARB
  else descriptorFlag env wgl i PFD_SUPPORT_OPENGL

/-- The format has the RGBA pixel type. -/
def isRGBA (env : Env) (wgl : WGL) (i : Int) : Bool :=
  if wgl.has_WGL_ARB_pixel_format then
    env.GetPixelFormatAttribivARB wgl.DC i WGL_PIXEL_TYPE_ARB == some WGL_TYPE_RGBA_ARB
  else (env.DescribePixelFormat wgl.DC i true).2.iPixelType == PFD_TYPE_RGBA

/-- The descriptor of the format is generic-accelerated, or is not that of a
generic (software) format. -/
def isAcceleratedOrNotGeneric (env : Env) (wgl : WGL) (i : Int) : Bool :=
  descriptorFlag env wgl i PFD_GENERIC_ACCELERATED || !descriptorFlag env wgl i PFD_GENERIC_FORMAT

/-- The filter of the enumeration, in the words of the specification: the
format is window-drawable, double-buffered, OpenGL-capable and RGBA, and on the
legacy path it can be described and is accelerated or not generic. -/
def passesFilter (env : Env) (wgl : WGL) (i : Int) : Bool :=
  isWindowDrawable env wgl i && isDoubleBuffered env wgl i && supportsOpenGL env wgl i &&
    isRGBA env wgl i &&
    (wgl.has_WGL_ARB_pixel_format ||
      (isDescribed env wgl i && isAcceleratedOrNotGeneric env wgl i))

/-- The indices of `1..n` whose format passes the filter, in ascending order. -/
def passingIndices (env : Env) (wgl : WGL) (n : Nat) : List Nat :=
  (List.range' 1 n).filter fun (i : Nat) => passesFilter env wgl (i : Int)

/-! ## Sample devices -/

/-- A descriptor with the window, OpenGL and double-buffer flags and the RGBA
pixel type, 8 bits per colour channel. -/
def samplePFD : PIXELFORMATDESCRIPTOR :=
  { dwFlags := PFD_DRAW_TO_WINDOW ||| PFD_SUPPORT_OPENGL ||| PFD_DOUBLEBUFFER
    iPixelType := PFD_TYPE_RGBA
    cRedBits := 8, cGreenBits := 8, cBlueBits := 8, cAlphaBits := 8
    cDepthBits := 24, cStencilBits := 8 }

/-- A legacy device with three formats: the second one is a generic software
format, the other two are usable. No extension is present. Native objects can
always be created. -/
def legacyDevice : Env :=
  { DescribePixelFormat := fun _ i _ =>
      if i = 1 ∨ i = 3 then (3, samplePFD)
      else if i = 2 then (3, { samplePFD with dwFlags := samplePFD.dwFlags ||| PFD_GENERIC_FORMAT })
      else (0, {})
    SetPixelFormat := fun _ _ _ => true
    wglCreateContext := fun dc => dc + 1
    wglShareLists := fun _ _ => true
    chooseFBConfig := fun _ configs found => (configs.take found).head?
    RegisterClass := 1
    CreateWindowEx := fun n _ _ _ _ => 10 * n
    GetDC := fun handle => handle + 1 }

/-- A device with the extensions: every extension is reported and every
entry point resolves. Its three formats are seen through the attribute query
(the second one is not double-buffered) and through the descriptors of
`legacyDevice`. -/
def modernDevice : Env :=
  { legacyDevice with
    GetPixelFormatAttribivARB := fun _ i attrib =>
      if attrib = WGL_NUMBER_PIXEL_FORMATS_ARB then some 3
      else if i < 1 ∨ 3 < i then none
      else if attrib = WGL_SUPPORT_OPENGL_ARB ∨ attrib = WGL_DRAW_TO_WINDOW_ARB then some 1
      else if attrib = WGL_DOUBLE_BUFFER_ARB then some (if i = 2 then 0 else 1)
      else if attrib = WGL_PIXEL_TYPE_ARB then some WGL_TYPE_RGBA_ARB
      else if attrib = WGL_SAMPLES_ARB then some 4
      else some 8
    wglGetProcAddress := fun _ _ => 1
    extensionSupported := fun _ _ => true
    CreateContextAttribsARB := fun dc _ _ => dc + 2 }

/-- A device on which `GetDC` fails. -/
def deviceWithoutDC : Env :=
  { legacyDevice with GetDC := fun _ => 0 }

/-- A state whose window has a device context and the capability flags of a
probe that found every extension. -/
def probedState : State :=
  { window :=
      { WGL :=
          { DC := 11
            GetExtensionsStringEXT := 1
            CreateContextAttribsARB := 1
            GetPixelFormatAttribivARB := 1
            SwapIntervalEXT := 1
            has_WGL_EXT_swap_control := true
            has_WGL_ARB_pixel_format := true
            has_WGL_ARB_multisample := true
            has_WGL_ARB_create_context := true
            has_WGL_ARB_create_context_profile := true
            has_WGL_EXT_create_context_es2_profile := true }
        Win32 := { handle := 10 } }
    native := 1
    liveWindows := 1
    liveDCs := 1 }

/-- The state `probedState` without profile support. -/
def noProfileState : State :=
  { probedState with
    window :=
      { probedState.window with
        WGL :=
          { probedState.window.WGL with
            has_WGL_ARB_create_context_profile := false
            has_WGL_EXT_create_context_es2_profile := false } } }

/-- The request for a forward-compatible 3.2 core profile context. -/
def forwardCoreRequest : WndConfig :=
  { glMajor := 3, glMinor := 2, glForward := true, glProfile := GLFW_OPENGL_CORE_PROFILE }

/-- The request for a 3.2 core profile context. -/
def coreRequest : WndConfig :=
  { glMajor := 3, glMinor := 2, glProfile := GLFW_OPENGL_CORE_PROFILE }

/-! ## The attribute list in the words of the specification -/

/-- The explicit version, present when the version differs from 1.0. -/
def versionAttribs (wndconfig : WndConfig) : List Int :=
  if (wndconfig.glMajor, wndconfig.glMinor) ≠ (1, 0) then
    [WGL_CONTEXT_MAJOR_VERSION_ARB, wndconfig.glMajor,
      WGL_CONTEXT_MINOR_VERSION_ARB, wndconfig.glMinor]
  else []

/-- The flags value, present when the forward-compatible or the debug flag is
set: the bitwise or of the bits of the flags that are set. -/
def flagAttribs (wndconfig : WndConfig) : List Int :=
  if wndconfig.glForward ∨ wndconfig.glDebug then
    [WGL_CONTEXT_FLAGS_ARB,
      (((if wndconfig.glForward then WGL_CONTEXT_FORWARD_COMPATIBLE_BIT_ARB else 0) |||
        (if wndconfig.glDebug then WGL_CONTEXT_DEBUG_BIT_ARB else 0) : Nat) : Int)]
  else []

/-- The profile mask `p`, present when a profile is requested. -/
def profileAttribs (wndconfig : WndConfig) (p : Nat) : List Int :=
  if wndconfig.glProfile ≠ 0 then [WGL_CONTEXT_PROFILE_MASK_ARB, (p : Int)] else []

/-- The attribute list of the specification, with profile mask `p`: version,
flags, profile, and the terminating zero. -/
def expectedAttribs (wndconfig : WndConfig) (p : Nat) : List Int :=
  versionAttribs wndconfig ++ flagAttribs wndconfig ++ profileAttribs wndconfig p ++ [0]

/-- The calls through `CreateContextAttribsARB` in a log, each with its device
context, share context and attribute list. -/
def attribCalls (log : List Event) : List (Nat × Nat × List Int) :=
  log.filterMap fun ev =>
    match ev with
    | .CreateContextAttribsARB dc share attribs => some (dc, share, attribs)
    | _ => none

/-! ## Reading the log -/

/-- Whether the event is a call of `destroyWindow`. -/
def Event.isDestroyWindow : Event → Bool
  | .destroyWindow _ => true
  | _ => false

/-- Whether the event belongs to the format enumeration and context creation
for the native window `n`: a capability flag read for `n`, or a call that
creates a context. -/
def Event.isNegotiationOf (n : Nat) : Event → Bool
  | .readFlag _ m => m == n
  | .CreateContextAttribsARB _ _ _ => true
  | .wglCreateContext _ => true
  | _ => false

/-- The number of calls of `createWindow` in a log. -/
def createWindowCalls (log : List Event) : Nat :=
  log.count .createWindow

/-- The number of calls of `destroyWindow` in a log. -/
def destroyWindowCalls (log : List Event) : Nat :=
  log.countP Event.isDestroyWindow

/-- The claim C10 on a log: every capability flag read for a native window
comes after a run of `initWGLExtensions` for that native window. -/
def ProbedBeforeRead (log : List Event) : Prop :=
  ∀ (pre : List Event) (flag : Capability) (n : Nat) (post : List Event),
    log = pre ++ .readFlag flag n :: post → .initWGLExtensions n ∈ pre

/-- What the code does instead of C10, on the part of a log an execution adds:
when `initWGLExtensions` runs for a native window, the pixel-format flag and
the context-creation flag have been read for that window, and no flag is read
for that window afterwards. -/
def ReadBeforeProbed (added : List Event) : Prop :=
  (∀ n, .initWGLExtensions n ∈ added →
    .readFlag .has_WGL_ARB_pixel_format n ∈ added ∧
      .readFlag .has_WGL_ARB_create_context n ∈ added) ∧
  added.Pairwise fun earlier later =>
    ∀ n flag, earlier = .initWGLExtensions n → later ≠ .readFlag flag n

/-- The native objects that are allocated and not recorded in the window:
`base` counts the windows, device contexts and rendering contexts allocated
besides those the fields `handle`, `DC` and `context` of the window name. -/
def Recorded (base : Nat × Nat × Nat) (s : State) : Prop :=
  s.liveWindows = base.1 + (if s.window.Win32.handle = 0 then 0 else 1) ∧
  s.liveDCs = base.2.1 + (if s.window.WGL.DC = 0 then 0 else 1) ∧
  s.liveContexts = base.2.2 + (if s.window.WGL.context = 0 then 0 else 1)

/-- The events of one run of `createWindow` for the native window `n`, with
result `r`: the call, then events of the negotiation for `n`, and on success,
last, the probe of the extensions for `n`, which the reads of
`has_WGL_ARB_pixel_format` and `has_WGL_ARB_create_context` precede. -/
def IsAttempt (n : Nat) (r : Bool) (l : List Event) : Prop :=
  ∃ reads, (∀ ev ∈ reads, ev.isNegotiationOf n = true) ∧
    ((r = false ∧ l = .createWindow :: reads) ∨
      (r = true ∧ l = .createWindow :: (reads ++ [.initWGLExtensions n]) ∧
        .readFlag .has_WGL_ARB_pixel_format n ∈ reads ∧
        .readFlag .has_WGL_ARB_create_context n ∈ reads))

/-- The condition for a recreation in the words of claim C8: the request
carries an explicit version other than 1.0, the forward-compatible flag, the
debug flag, a profile, or samples while the multisample and pixel-format
extensions are present. -/
def carriesRecreationRequest (wndconfig : WndConfig) (fbconfig : FBConfig) (wgl : WGL) :
    Prop :=
  (wndconfig.glMajor, wndconfig.glMinor) ≠ (1, 0) ∨ wndconfig.glForward = true ∨
    wndconfig.glDebug = true ∨ wndconfig.glProfile ≠ 0 ∨
    (fbconfig.samples > 0 ∧ wgl.has_WGL_ARB_multisample = true ∧
      wgl.has_WGL_ARB_pixel_format = true)

/-- The condition for a recreation as amended: an explicit version counts only
while context creation with attributes is present. -/
def needsRecreation (wndconfig : WndConfig) (fbconfig : FBConfig) (wgl : WGL) : Prop :=
  ((wndconfig.glMajor, wndconfig.glMinor) ≠ (1, 0) ∧
      wgl.has_WGL_ARB_create_context = true) ∨
    wndconfig.glForward = true ∨ wndconfig.glDebug = true ∨ wndconfig.glProfile ≠ 0 ∨
    (fbconfig.samples > 0 ∧ wgl.has_WGL_ARB_multisample = true ∧
      wgl.has_WGL_ARB_pixel_format = true)

/-- That `_glfwPlatformOpenWindow` fails on one of its two capability checks,
given the flags the first window's probe left. -/
def failsCapabilityCheck (wndconfig : WndConfig) (wgl : WGL) : Prop :=
  ((wndconfig.glForward = true ∨ wndconfig.glDebug = true) ∧
      wgl.has_WGL_ARB_create_context = false) ∨
    (wndconfig.glProfile ≠ 0 ∧ wgl.has_WGL_ARB_create_context_profile = false)

/-- The request for a 2.1 context, with no flag and no profile. -/
def versionRequest : WndConfig :=
  { glMajor := 2, glMinor := 1 }

/-- The state the first `createWindow` of `_glfwPlatformOpenWindow` leaves. -/
def firstWindow (env : Env) (wndconfig : WndConfig) (fbconfig : FBConfig) (s : State) :
    State :=
  ((createWindow env wndconfig fbconfig
    (openWindowPrologue env wndconfig fbconfig s).2).getD (false, s)).2

/-- The state the second `createWindow` of `_glfwPlatformOpenWindow` leaves,
when the window is created again. -/
def secondWindow (env : Env) (wndconfig : WndConfig) (fbconfig : FBConfig) (s : State) :
    State :=
  ((createWindow env wndconfig fbconfig
    (destroyWindow (firstWindow env wndconfig fbconfig s))).getD (false, s)).2

/-! ## Sample inputs for the extension cache -/

/-- The device `modernDevice` without the extension
`WGL_ARB_create_context_profile`. -/
def deviceWithoutProfileExtension : Env :=
  { modernDevice with
    extensionSupported := fun _ name => name != "WGL_ARB_create_context_profile" }

/-! ## Reading the flag word of a key message -/

/-- The extended-key bit of a flag word: bit 24. -/
def extendedKey (lParam : Nat) : Bool := lParam.testBit 24

/-- The scan code of a flag word: bits 16 to 23. -/
def scanCode (lParam : Nat) : Nat := lParam / 2 ^ 16 % 2 ^ 8

/-- The scan code of the event hits the keypad overlap table: the layout maps
it to one of the virtual key codes of the table. -/
def hitsKeypad (env : Env) (lParam : Nat) : Prop :=
  env.MapVirtualKey (scanCode lParam) 1 ∈ keypadOverlap.map Prod.fst

instance (env : Env) (lParam : Nat) : Decidable (hitsKeypad env lParam) := by
  unfold hitsKeypad; infer_instance

/-- The next message of the queue is a key-down or system-key-down for
`VK_MENU` with the extended-key bit set and the time of the current message. -/
def RightAltDownFollows (queue : MessageContext) : Prop :=
  ∃ next, queue.next = some next ∧
    (next.message = WM_KEYDOWN ∨ next.message = WM_SYSKEYDOWN) ∧
    next.wParam = VK_MENU ∧ extendedKey next.lParam = true ∧ next.time = queue.time

/-- The character of section 4.6 for a virtual key code: the character the
keyboard layout maps the key to, in upper case. -/
def layoutCharacter (env : Env) (vk : Nat) : Nat :=
  env.CharUpperW (env.MapVirtualKey vk 2 % 2 ^ 16)

/-- The bits 16 to 24 of a flag word: the scan code with the extended-key bit
on top. -/
def extendedScanCode (lParam : Nat) : Nat := lParam / 2 ^ 16 % 2 ^ 9

/-- A keyboard layout with the scan codes of a PC keyboard for the keys used
in the examples: right shift is `0x36`, the keypad keys 7 and 0 are `0x47` and
`0x52`, and the letter keys map to their letters. -/
def sampleKeyboard : Env :=
  { MapVirtualKey := fun code mapType =>
      if mapType = 0 then (if code = VK_RSHIFT then 0x36 else 0)
      else if mapType = 1 then
        (if code = 0x47 then VK_HOME else if code = 0x52 then VK_INSERT
         else if code = 0x1D then VK_CONTROL else if code = 0x38 then VK_MENU
         else if code = 0x36 then VK_SHIFT else 0)
      else if 0x41 ≤ code ∧ code ≤ 0x5A then code + 32 else 0
    CharUpperW := fun c => if 97 ≤ c ∧ c ≤ 122 then c - 32 else c }

/-! ## Reading what the window procedure sent -/

/-- The key a release event names, if the event is a release sent to the key
sink. -/
def InputEvent.releasedKey : InputEvent → Option Int
  | .inputKey key action => if action = GLFW_RELEASE then some key else none
  | _ => none

/-- The message is a key-down or a system-key-down. -/
def MSG.isKeyDown (m : MSG) : Prop := m.message = WM_KEYDOWN ∨ m.message = WM_SYSKEYDOWN

/-- The message is a key-up or a system-key-up. -/
def MSG.isKeyUp (m : MSG) : Prop := m.message = WM_KEYUP ∨ m.message = WM_SYSKEYUP

instance (m : MSG) : Decidable m.isKeyDown := by unfold MSG.isKeyDown; infer_instance

instance (m : MSG) : Decidable m.isKeyUp := by unfold MSG.isKeyUp; infer_instance

/-- Every message of the sequence is a key message, and each key-up message
is preceded by a key-down message with the same virtual key code and flag
word. -/
def UpsFollowDowns (msgs : List Dispatch) : Prop :=
  (∀ d ∈ msgs, d.msg.isKeyDown ∨ d.msg.isKeyUp) ∧
  ∀ i ∈ List.range msgs.length, (msgs.getD i default).msg.isKeyUp →
    ∃ down ∈ msgs.take i, down.msg.isKeyDown ∧
      down.msg.wParam = (msgs.getD i default).msg.wParam ∧
      down.msg.lParam = (msgs.getD i default).msg.lParam

instance (msgs : List Dispatch) : Decidable (UpsFollowDowns msgs) := by
  unfold UpsFollowDowns; infer_instance

/-- Every release sent to the key sink, other than those for the two shift
identifiers, names a key for which a press was sent earlier. -/
def ReleasesFollowPresses (events : List InputEvent) : Prop :=
  ∀ i ∈ List.range events.length, ∀ key ∈ (events.getD i default).releasedKey,
    key = GLFW_KEY_LSHIFT ∨ key = GLFW_KEY_RSHIFT ∨
      InputEvent.inputKey key GLFW_PRESS ∈ events.take i

instance (events : List InputEvent) : Decidable (ReleasesFollowPresses events) := by
  unfold ReleasesFollowPresses; infer_instance

/-- The Alt-Gr sequence: left-control down and right-alt down with the same
time, the second still in the queue while the first is handled, then
left-control up and right-alt up, each with the flag word of its key-down. -/
def altGrSequence : List Dispatch :=
  [ { msg := { message := WM_KEYDOWN, wParam := VK_CONTROL, lParam := 0x001D0000, time := 100 }
      queue :=
        { time := 100
          next := some { message := WM_KEYDOWN, wParam := VK_MENU, lParam := 0x01380000,
                         time := 100 } } },
    { msg := { message := WM_KEYDOWN, wParam := VK_MENU, lParam := 0x01380000, time := 100 }
      queue := { time := 100 } },
    { msg := { message := WM_KEYUP, wParam := VK_CONTROL, lParam := 0x001D0000, time := 200 }
      queue :=
        { time := 200
          next := some { message := WM_KEYUP, wParam := VK_MENU, lParam := 0x01380000,
                         time := 200 } } },
    { msg := { message := WM_KEYUP, wParam := VK_MENU, lParam := 0x01380000, time := 200 }
      queue := { time := 200 } } ]

/-- The events sent to the key sink among what the window procedure sent
out. -/
def keyEvents (events : List InputEvent) : List InputEvent :=
  events.filter fun ev =>
    match ev with
    | .inputKey _ _ => true
    | _ => false

/-! ## The frame adjustment in the words of the specification -/

/-- The widths of the frame around the client area of a window. -/
structure Borders where
  left : Int := 0
  top : Int := 0
  right : Int := 0
  bottom : Int := 0
  deriving DecidableEq, Repr, Inhabited

/-- The native frame adjustment moves each edge of the rectangle outward by a
border that depends only on the style bits. -/
def IsFrameAdjustment (env : Env) (borders : Nat → Nat → Borders) : Prop :=
  ∀ (left top right bottom : Int) (dwStyle dwExStyle : Nat),
    env.AdjustWindowRectEx (left, top, right, bottom) dwStyle dwExStyle =
      (left - (borders dwStyle dwExStyle).left, top - (borders dwStyle dwExStyle).top,
       right + (borders dwStyle dwExStyle).right, bottom + (borders dwStyle dwExStyle).bottom)

/-- The inverse frame adjustment on a size: the borders of the style bits are
taken off the full width and height. -/
def clientSize (borders : Nat → Nat → Borders) (window : GLFWwindow) (full : Int × Int) :
    Int × Int :=
  (full.1 - (borders window.Win32.dwStyle window.Win32.dwExStyle).left -
      (borders window.Win32.dwStyle window.Win32.dwExStyle).right,
   full.2 - (borders window.Win32.dwStyle window.Win32.dwExStyle).top -
      (borders window.Win32.dwStyle window.Win32.dwExStyle).bottom)

/-- The borders of the sample desktop: none for a window without caption, a
caption of 31 and a frame of 8 otherwise. -/
def sampleBorders (dwStyle _dwExStyle : Nat) : Borders :=
  if dwStyle &&& WS_CAPTION = 0 then {} else { left := 8, top := 31, right := 8, bottom := 8 }

/-- A desktop whose frame adjustment is the one of `sampleBorders`. -/
def sampleDesktop : Env :=
  { AdjustWindowRectEx := fun r dwStyle dwExStyle =>
      (r.1 - (sampleBorders dwStyle dwExStyle).left,
       r.2.1 - (sampleBorders dwStyle dwExStyle).top,
       r.2.2.1 + (sampleBorders dwStyle dwExStyle).right,
       r.2.2.2 + (sampleBorders dwStyle dwExStyle).bottom) }

/-! ## Reading messages and states for the window procedure -/

/-- Every capability flag that guards a call through a function pointer is
set only with the pointer resolved. -/
def GuardsResolved (wgl : WGL) : Prop :=
  (wgl.has_WGL_ARB_create_context = true → wgl.CreateContextAttribsARB ≠ 0) ∧
  (wgl.has_WGL_ARB_pixel_format = true → wgl.GetPixelFormatAttribivARB ≠ 0) ∧
  (wgl.has_WGL_EXT_swap_control = true → wgl.SwapIntervalEXT ≠ 0)

instance (wgl : WGL) : Decidable (GuardsResolved wgl) := by
  unfold GuardsResolved; infer_instance

/-- The contract of the external chooser: the candidate it returns, if any, is
one of the valid entries of the array it was given. -/
def ChoosesCandidate (env : Env) : Prop :=
  ∀ (fbconfig : FBConfig) (configs : List FBConfig) (found : Nat) (closest : FBConfig),
    env.chooseFBConfig fbconfig configs found = some closest → closest ∈ configs.take found

/-- The low 16-bit word of a message parameter, sign-extended. -/
def signedLowWord (l : Nat) : Int :=
  if l % 2 ^ 16 < 2 ^ 15 then ((l % 2 ^ 16 : Nat) : Int) else ((l % 2 ^ 16 : Nat) : Int) - 2 ^ 16

/-- The high 16-bit word (bits 16 to 31) of a message parameter,
sign-extended. -/
def signedHighWord (l : Nat) : Int :=
  if l / 2 ^ 16 % 2 ^ 16 < 2 ^ 15 then ((l / 2 ^ 16 % 2 ^ 16 : Nat) : Int)
  else ((l / 2 ^ 16 % 2 ^ 16 : Nat) : Int) - 2 ^ 16

/-- What the window procedure sent out between the state `s` and the later
state `r`. -/
def sentSince (s r : State) : List InputEvent := r.input.drop s.input.length

/-- A window with every callback of the library registered. -/
def windowWithCallbacks : State :=
  { lib :=
      { charCallback := true, mousePosCallback := true, windowSizeCallback := true
        windowIconifyCallback := true, windowRefreshCallback := true } }

/-- A fullscreen window that is the active window, whose video mode has
been changed; the monitor runs at 800 by 600. -/
def fullscreenActive : State :=
  { window := { mode := GLFW_FULLSCREEN, Win32 := { handle := 10 } }
    lib :=
      { activeWindow := .this
        monitor := { width := 800, height := 600, bitsPerPixel := 32, refreshRate := 60,
                     modeChanged := true } } }

/-! ## Calls through the function pointers of the window record -/

/-- The configuration stored for the format `i`, if it is accepted: the fields
read, with the index as platform identifier. -/
def acceptAt (env : Env) (wgl : WGL) (i : Nat) : Option FBConfig :=
  (readFBConfig env wgl (i : Int)).map fun cfg => { cfg with platformID := (i : Int) }

/-- The configurations accepted among the formats `1..n`, in order. -/
def acceptedUpTo (env : Env) (wgl : WGL) (n : Nat) : List FBConfig :=
  (List.range' 1 n).filterMap (acceptAt env wgl)

/-! # Theorems -/

/-! ## Format enumeration -/

/-- Storing at index `k` and keeping `k + 1` entries is keeping `k` entries
and appending the stored one. -/
theorem take_set_succ {α : Type} (l : List α) (k : Nat) (x : α) (h : k < l.length) :
    (l.set k x).take (k + 1) = l.take k ++ [x] := by
  induction l generalizing k with
  | nil => simp at h
  | cons a t ih =>
    cases k with
    | zero => simp
    | succ k =>
      have hk : k < t.length := by simpa using h
      simp [ih k hk]

/-- One iteration of the loop, in terms of `acceptAt`. -/
theorem getFBConfigsStep_eq (env : Env) (wgl : WGL) (st : List FBConfig × Nat) (i : Nat) :
    getFBConfigsStep env wgl st i =
      match acceptAt env wgl i with
      | none => st
      | some cfg => (st.1.set st.2 cfg, st.2 + 1) := by
  unfold getFBConfigsStep acceptAt
  cases readFBConfig env wgl (i : Int) <;> rfl

/-- The accepted configurations among `1..n` are at most `n`. -/
theorem acceptedUpTo_length_le (env : Env) (wgl : WGL) (n : Nat) :
    (acceptedUpTo env wgl n).length ≤ n := by
  have h := List.length_filterMap_le (acceptAt env wgl) (List.range' 1 n)
  simpa [acceptedUpTo] using h

/-- The accepted configurations among `1..n+1`. -/
theorem acceptedUpTo_succ (env : Env) (wgl : WGL) (n : Nat) :
    acceptedUpTo env wgl (n + 1) =
      acceptedUpTo env wgl n ++ (acceptAt env wgl (n + 1)).toList := by
  unfold acceptedUpTo
  rw [List.range'_concat, List.filterMap_append]
  simp only [Nat.one_mul, Nat.add_comm 1 n]
  cases h : acceptAt env wgl (n + 1) <;> simp [List.filterMap, h]

/-- The loop of `getFBConfigs` over the formats `1..n`, run on an array of `N`
entries with `n ≤ N`, leaves the accepted configurations in the first `*found`
entries and does not change the length of the array. -/
theorem getFBConfigs_loop (env : Env) (wgl : WGL) (N n : Nat) (hn : n ≤ N) :
    ((List.range' 1 n).foldl (getFBConfigsStep env wgl)
        (List.replicate N env.uninitialized, 0)).1.length = N ∧
    ((List.range' 1 n).foldl (getFBConfigsStep env wgl)
        (List.replicate N env.uninitialized, 0)).2 = (acceptedUpTo env wgl n).length ∧
    (((List.range' 1 n).foldl (getFBConfigsStep env wgl)
        (List.replicate N env.uninitialized, 0)).1.take
      ((List.range' 1 n).foldl (getFBConfigsStep env wgl)
        (List.replicate N env.uninitialized, 0)).2) = acceptedUpTo env wgl n := by
  induction n with
  | zero => simp [acceptedUpTo]
  | succ n ih =>
    obtain ⟨h1, h2, h3⟩ := ih (Nat.le_of_succ_le hn)
    have hle := acceptedUpTo_length_le env wgl n
    rw [List.range'_concat, List.foldl_append, acceptedUpTo_succ]
    simp only [Nat.one_mul, Nat.add_comm 1 n, List.foldl_cons, List.foldl_nil,
      getFBConfigsStep_eq]
    cases hr : acceptAt env wgl (n + 1) with
    | none => exact ⟨h1, by simpa using h2, by simpa [← h2] using h3⟩
    | some cfg =>
      refine ⟨by simp [h1], by simp [h2], ?_⟩
      simp only [Option.toList]
      rw [take_set_succ _ _ _ (by rw [h1, h2]; omega), h3]

/-- The loop body accepts a format exactly when the format passes the filter
of the specification. -/
theorem readFBConfig_isSome (env : Env) (wgl : WGL) (i : Int) :
    (readFBConfig env wgl i).isSome = passesFilter env wgl i := by
  unfold readFBConfig passesFilter isWindowDrawable isDoubleBuffered supportsOpenGL isRGBA
    isDescribed isAcceleratedOrNotGeneric descriptorFlag attribNonZero getPixelFormatAttrib
  cases hpf : wgl.has_WGL_ARB_pixel_format
  · simp only [Bool.false_eq_true, if_false]
    generalize env.DescribePixelFormat wgl.DC i true = d
    obtain ⟨ret, pfd⟩ := d
    simp only
    split_ifs <;> simp_all <;> tauto
  · simp only [if_true]
    cases h1 : env.GetPixelFormatAttribivARB wgl.DC i WGL_SUPPORT_OPENGL_ARB <;>
    cases h2 : env.GetPixelFormatAttribivARB wgl.DC i WGL_DRAW_TO_WINDOW_ARB <;>
    cases h3 : env.GetPixelFormatAttribivARB wgl.DC i WGL_DOUBLE_BUFFER_ARB <;>
    cases h4 : env.GetPixelFormatAttribivARB wgl.DC i WGL_PIXEL_TYPE_ARB <;>
    simp [WGL_TYPE_RGBA_ARB] <;> split_ifs <;> simp_all <;> tauto

/-- What a stored configuration tells about its format. -/
theorem acceptAt_some (env : Env) (wgl : WGL) (i : Nat) (cfg : FBConfig)
    (h : acceptAt env wgl i = some cfg) :
    cfg.platformID = (i : Int) ∧ passesFilter env wgl (i : Int) = true := by
  unfold acceptAt at h
  have hs := readFBConfig_isSome env wgl (i : Int)
  cases hr : readFBConfig env wgl (i : Int) with
  | none => simp [hr] at h
  | some c =>
    rw [hr] at h hs
    simp only [Option.map_some', Option.some.injEq] at h
    exact ⟨by rw [← h], by simpa using hs.symm⟩

/-- The platform identifiers of the accepted configurations among `1..n` are
the indices that pass the filter, in the order of enumeration. -/
theorem acceptedUpTo_platformIDs (env : Env) (wgl : WGL) (n : Nat) :
    (acceptedUpTo env wgl n).map (fun cfg => cfg.platformID) =
      (passingIndices env wgl n).map Int.ofNat := by
  induction n with
  | zero => simp [acceptedUpTo, passingIndices]
  | succ n ih =>
    unfold passingIndices at ih ⊢
    rw [acceptedUpTo_succ, List.range'_concat, List.filter_append, List.map_append,
      List.map_append, ih]
    congr 1
    simp only [Nat.one_mul, Nat.add_comm 1 n]
    have hs := readFBConfig_isSome env wgl ((n + 1 : Nat) : Int)
    cases hr : acceptAt env wgl (n + 1) with
    | none =>
      have hnone : readFBConfig env wgl ((n + 1 : Nat) : Int) = none := by
        unfold acceptAt at hr
        cases h' : readFBConfig env wgl ((n + 1 : Nat) : Int) with
        | none => rfl
        | some c => rw [h'] at hr; simp at hr
      rw [hnone] at hs
      have hp : passesFilter env wgl ((n + 1 : Nat) : Int) = false := by simpa using hs.symm
      rw [List.filter_cons_of_neg (by rw [hp]; decide)]
      rfl
    | some cfg =>
      obtain ⟨hid, hp⟩ := acceptAt_some env wgl (n + 1) cfg hr
      rw [List.filter_cons_of_pos (p := fun (i : Nat) => passesFilter env wgl (i : Int)) hp]
      simp only [Option.toList, List.map_cons, List.map_nil, List.filter_nil, hid]
      rfl

/-- When `getFBConfigs` returns an array, the count was non-zero, the
allocation succeeded, the array has `count` entries and its first `*found`
entries are the accepted configurations. -/
theorem getFBConfigs_ok_inv (env : Env) (wgl : WGL) (result : List FBConfig) (found : Nat)
    (h : getFBConfigs env wgl = .ok (result, found)) :
    formatCount env wgl ≠ 0 ∧ env.malloc (formatCount env wgl) = true ∧
      result.length = (formatCount env wgl).toNat ∧
      found = (acceptedUpTo env wgl (formatCount env wgl).toNat).length ∧
      result.take found = acceptedUpTo env wgl (formatCount env wgl).toNat := by
  unfold getFBConfigs at h
  simp only at h
  split_ifs at h with h0 hm
  have hl := getFBConfigs_loop env wgl (formatCount env wgl).toNat (formatCount env wgl).toNat
    (Nat.le_refl _)
  simp only [Except.ok.injEq] at h
  rw [h] at hl
  exact ⟨h0, by simpa using hm, hl.1, hl.2.1, hl.2.2⟩

/-- With a non-zero count and a successful allocation `getFBConfigs` returns
an array. -/
theorem getFBConfigs_ok (env : Env) (wgl : WGL) (hcount : formatCount env wgl ≠ 0)
    (hmalloc : env.malloc (formatCount env wgl) = true) :
    ∃ result found, getFBConfigs env wgl = .ok (result, found) := by
  unfold getFBConfigs
  simp only [hcount, hmalloc, if_false, Bool.not_true, Bool.false_eq_true]
  exact ⟨_, _, rfl⟩

/-- Claim C1. Every configuration among the `*found` entries that
`getFBConfigs` returns carries as platform identifier the index `i` (between 1
and the format count) of a format that is window-drawable, double-buffered,
OpenGL-capable and of RGBA pixel type; when the legacy descriptors are used
(`has_WGL_ARB_pixel_format` is false) the format is moreover generic-accelerated
or not a generic format. -/
theorem getFBConfigs_configs_usable (env : Env) (wgl : WGL) (result : List FBConfig)
    (found : Nat) (h : getFBConfigs env wgl = .ok (result, found)) (cfg : FBConfig)
    (hcfg : cfg ∈ result.take found) :
    ∃ i : Nat, 1 ≤ i ∧ (i : Int) ≤ formatCount env wgl ∧ cfg.platformID = (i : Int) ∧
      isWindowDrawable env wgl (i : Int) = true ∧ isDoubleBuffered env wgl (i : Int) = true ∧
      supportsOpenGL env wgl (i : Int) = true ∧ isRGBA env wgl (i : Int) = true ∧
      (wgl.has_WGL_ARB_pixel_format = false →
        isAcceleratedOrNotGeneric env wgl (i : Int) = true) := by
  obtain ⟨_, _, _, _, htake⟩ := getFBConfigs_ok_inv env wgl result found h
  rw [htake] at hcfg
  unfold acceptedUpTo at hcfg
  rw [List.mem_filterMap] at hcfg
  obtain ⟨i, hi, hacc⟩ := hcfg
  rw [List.mem_range'_1] at hi
  obtain ⟨hid, hp⟩ := acceptAt_some env wgl i cfg hacc
  refine ⟨i, hi.1, by omega, hid, ?_⟩
  unfold passesFilter at hp
  simp only [Bool.and_eq_true, Bool.or_eq_true] at hp
  obtain ⟨⟨⟨⟨hw, hd⟩, ho⟩, hr⟩, hl⟩ := hp
  refine ⟨hw, hd, ho, hr, fun hleg => ?_⟩
  rcases hl with hl | hl
  · rw [hleg] at hl
    exact absurd hl (by decide)
  · exact hl.2

/-- The legacy sample device at work: formats 1 and 3 are returned, format 2 is
left out, and the third entry of the array is never written. -/
theorem getFBConfigs_legacyDevice :
    getFBConfigs legacyDevice {} =
      .ok ([{ redBits := 8, greenBits := 8, blueBits := 8, alphaBits := 8, depthBits := 24,
              stencilBits := 8, platformID := 1 },
            { redBits := 8, greenBits := 8, blueBits := 8, alphaBits := 8, depthBits := 24,
              stencilBits := 8, platformID := 3 },
            {}], 2) := by
  rfl

/-- Witness of C1 on the legacy sample device, for the configuration of its
third format. -/
theorem getFBConfigs_configs_usable_witness :
    ∃ i : Nat, 1 ≤ i ∧ (i : Int) ≤ formatCount legacyDevice {} ∧ (3 : Int) = (i : Int) ∧
      isWindowDrawable legacyDevice {} (i : Int) = true ∧
      isDoubleBuffered legacyDevice {} (i : Int) = true ∧
      supportsOpenGL legacyDevice {} (i : Int) = true ∧ isRGBA legacyDevice {} (i : Int) = true ∧
      (({} : WGL).has_WGL_ARB_pixel_format = false →
        isAcceleratedOrNotGeneric legacyDevice {} (i : Int) = true) :=
  getFBConfigs_configs_usable legacyDevice {} _ 2 getFBConfigs_legacyDevice
    { redBits := 8, greenBits := 8, blueBits := 8, alphaBits := 8, depthBits := 24,
      stencilBits := 8, platformID := 3 } (by decide)

/-- Claim C2. For a device with a non-zero format count (and an allocation of
the result array that succeeds), `getFBConfigs` returns an array whose first
`*found` entries carry, as platform identifiers, exactly the indices `i` of
`1..count` whose format passes the filter, in ascending order; `*found` is the
number of those indices and does not exceed the size of the array. -/
theorem getFBConfigs_platformIDs (env : Env) (wgl : WGL)
    (hcount : formatCount env wgl ≠ 0) (hmalloc : env.malloc (formatCount env wgl) = true) :
    ∃ result found, getFBConfigs env wgl = .ok (result, found) ∧
      (result.take found).map (fun cfg => cfg.platformID) =
        (passingIndices env wgl (formatCount env wgl).toNat).map Int.ofNat ∧
      found = (passingIndices env wgl (formatCount env wgl).toNat).length ∧
      found ≤ result.length ∧
      ((result.take found).map fun cfg => cfg.platformID).Pairwise (· < ·) := by
  obtain ⟨result, found, h⟩ := getFBConfigs_ok env wgl hcount hmalloc
  obtain ⟨_, _, hlen, hfound, htake⟩ := getFBConfigs_ok_inv env wgl result found h
  have hids := acceptedUpTo_platformIDs env wgl (formatCount env wgl).toNat
  have hle := acceptedUpTo_length_le env wgl (formatCount env wgl).toNat
  refine ⟨result, found, h, by rw [htake, hids], ?_, by omega, ?_⟩
  · have := congrArg List.length hids
    simpa [hfound] using this
  · rw [htake, hids]
    refine List.Pairwise.map Int.ofNat (fun a b hab => Int.ofNat_lt.mpr hab) ?_
    exact List.Pairwise.sublist (List.filter_sublist _) (List.pairwise_lt_range' 1 _)

/-- Witness of C2 on the legacy sample device. -/
theorem getFBConfigs_platformIDs_witness :
    formatCount legacyDevice {} ≠ 0 ∧ legacyDevice.malloc (formatCount legacyDevice {}) = true ∧
    ∃ result found, getFBConfigs legacyDevice {} = .ok (result, found) ∧
      (result.take found).map (fun cfg => cfg.platformID) =
        (passingIndices legacyDevice {} (formatCount legacyDevice {}).toNat).map Int.ofNat ∧
      found = (passingIndices legacyDevice {} (formatCount legacyDevice {}).toNat).length ∧
      found ≤ result.length ∧
      ((result.take found).map fun cfg => cfg.platformID).Pairwise (· < ·) :=
  ⟨by decide, by rfl, getFBConfigs_platformIDs legacyDevice {} (by decide) (by rfl)⟩

/-! ## Context creation -/

/-- The first two blocks always fit: they store at most six entries, namely the
version and flag attributes of the specification. -/
theorem storeVersionAndFlags_some (env : Env) (wndconfig : WndConfig) :
    ∃ b, storeVersionAndFlags wndconfig (AttribBuf.declare env) = some b ∧
      b.attribs.length = 7 ∧
      b.i = (versionAttribs wndconfig ++ flagAttribs wndconfig).length ∧
      b.attribs.take b.i = versionAttribs wndconfig ++ flagAttribs wndconfig := by
  unfold storeVersionAndFlags versionAttribs flagAttribs contextFlags
  by_cases hv : wndconfig.glMajor ≠ 1 ∨ wndconfig.glMinor ≠ 0
  · have hv' : (wndconfig.glMajor, wndconfig.glMinor) ≠ (1, 0) := by
      intro h; simp only [Prod.mk.injEq] at h; omega
    cases hf : wndconfig.glForward <;> cases hd : wndconfig.glDebug <;>
      simp only [hv, hv', if_true, ne_eq, not_false_eq_true] <;>
      exact ⟨_, rfl, rfl, rfl, rfl⟩
  · have hv' : ¬ (wndconfig.glMajor, wndconfig.glMinor) ≠ (1, 0) := by
      intro h; apply h; simp only [Prod.mk.injEq]; omega
    cases hf : wndconfig.glForward <;> cases hd : wndconfig.glDebug <;>
      simp only [hv, hv', if_false] <;>
      exact ⟨_, rfl, rfl, rfl, rfl⟩

/-- A store inside the array appends to the entries stored so far. -/
theorem AttribBuf.store_of_lt (b : AttribBuf) (v : Int) (h : b.i < b.attribs.length) :
    ∃ b', b.store v = some b' ∧ b'.i = b.i + 1 ∧ b'.attribs.length = b.attribs.length ∧
      b'.attribs.take b'.i = b.attribs.take b.i ++ [v] := by
  refine ⟨{ i := b.i + 1, attribs := b.attribs.set b.i v }, ?_, rfl, by simp, ?_⟩
  · simp [AttribBuf.store, h]
  · exact take_set_succ _ _ _ h

/-- A store at or beyond the end of the array is undefined. -/
theorem AttribBuf.store_of_not_lt (b : AttribBuf) (v : Int) (h : ¬ b.i < b.attribs.length) :
    b.store v = none := by
  simp [AttribBuf.store, h]

/-- The profile block stores two entries when they fit. -/
theorem storeProfile_of_fit (wndconfig : WndConfig) (b : AttribBuf)
    (h : b.i + 2 ≤ b.attribs.length) :
    ∃ b', storeProfile wndconfig b = some b' ∧ b'.i = b.i + 2 ∧
      b'.attribs.length = b.attribs.length ∧
      b'.attribs.take b'.i =
        b.attribs.take b.i ++ [WGL_CONTEXT_PROFILE_MASK_ARB, (profileFlags wndconfig : Int)] := by
  obtain ⟨b1, h1, hi1, hl1, ht1⟩ := b.store_of_lt WGL_CONTEXT_PROFILE_MASK_ARB (by omega)
  obtain ⟨b2, h2, hi2, hl2, ht2⟩ := b1.store_of_lt (profileFlags wndconfig : Int) (by omega)
  refine ⟨b2, ?_, by omega, by omega, ?_⟩
  · simp [storeProfile, h1, h2]
  · rw [ht2, ht1]; simp

/-- The end of the modern branch, when the terminating zero fits. -/
theorem finishCreateContextAttribs_of_fit (env : Env) (share : Nat) (b : AttribBuf) (s : State)
    (h : b.i < b.attribs.length) :
    ∃ r s', finishCreateContextAttribs env share b s = some (r, s') ∧
      s'.log = s.log ++
        [.CreateContextAttribsARB s.window.WGL.DC share (b.attribs.take b.i ++ [0])] ∧
      s'.window.WGL.context =
        env.CreateContextAttribsARB s.window.WGL.DC share (b.attribs.take b.i ++ [0]) ∧
      (s'.window.WGL.context = 0 → r = false ∧ s'.lib.error = .GLFW_VERSION_UNAVAILABLE) ∧
      (s'.window.WGL.context ≠ 0 → r = true ∧ s'.lib.error = s.lib.error) := by
  obtain ⟨b1, h1, hi1, hl1, ht1⟩ := b.store_of_lt 0 h
  unfold finishCreateContextAttribs
  rw [h1]
  simp only [Option.some_bind, ht1]
  by_cases hc : env.CreateContextAttribsARB s.window.WGL.DC share (b.attribs.take b.i ++ [0]) = 0
  · simp [hc, emit, setWGL, setError, callThrough]
  · simp [hc, emit, setWGL, setError, callThrough]


/-- The calls through `CreateContextAttribsARB` of a log extended by one
event. -/
theorem attribCalls_emit (ev : Event) (s : State) :
    attribCalls (emit ev s).log = attribCalls s.log ++ attribCalls [ev] := by
  simp [attribCalls, emit, List.filterMap_append]

/-- On the modern path, when the profile checks pass and the attribute list of
the specification has at most seven entries, `createContext` calls the entry
point once, with exactly that list; the profile mask is the value of `flags`
computed from the requested profile. -/
theorem createContext_attribs (env : Env) (wndconfig : WndConfig) (pixelFormat : Int)
    (s : State)
    (hd : (env.DescribePixelFormat s.window.WGL.DC pixelFormat true).1 ≠ 0)
    (hs : env.SetPixelFormat s.window.WGL.DC pixelFormat
      (env.DescribePixelFormat s.window.WGL.DC pixelFormat true).2 = true)
    (hcc : s.window.WGL.has_WGL_ARB_create_context = true)
    (hprof : wndconfig.glProfile ≠ 0 →
      s.window.WGL.has_WGL_ARB_create_context_profile = true)
    (hes2 : wndconfig.glProfile = GLFW_OPENGL_ES2_PROFILE →
      s.window.WGL.has_WGL_EXT_create_context_es2_profile = true)
    (hfit : (expectedAttribs wndconfig (profileFlags wndconfig)).length ≤ 7) :
    ∃ r s', createContext env wndconfig pixelFormat s = some (r, s') ∧
      attribCalls s'.log = attribCalls s.log ++
        [(s.window.WGL.DC, shareContext wndconfig,
          expectedAttribs wndconfig (profileFlags wndconfig))] := by
  obtain ⟨b, hb, hlen, hi, htake⟩ := storeVersionAndFlags_some env wndconfig
  unfold createContext
  simp only [hd, hs, if_false, Bool.not_true, Bool.false_eq_true]
  have hcc' : (emit (.readFlag .has_WGL_ARB_create_context s.native) s).window.WGL.has_WGL_ARB_create_context = true := hcc
  simp only [hcc', if_true, hb, Option.some_bind]
  unfold expectedAttribs profileAttribs at hfit ⊢
  by_cases hp : wndconfig.glProfile = 0
  · simp only [hp, ne_eq, not_true_eq_false, if_false, List.append_nil] at hfit ⊢
    rw [List.length_append] at hfit
    obtain ⟨r, s', h1, hlog, -⟩ := finishCreateContextAttribs_of_fit env
      (shareContext wndconfig) b (emit (.readFlag .has_WGL_ARB_create_context s.native) s)
      (by rw [hlen, hi, List.length_append]; simp at hfit; omega)
    refine ⟨r, s', h1, ?_⟩
    rw [hlog, htake]
    simp [attribCalls, emit, List.filterMap_append]
  · have hpr := hprof hp
    simp only [ne_eq, hp, not_false_eq_true, if_true] at hfit ⊢
    simp only [List.length_append, List.length_cons, List.length_nil] at hfit
    obtain ⟨b2, hb2, hi2, hl2, ht2⟩ := storeProfile_of_fit wndconfig b
      (by rw [hlen, hi, List.length_append]; omega)
    have key : ∀ st : State, st.window.WGL.DC = s.window.WGL.DC →
        attribCalls st.log = attribCalls s.log →
        ∃ r s', ((storeProfile wndconfig b).bind fun b =>
            finishCreateContextAttribs env (shareContext wndconfig) b st) = some (r, s') ∧
          attribCalls s'.log = attribCalls s.log ++
            [(s.window.WGL.DC, shareContext wndconfig,
              versionAttribs wndconfig ++ flagAttribs wndconfig ++
                [WGL_CONTEXT_PROFILE_MASK_ARB, (profileFlags wndconfig : Int)] ++ [0])] := by
      intro st hdc hcalls
      obtain ⟨r, s', h1, hlog, -⟩ := finishCreateContextAttribs_of_fit env
        (shareContext wndconfig) b2 st (by rw [hl2, hi2, hlen, hi, List.length_append]; omega)
      refine ⟨r, s', by rw [hb2]; exact h1, ?_⟩
      rw [hlog, ht2, htake, hdc]
      simp [attribCalls, List.filterMap_append] at hcalls ⊢
      exact hcalls
    by_cases he : wndconfig.glProfile = GLFW_OPENGL_ES2_PROFILE
    · have hes := hes2 he
      simp only [he, if_true, emit, hpr, hes, Bool.not_true, Bool.false_eq_true, if_false]
      rw [he] at hp
      exact key _ rfl (by simp [attribCalls, List.filterMap_append])
    · simp only [he, if_false, emit, hpr, Bool.not_true, Bool.false_eq_true]
      exact key _ rfl (by simp [attribCalls, List.filterMap_append])

/-- Whenever the end of the modern branch returns, a null result of the entry
point has made it fail with the version-unavailable error. -/
theorem finishCreateContextAttribs_null (env : Env) (share : Nat) (b : AttribBuf)
    (st : State) (r : Bool) (s' : State)
    (h : finishCreateContextAttribs env share b st = some (r, s'))
    (hnull : s'.window.WGL.context = 0) :
    r = false ∧ s'.lib.error = .GLFW_VERSION_UNAVAILABLE := by
  unfold finishCreateContextAttribs at h
  cases hb : b.store 0 with
  | none => rw [hb] at h; simp at h
  | some b1 =>
    rw [hb] at h
    simp only [Option.some_bind] at h
    split_ifs at h with hc
    · simp only [Option.some.injEq, Prod.mk.injEq] at h
      obtain ⟨hr, hs⟩ := h
      subst hs
      exact ⟨hr.symm, rfl⟩
    · simp only [Option.some.injEq, Prod.mk.injEq] at h
      obtain ⟨hr, hs⟩ := h
      subst hs
      exact absurd hnull hc

/-- Claim C4. On the modern path of `createContext` (the pixel format is
described and set, context creation with attributes is available): if a
profile is requested and profile support is absent, or the ES2 profile is
requested and ES2 support is absent, the function returns failure with the
error `GLFW_VERSION_UNAVAILABLE` and the log gains no call of the entry point;
and whenever the function returns after a call of the entry point that gave no
context, it returns failure with that same error. -/
theorem createContext_version_unavailable (env : Env) (wndconfig : WndConfig)
    (pixelFormat : Int) (s : State)
    (hd : (env.DescribePixelFormat s.window.WGL.DC pixelFormat true).1 ≠ 0)
    (hs : env.SetPixelFormat s.window.WGL.DC pixelFormat
      (env.DescribePixelFormat s.window.WGL.DC pixelFormat true).2 = true)
    (hcc : s.window.WGL.has_WGL_ARB_create_context = true) :
    ((wndconfig.glProfile ≠ 0 ∧ s.window.WGL.has_WGL_ARB_create_context_profile = false) ∨
        (wndconfig.glProfile = GLFW_OPENGL_ES2_PROFILE ∧
          s.window.WGL.has_WGL_EXT_create_context_es2_profile = false) →
      ∃ s', createContext env wndconfig pixelFormat s = some (false, s') ∧
        s'.lib.error = .GLFW_VERSION_UNAVAILABLE ∧ attribCalls s'.log = attribCalls s.log) ∧
    (∀ r s', createContext env wndconfig pixelFormat s = some (r, s') →
      attribCalls s'.log ≠ attribCalls s.log → s'.window.WGL.context = 0 →
      r = false ∧ s'.lib.error = .GLFW_VERSION_UNAVAILABLE) := by
  obtain ⟨b, hb, hlen, hi, htake⟩ := storeVersionAndFlags_some env wndconfig
  have hcc' : (emit (.readFlag .has_WGL_ARB_create_context s.native)
      s).window.WGL.has_WGL_ARB_create_context = true := hcc
  have hes2ne : GLFW_OPENGL_ES2_PROFILE ≠ 0 := by decide
  constructor
  · intro hcase
    unfold createContext
    simp only [hd, hs, if_false, Bool.not_true, Bool.false_eq_true, hcc', if_true, hb,
      Option.some_bind]
    have hp : wndconfig.glProfile ≠ 0 := by
      rcases hcase with h | h
      · exact h.1
      · rw [h.1]; exact hes2ne
    simp only [hp, ne_eq, not_false_eq_true, if_true]
    cases hpr : s.window.WGL.has_WGL_ARB_create_context_profile
    · simp only [emit, hpr, Bool.not_false, if_true]
      exact ⟨_, rfl, rfl, by simp [attribCalls, setError, List.filterMap_append]⟩
    · rcases hcase with h | h
      · rw [hpr] at h; exact absurd h.2 (by decide)
      · simp only [emit, hpr, h.1, h.2, Bool.not_true, Bool.not_false, if_true,
          Bool.false_eq_true, if_false]
        exact ⟨_, rfl, rfl, by simp [attribCalls, setError, List.filterMap_append]⟩
  · intro r s' h hcalled hnull
    unfold createContext at h
    simp only [hd, hs, if_false, Bool.not_true, Bool.false_eq_true, hcc', if_true, hb,
      Option.some_bind] at h
    have noCall : ∀ st : State, attribCalls st.log = attribCalls s.log →
        some (false, setError .GLFW_VERSION_UNAVAILABLE st) = some (r, s') → False := by
      intro st hst heq
      simp only [Option.some.injEq, Prod.mk.injEq] at heq
      obtain ⟨-, hs'⟩ := heq
      subst hs'
      exact hcalled hst
    have viaProfile : ∀ st : State,
        ((storeProfile wndconfig b).bind fun b =>
          finishCreateContextAttribs env (shareContext wndconfig) b st) = some (r, s') →
        r = false ∧ s'.lib.error = .GLFW_VERSION_UNAVAILABLE := by
      intro st hst
      cases hsp : storeProfile wndconfig b with
      | none => rw [hsp] at hst; simp at hst
      | some b2 =>
        rw [hsp] at hst
        exact finishCreateContextAttribs_null env _ b2 st r s' hst hnull
    split_ifs at h with hp hpr he hes
    · exact (noCall _ (by simp [attribCalls, emit, List.filterMap_append]) h).elim
    · exact (noCall _ (by simp [attribCalls, emit, List.filterMap_append]) h).elim
    · exact viaProfile _ h
    · exact viaProfile _ h
    · exact finishCreateContextAttribs_null env _ b _ r s' h hnull

/-- Claim C3, where the code departs from it. On the modern path, when an
explicit version, one of the two flags and a profile are all requested (and the
profile checks pass), the attribute list of the claim has nine entries;
`createContext` stores the eighth outside `int attribs[7]`, so the execution is
undefined and no attribute list is passed. -/
theorem createContext_overflow (env : Env) (wndconfig : WndConfig) (pixelFormat : Int)
    (s : State)
    (hd : (env.DescribePixelFormat s.window.WGL.DC pixelFormat true).1 ≠ 0)
    (hs : env.SetPixelFormat s.window.WGL.DC pixelFormat
      (env.DescribePixelFormat s.window.WGL.DC pixelFormat true).2 = true)
    (hcc : s.window.WGL.has_WGL_ARB_create_context = true)
    (hv : wndconfig.glMajor ≠ 1 ∨ wndconfig.glMinor ≠ 0)
    (hf : wndconfig.glForward = true ∨ wndconfig.glDebug = true)
    (hp : wndconfig.glProfile ≠ 0)
    (hprof : s.window.WGL.has_WGL_ARB_create_context_profile = true)
    (hes2 : wndconfig.glProfile = GLFW_OPENGL_ES2_PROFILE →
      s.window.WGL.has_WGL_EXT_create_context_es2_profile = true) :
    createContext env wndconfig pixelFormat s = none := by
  obtain ⟨b, hb, hlen, hi, htake⟩ := storeVersionAndFlags_some env wndconfig
  have hcc' : (emit (.readFlag .has_WGL_ARB_create_context s.native)
      s).window.WGL.has_WGL_ARB_create_context = true := hcc
  have hbi : b.i = 6 := by
    rw [hi]
    have hv' : (wndconfig.glMajor, wndconfig.glMinor) ≠ (1, 0) := by
      intro h; simp only [Prod.mk.injEq] at h; omega
    have hf' : (wndconfig.glForward = true ∨ wndconfig.glDebug = true) := hf
    simp [versionAttribs, flagAttribs, hv', hf']
  have hsp : storeProfile wndconfig b = none := by
    obtain ⟨b1, h1, hi1, hl1, -⟩ := b.store_of_lt WGL_CONTEXT_PROFILE_MASK_ARB (by omega)
    simp only [storeProfile, h1, Option.some_bind]
    exact b1.store_of_not_lt _ (by omega)
  unfold createContext
  simp only [hd, hs, if_false, Bool.not_true, Bool.false_eq_true, hcc', if_true, hb,
    Option.some_bind, hp, ne_eq, not_false_eq_true, emit, hprof, hsp, Option.none_bind]
  split_ifs with he hes
  · exact absurd (hes2 he) (by simpa using hes)
  · rfl
  · rfl


/-- The attribute list the claim C3 describes for the forward-compatible 3.2
core request: nine entries. -/
theorem expectedAttribs_forwardCoreRequest :
    expectedAttribs forwardCoreRequest WGL_CONTEXT_CORE_PROFILE_BIT_ARB =
      [0x2091, 3, 0x2092, 2, 0x2094, 2, 0x9126, 1, 0] := by
  decide

/-- Witness of `createContext_overflow`: the forward-compatible 3.2 core
request on a window whose probe found every extension. -/
theorem createContext_overflow_witness :
    createContext modernDevice forwardCoreRequest 1 probedState = none :=
  createContext_overflow modernDevice forwardCoreRequest 1 probedState (by decide) (by rfl)
    (by rfl) (by decide) (by decide) (by decide) (by rfl) (by decide)

/-- Witness of C4: the 3.2 core request on a window without profile support. -/
theorem createContext_version_unavailable_witness :
    ∃ s', createContext modernDevice coreRequest 1 noProfileState = some (false, s') ∧
      s'.lib.error = .GLFW_VERSION_UNAVAILABLE ∧
      attribCalls s'.log = attribCalls noProfileState.log :=
  (createContext_version_unavailable modernDevice coreRequest 1 noProfileState (by decide)
    (by rfl) (by rfl)).1 (Or.inl ⟨by decide, by rfl⟩)
/-! ## What each step of window creation changes -/

/-- Whenever the end of the modern branch returns, it has changed the context,
the error, the log (by the one call of the entry point) and the count of
contexts, and nothing else; it succeeds exactly when a context was created. -/
theorem finishCreateContextAttribs_frame (env : Env) (share : Nat) (b : AttribBuf)
    (st : State) (r : Bool) (s' : State)
    (h : finishCreateContextAttribs env share b st = some (r, s')) :
    s'.native = st.native ∧
    s'.window = { st.window with WGL := { st.window.WGL with context := s'.window.WGL.context } } ∧
    s'.lib = { st.lib with error := s'.lib.error } ∧
    (∃ attribs, s'.log = st.log ++ [.CreateContextAttribsARB st.window.WGL.DC share attribs]) ∧
    s'.liveWindows = st.liveWindows ∧ s'.liveDCs = st.liveDCs ∧
    s'.liveContexts = st.liveContexts + (if s'.window.WGL.context = 0 then 0 else 1) ∧
    (r = true ↔ s'.window.WGL.context ≠ 0) := by
  unfold finishCreateContextAttribs at h
  cases hb : b.store 0 with
  | none => rw [hb] at h; simp at h
  | some b1 =>
    rw [hb] at h
    simp only [Option.some_bind] at h
    split_ifs at h with hc
    · simp only [Option.some.injEq, Prod.mk.injEq] at h
      obtain ⟨hr, hs⟩ := h
      subst hs; subst hr
      simp [setError, setWGL, emit, callThrough, hc]
    · simp only [Option.some.injEq, Prod.mk.injEq] at h
      obtain ⟨hr, hs⟩ := h
      subst hs; subst hr
      simp [setError, setWGL, emit, callThrough, hc]

/-- The facts of `createContext_frame` for an execution that ends in the call
of the entry point, after the flag reads `reads`. -/
theorem createContext_frame_finish (env : Env) (share : Nat) (s : State) (r : Bool)
    (s' : State) (b : AttribBuf) (reads : List Event)
    (hreads : ∀ ev ∈ reads, ev.isNegotiationOf s.native = true)
    (hmem : .readFlag .has_WGL_ARB_create_context s.native ∈ reads)
    (hfin : finishCreateContextAttribs env share b
      { s with log := s.log ++ reads } = some (r, s')) :
    s'.native = s.native ∧
    s'.window =
      { s.window with WGL := { s.window.WGL with context := s'.window.WGL.context } } ∧
    s'.lib = { s.lib with error := s'.lib.error } ∧
    (∃ l, s'.log = s.log ++ l ∧ (∀ ev ∈ l, ev.isNegotiationOf s.native = true) ∧
      (r = true → .readFlag .has_WGL_ARB_create_context s.native ∈ l)) ∧
    s'.liveWindows = s.liveWindows ∧ s'.liveDCs = s.liveDCs ∧
    (s.window.WGL.context = 0 →
      s'.liveContexts = s.liveContexts + (if s'.window.WGL.context = 0 then 0 else 1)) ∧
    (r = true → s'.window.WGL.context ≠ 0) := by
  obtain ⟨h1, h2, h3, ⟨attribs, h4⟩, h5, h6, h7, h8⟩ :=
    finishCreateContextAttribs_frame env _ b _ r s' hfin
  refine ⟨h1, h2, h3, ⟨reads ++ [.CreateContextAttribsARB s.window.WGL.DC
    share attribs], ?_, ?_, ?_⟩, h5, h6, fun _ => h7, h8.mp⟩
  · rw [h4]; simp
  · intro ev hev
    rw [List.mem_append] at hev
    rcases hev with hev | hev
    · exact hreads ev hev
    · simp only [List.mem_singleton] at hev
      subst hev; rfl
  · intro _
    exact List.mem_append_left _ hmem

/-- Whenever `createContext` returns, it has changed the context, the error, the
log and the count of contexts, and nothing else: the events it adds belong to
the negotiation for the current native window, a success has read
`has_WGL_ARB_create_context` and created a context, and the count of contexts
grows by one exactly when the window holds a context on return. -/
theorem createContext_frame (env : Env) (wndconfig : WndConfig) (pixelFormat : Int)
    (s : State) (r : Bool) (s' : State)
    (h : createContext env wndconfig pixelFormat s = some (r, s')) :
    s'.native = s.native ∧
    s'.window = { s.window with WGL := { s.window.WGL with context := s'.window.WGL.context } } ∧
    s'.lib = { s.lib with error := s'.lib.error } ∧
    (∃ l, s'.log = s.log ++ l ∧ (∀ ev ∈ l, ev.isNegotiationOf s.native = true) ∧
      (r = true → .readFlag .has_WGL_ARB_create_context s.native ∈ l)) ∧
    s'.liveWindows = s.liveWindows ∧ s'.liveDCs = s.liveDCs ∧
    (s.window.WGL.context = 0 →
      s'.liveContexts = s.liveContexts + (if s'.window.WGL.context = 0 then 0 else 1)) ∧
    (r = true → s'.window.WGL.context ≠ 0) := by
  obtain ⟨b, hb, -, -, -⟩ := storeVersionAndFlags_some env wndconfig
  unfold createContext at h
  simp only at h
  split_ifs at h
  all_goals first
    | (simp only [Option.some.injEq, Prod.mk.injEq] at h
       obtain ⟨hr, hs'⟩ := h
       subst hs'
       subst hr
       try simp only [emit] at *
       first
         | (simp [setError, setWGL, Event.isNegotiationOf]
            done)
         | simp [setError, setWGL, Event.isNegotiationOf, *])
    | (rw [hb] at h
       simp only [Option.some_bind, emit, List.append_assoc] at h
       first
         | (simp only [Option.some.injEq, Prod.mk.injEq] at h
            obtain ⟨hr, hs'⟩ := h
            subst hs'
            subst hr
            simp [setError, setWGL, Event.isNegotiationOf])
         | exact createContext_frame_finish env _ s r s' b _
             (by simp [Event.isNegotiationOf]) (by simp) h
         | (cases hsp : storeProfile wndconfig b with
            | none => rw [hsp] at h; simp at h
            | some b2 =>
              rw [hsp] at h
              simp only [Option.some_bind] at h
              exact createContext_frame_finish env _ s r s' b2 _
                (by simp [Event.isNegotiationOf]) (by simp) h))


/-- The function `choosePixelFormat` changes the log, by the one flag read, and
the error, and nothing else. -/
theorem choosePixelFormat_frame (env : Env) (fbconfig : FBConfig) (s : State) :
    (choosePixelFormat env fbconfig s).2.native = s.native ∧
    (choosePixelFormat env fbconfig s).2.window = s.window ∧
    (choosePixelFormat env fbconfig s).2.log =
      s.log ++ [.readFlag .has_WGL_ARB_pixel_format s.native] ∧
    (choosePixelFormat env fbconfig s).2.liveWindows = s.liveWindows ∧
    (choosePixelFormat env fbconfig s).2.liveDCs = s.liveDCs ∧
    (choosePixelFormat env fbconfig s).2.liveContexts = s.liveContexts := by
  unfold choosePixelFormat
  simp only [emit, callThrough]
  cases s.window.WGL.has_WGL_ARB_pixel_format <;>
    simp only [Bool.false_eq_true, if_false, if_true] <;>
    (cases getFBConfigs env s.window.WGL with
     | error e => simp [setError]
     | ok r =>
       obtain ⟨fbconfigs, fbcount⟩ := r
       simp only
       cases env.chooseFBConfig fbconfig fbconfigs fbcount <;> simp)

/-- The function `finishCreateWindow` appends the probe to the log and touches
neither the handles nor the counts. -/
theorem finishCreateWindow_frame (env : Env) (s : State) :
    (finishCreateWindow env s).native = s.native ∧
    (finishCreateWindow env s).log = s.log ++ [.initWGLExtensions s.native] ∧
    (finishCreateWindow env s).window.Win32.handle = s.window.Win32.handle ∧
    (finishCreateWindow env s).window.WGL = initWGLExtensions env s.window.WGL ∧
    (finishCreateWindow env s).liveWindows = s.liveWindows ∧
    (finishCreateWindow env s).liveDCs = s.liveDCs ∧
    (finishCreateWindow env s).liveContexts = s.liveContexts := by
  simp [finishCreateWindow, emit, setWGL, glfwMakeWindowCurrent]

/-- The function `initWGLExtensions` leaves the device context and the
rendering context as they are. -/
theorem initWGLExtensions_handles (env : Env) (wgl : WGL) :
    (initWGLExtensions env wgl).DC = wgl.DC ∧
    (initWGLExtensions env wgl).context = wgl.context := by
  have h0 : ∀ w : WGL, (resetWGLExtensions w).DC = w.DC ∧
      (resetWGLExtensions w).context = w.context := fun w => ⟨rfl, rfl⟩
  have h1 : ∀ w : WGL, (resolveExtensionsString env w).DC = w.DC ∧
      (resolveExtensionsString env w).context = w.context := by
    intro w; unfold resolveExtensionsString; simp only; split_ifs <;> exact ⟨rfl, rfl⟩
  have h2 : ∀ w : WGL, (probeMultisample env w).DC = w.DC ∧
      (probeMultisample env w).context = w.context := by
    intro w; unfold probeMultisample; split_ifs <;> exact ⟨rfl, rfl⟩
  have h3 : ∀ w : WGL, (probeCreateContext env w).DC = w.DC ∧
      (probeCreateContext env w).context = w.context := by
    intro w; unfold probeCreateContext; simp only; split_ifs <;> exact ⟨rfl, rfl⟩
  have h4 : ∀ w : WGL, (probeCreateContextProfile env w).DC = w.DC ∧
      (probeCreateContextProfile env w).context = w.context := by
    intro w; unfold probeCreateContextProfile; split_ifs <;> exact ⟨rfl, rfl⟩
  have h5 : ∀ w : WGL, (probeES2Profile env w).DC = w.DC ∧
      (probeES2Profile env w).context = w.context := by
    intro w; unfold probeES2Profile; split_ifs <;> exact ⟨rfl, rfl⟩
  have h6 : ∀ w : WGL, (probeSwapControl env w).DC = w.DC ∧
      (probeSwapControl env w).context = w.context := by
    intro w; unfold probeSwapControl; simp only; split_ifs <;> exact ⟨rfl, rfl⟩
  have h7 : ∀ w : WGL, (probePixelFormat env w).DC = w.DC ∧
      (probePixelFormat env w).context = w.context := by
    intro w; unfold probePixelFormat; simp only; split_ifs <;> exact ⟨rfl, rfl⟩
  unfold initWGLExtensions
  simp only
  split_ifs
  · exact ⟨by rw [(h1 _).1, (h0 _).1], by rw [(h1 _).2, (h0 _).2]⟩
  · exact ⟨by rw [(h7 _).1, (h6 _).1, (h5 _).1, (h4 _).1, (h3 _).1, (h2 _).1, (h1 _).1, (h0 _).1],
      by rw [(h7 _).2, (h6 _).2, (h5 _).2, (h4 _).2, (h3 _).2, (h2 _).2, (h1 _).2, (h0 _).2]⟩


/-- The beginning of `createWindow` logs the call, counts one more native
window and stores its handle; it touches neither the device context nor the
rendering context nor the counts of allocated objects. -/
theorem createNativeWindow_frame (env : Env) (wndconfig : WndConfig) (s : State) :
    (createNativeWindow env wndconfig s).native = s.native + 1 ∧
    (createNativeWindow env wndconfig s).log = s.log ++ [.createWindow] ∧
    (createNativeWindow env wndconfig s).window.WGL = s.window.WGL ∧
    (createNativeWindow env wndconfig s).liveWindows = s.liveWindows ∧
    (createNativeWindow env wndconfig s).liveDCs = s.liveDCs ∧
    (createNativeWindow env wndconfig s).liveContexts = s.liveContexts := by
  simp [createNativeWindow, emit]

/-- Whenever `createWindow` returns: it has made one more native window its
own; the log has gained the call, then events of the negotiation for that
native window, and on success, last, the probe of the extensions, which the
reads of `has_WGL_ARB_pixel_format` and `has_WGL_ARB_create_context` precede;
if the window held no device context and no rendering context on entry, the
native objects allocated since are exactly those its fields name; and on
success the three fields are non-null. -/
theorem createWindow_frame (env : Env) (wndconfig : WndConfig) (fbconfig : FBConfig)
    (s : State) (r : Bool) (s' : State)
    (h : createWindow env wndconfig fbconfig s = some (r, s')) :
    s'.native = s.native + 1 ∧
    (∃ l, (∀ ev ∈ l, ev.isNegotiationOf (s.native + 1) = true) ∧
      ((r = false ∧ s'.log = s.log ++ .createWindow :: l) ∨
        (r = true ∧
          s'.log = s.log ++ .createWindow :: (l ++ [.initWGLExtensions (s.native + 1)]) ∧
          .readFlag .has_WGL_ARB_pixel_format (s.native + 1) ∈ l ∧
          .readFlag .has_WGL_ARB_create_context (s.native + 1) ∈ l))) ∧
    (s.window.WGL.DC = 0 → s.window.WGL.context = 0 →
      Recorded (s.liveWindows, s.liveDCs, s.liveContexts) s') ∧
    (r = true → s'.window.Win32.handle ≠ 0 ∧ s'.window.WGL.DC ≠ 0 ∧
      s'.window.WGL.context ≠ 0) := by
  obtain ⟨n1, n2, n3, n4, n5, n6⟩ := createNativeWindow_frame env wndconfig s
  unfold createWindow at h
  simp only at h
  generalize createNativeWindow env wndconfig s = s1 at h n1 n2 n3 n4 n5 n6
  split_ifs at h with hh hdc hch
  · simp only [Option.some.injEq, Prod.mk.injEq] at h
    obtain ⟨hr, hs'⟩ := h
    subst hs'; subst hr
    refine ⟨n1, ⟨[], by simp, Or.inl ⟨rfl, by simp [setError, n2]⟩⟩, ?_, by simp⟩
    intro h1 h2
    simp [Recorded, setError, hh, n3, n4, n5, n6, h1, h2]
  · simp only [Option.some.injEq, Prod.mk.injEq] at h
    obtain ⟨hr, hs'⟩ := h
    subst hs'; subst hr
    refine ⟨n1, ⟨[], by simp, Or.inl ⟨rfl, by simp [setError, setWGL, n2]⟩⟩, ?_, by simp⟩
    intro h1 h2
    simp [Recorded, setError, setWGL, hh, hdc, n3, n4, n5, n6, h1, h2]
  · simp only [Option.some.injEq, Prod.mk.injEq] at h
    obtain ⟨hr, hs'⟩ := h
    subst hr
    obtain ⟨c1, c2, c3, c4, c5, c6⟩ := choosePixelFormat_frame env fbconfig
      { setWGL { s1.window.WGL with DC := env.GetDC s1.window.Win32.handle }
          { s1 with liveWindows := s1.liveWindows + 1 } with
        liveDCs := s1.liveDCs + 1 }
    simp only [setWGL] at hs' c1 c2 c3 c4 c5 c6
    rw [hs'] at c1 c2 c3 c4 c5 c6
    refine ⟨by rw [c1, n1], ⟨[.readFlag .has_WGL_ARB_pixel_format (s.native + 1)], ?_,
      Or.inl ⟨rfl, by rw [c3, n2, n1]; simp⟩⟩, ?_, by simp⟩
    · simp [Event.isNegotiationOf]
    · intro h1 h2
      simp only [Recorded, c2, c4, c5, c6]
      simp [hh, hdc, n3, n4, n5, n6, h2]
  · obtain ⟨c1, c2, c3, c4, c5, c6⟩ := choosePixelFormat_frame env fbconfig
      { setWGL { s1.window.WGL with DC := env.GetDC s1.window.Win32.handle }
          { s1 with liveWindows := s1.liveWindows + 1 } with
        liveDCs := s1.liveDCs + 1 }
    simp only [setWGL] at h c1 c2 c3 c4 c5 c6
    generalize choosePixelFormat env fbconfig _ = chosen at h c1 c2 c3 c4 c5 c6
    cases hcc : createContext env wndconfig chosen.1 chosen.2 with
    | none => rw [hcc] at h; simp at h
    | some created =>
      obtain ⟨rc, sc⟩ := created
      rw [hcc] at h
      obtain ⟨f1, f2, f3, ⟨lc, f4, f5, f6⟩, f7, f8, f9, f10⟩ :=
        createContext_frame env wndconfig chosen.1 chosen.2 rc sc hcc
      have hnat : sc.native = s.native + 1 := by rw [f1, c1, n1]
      have hlog : sc.log = s.log ++ .createWindow ::
          (.readFlag .has_WGL_ARB_pixel_format (s.native + 1) :: lc) := by
        rw [f4, c3, n2, n1]; simp
      have hneg : ∀ ev ∈ Event.readFlag .has_WGL_ARB_pixel_format (s.native + 1) :: lc,
          ev.isNegotiationOf (s.native + 1) = true := by
        intro ev hev
        rw [List.mem_cons] at hev
        rcases hev with hev | hev
        · subst hev; simp [Event.isNegotiationOf]
        · have := f5 ev hev
          rwa [c1, n1] at this
      have hrec : s.window.WGL.DC = 0 → s.window.WGL.context = 0 →
          Recorded (s.liveWindows, s.liveDCs, s.liveContexts) sc := by
        intro h1 h2
        have hctx : chosen.2.window.WGL.context = 0 := by rw [c2]; simp [n3, h2]
        have f9' := f9 hctx
        rw [c2] at f2
        simp only [Recorded, f7, f8, f9', c4, c5, c6]
        rw [f2]
        simp [hh, hdc, n4, n5, n6]
      cases rc with
      | false =>
        simp only [Option.some_bind, Bool.not_false, if_true, Option.some.injEq,
          Prod.mk.injEq] at h
        obtain ⟨hr, hs'⟩ := h
        subst hs'; subst hr
        exact ⟨hnat, ⟨_, hneg, Or.inl ⟨rfl, hlog⟩⟩, hrec, by simp⟩
      | true =>
        simp only [Option.some_bind, Bool.not_true, Bool.false_eq_true, if_false,
          Option.some.injEq, Prod.mk.injEq] at h
        obtain ⟨hr, hs'⟩ := h
        subst hs'; subst hr
        obtain ⟨g1, g2, g3, g4, g5, g6, g7⟩ := finishCreateWindow_frame env sc
        obtain ⟨i1, i2⟩ := initWGLExtensions_handles env sc.window.WGL
        have hctx := f10 rfl
        have hsc : sc.window.Win32.handle ≠ 0 ∧ sc.window.WGL.DC ≠ 0 := by
          rw [f2, c2]; exact ⟨hh, hdc⟩
        refine ⟨by rw [g1, hnat], ⟨_, hneg, Or.inr ⟨rfl, ?_, List.mem_cons_self _ _, ?_⟩⟩,
          ?_, fun _ => ⟨by rw [g3]; exact hsc.1, by rw [g4, i1]; exact hsc.2,
            by rw [g4, i2]; exact hctx⟩⟩
        · rw [g2, hlog, hnat]; simp
        · have := f6 rfl
          rw [c1, n1] at this
          exact List.mem_cons_of_mem _ this
        · intro h1 h2
          have := hrec h1 h2
          simp only [Recorded, g3, g4, g5, g6, g7, i1, i2] at this ⊢
          exact this


/-- The function `destroyWindow` logs the call, nulls the three handles, keeps
the capability flags and entry points, and releases exactly the native objects
the three fields named. -/
theorem destroyWindow_frame (s : State) :
    (destroyWindow s).native = s.native ∧
    (destroyWindow s).log = s.log ++ [.destroyWindow s.native] ∧
    (destroyWindow s).window.Win32.handle = 0 ∧
    (destroyWindow s).window.WGL = { s.window.WGL with DC := 0, context := 0 } ∧
    (∀ base, Recorded base s →
      (destroyWindow s).liveWindows = base.1 ∧ (destroyWindow s).liveDCs = base.2.1 ∧
        (destroyWindow s).liveContexts = base.2.2) := by
  have hf : ∀ t : State, (forgetWindow t).native = t.native ∧ (forgetWindow t).log = t.log ∧
      (forgetWindow t).window = t.window ∧ (forgetWindow t).liveWindows = t.liveWindows ∧
      (forgetWindow t).liveDCs = t.liveDCs ∧ (forgetWindow t).liveContexts = t.liveContexts := by
    intro t
    unfold forgetWindow glfwMakeWindowCurrent
    simp only
    split_ifs <;> simp
  have hc : ∀ t : State, (deleteContext t).native = t.native ∧ (deleteContext t).log = t.log ∧
      (deleteContext t).window =
        { t.window with WGL := { t.window.WGL with context := 0 } } ∧
      (deleteContext t).liveWindows = t.liveWindows ∧ (deleteContext t).liveDCs = t.liveDCs ∧
      (deleteContext t).liveContexts =
        t.liveContexts - (if t.window.WGL.context = 0 then 0 else 1) := by
    intro t
    by_cases h : t.window.WGL.context = 0
    · have e : deleteContext t = t := by simp [deleteContext, h]
      have e' : ({ t.window.WGL with context := 0 } : WGL) = t.window.WGL := by
        cases hw : t.window.WGL; rw [hw] at h; simp_all
      rw [e, e']
      exact ⟨rfl, rfl, rfl, rfl, rfl, by simp [h]⟩
    · simp [deleteContext, setWGL, h]
  have hd : ∀ t : State, (releaseDC t).native = t.native ∧ (releaseDC t).log = t.log ∧
      (releaseDC t).window = { t.window with WGL := { t.window.WGL with DC := 0 } } ∧
      (releaseDC t).liveWindows = t.liveWindows ∧
      (releaseDC t).liveDCs = t.liveDCs - (if t.window.WGL.DC = 0 then 0 else 1) ∧
      (releaseDC t).liveContexts = t.liveContexts := by
    intro t
    by_cases h : t.window.WGL.DC = 0
    · have e : releaseDC t = t := by simp [releaseDC, h]
      have e' : ({ t.window.WGL with DC := 0 } : WGL) = t.window.WGL := by
        cases hw : t.window.WGL; rw [hw] at h; simp_all
      rw [e, e']
      exact ⟨rfl, rfl, rfl, rfl, by simp [h], rfl⟩
    · simp [releaseDC, setWGL, h]
  have hw : ∀ t : State, (destroyNativeWindow t).native = t.native ∧
      (destroyNativeWindow t).log = t.log ∧
      (destroyNativeWindow t).window =
        { t.window with Win32 := { t.window.Win32 with handle := 0 } } ∧
      (destroyNativeWindow t).liveWindows =
        t.liveWindows - (if t.window.Win32.handle = 0 then 0 else 1) ∧
      (destroyNativeWindow t).liveDCs = t.liveDCs ∧
      (destroyNativeWindow t).liveContexts = t.liveContexts := by
    intro t
    by_cases h : t.window.Win32.handle = 0
    · have e : destroyNativeWindow t = t := by simp [destroyNativeWindow, h]
      have e' : ({ t.window.Win32 with handle := 0 } : Win32Window) = t.window.Win32 := by
        cases hw : t.window.Win32; rw [hw] at h; simp_all
      rw [e, e']
      exact ⟨rfl, rfl, rfl, by simp [h], rfl, rfl⟩
    · simp [destroyNativeWindow, h]
  unfold destroyWindow
  simp only
  generalize hs0 : emit (.destroyWindow s.native) s = s0
  have e1 : s0.native = s.native := by rw [← hs0]; rfl
  have e2 : s0.log = s.log ++ [.destroyWindow s.native] := by rw [← hs0]; rfl
  have e3 : s0.window = s.window := by rw [← hs0]; rfl
  have e4 : s0.liveWindows = s.liveWindows ∧ s0.liveDCs = s.liveDCs ∧
      s0.liveContexts = s.liveContexts := by rw [← hs0]; exact ⟨rfl, rfl, rfl⟩
  obtain ⟨f1, f2, f3, f4, f5, f6⟩ := hf s0
  obtain ⟨c1, c2, c3, c4, c5, c6⟩ := hc (forgetWindow s0)
  obtain ⟨d1, d2, d3, d4, d5, d6⟩ := hd (deleteContext (forgetWindow s0))
  obtain ⟨w1, w2, w3, w4, w5, w6⟩ :=
    hw (releaseDC (deleteContext (forgetWindow s0)))
  refine ⟨by rw [w1, d1, c1, f1, e1], by rw [w2, d2, c2, f2, e2], by rw [w3],
    by rw [w3, d3, c3, f3, e3], ?_⟩
  intro base hb
  obtain ⟨h1, h2, h3⟩ := hb
  rw [w4, w5, w6, d4, d5, d6, c4, c5, c6, f4, f5, f6, d3, c3, f3, e3, e4.1, e4.2.1, e4.2.2,
    h1, h2, h3]
  refine ⟨?_, ?_, ?_⟩
  · simp only; split_ifs <;> omega
  · simp only; split_ifs <;> omega
  · split_ifs <;> omega

/-- The beginning of `_glfwPlatformOpenWindow` touches neither the log, nor the
handles and flags of the window, nor the counts of native objects. -/
theorem openWindowPrologue_frame (env : Env) (wndconfig : WndConfig) (fbconfig : FBConfig)
    (s : State) :
    (openWindowPrologue env wndconfig fbconfig s).2.native = s.native ∧
    (openWindowPrologue env wndconfig fbconfig s).2.log = s.log ∧
    (openWindowPrologue env wndconfig fbconfig s).2.window.WGL = s.window.WGL ∧
    (openWindowPrologue env wndconfig fbconfig s).2.window.Win32.handle =
      s.window.Win32.handle ∧
    (openWindowPrologue env wndconfig fbconfig s).2.liveWindows = s.liveWindows ∧
    (openWindowPrologue env wndconfig fbconfig s).2.liveDCs = s.liveDCs ∧
    (openWindowPrologue env wndconfig fbconfig s).2.liveContexts = s.liveContexts := by
  unfold openWindowPrologue registerWindowClass setFullscreenMode
  simp only [setError]
  split_ifs <;> simp

/-! ## The open-window protocol -/

/-- The log of a run of `createWindow` that returns. -/
theorem createWindow_attempt (env : Env) (wndconfig : WndConfig) (fbconfig : FBConfig)
    (s : State) (r : Bool) (s' : State)
    (h : createWindow env wndconfig fbconfig s = some (r, s')) :
    ∃ l, s'.log = s.log ++ l ∧ IsAttempt (s.native + 1) r l := by
  obtain ⟨-, ⟨l, hl, hlog⟩, -, -⟩ := createWindow_frame env wndconfig fbconfig s r s' h
  rcases hlog with ⟨hr, hlog⟩ | ⟨hr, hlog, hpf, hcc⟩
  · exact ⟨_, hlog, l, hl, Or.inl ⟨hr, rfl⟩⟩
  · exact ⟨_, hlog, l, hl, Or.inr ⟨hr, rfl, hpf, hcc⟩⟩

/-- An event of the negotiation is neither a call of `createWindow`, nor a call
of `destroyWindow`, nor a probe. -/
theorem Event.isNegotiationOf_kind (n : Nat) (ev : Event) (h : ev.isNegotiationOf n = true) :
    ev ≠ .createWindow ∧ ev.isDestroyWindow = false ∧ (∀ m, ev ≠ .initWGLExtensions m) ∧
      (∀ flag m, ev = .readFlag flag m → m = n) := by
  cases ev <;> simp_all [Event.isNegotiationOf, Event.isDestroyWindow]

/-- One run of `createWindow` logs one call of `createWindow` and no call of
`destroyWindow`. -/
theorem IsAttempt.calls {n : Nat} {r : Bool} {l : List Event} (h : IsAttempt n r l) :
    createWindowCalls l = 1 ∧ destroyWindowCalls l = 0 := by
  obtain ⟨reads, hreads, hl⟩ := h
  have h1 : List.count Event.createWindow reads = 0 := by
    rw [List.count_eq_zero]
    intro hmem
    exact (Event.isNegotiationOf_kind n _ (hreads _ hmem)).1 rfl
  have h2 : List.countP Event.isDestroyWindow reads = 0 := by
    rw [List.countP_eq_zero]
    intro ev hmem
    rw [(Event.isNegotiationOf_kind n _ (hreads _ hmem)).2.1]
    decide
  rcases hl with ⟨-, hl⟩ | ⟨-, hl, -, -⟩
  · subst hl
    simp [createWindowCalls, destroyWindowCalls, h1, h2, Event.isDestroyWindow]
  · subst hl
    simp [createWindowCalls, destroyWindowCalls, h1, h2, Event.isDestroyWindow,
      List.count_append, List.countP_append]

/-- The three ways `_glfwPlatformOpenWindow` goes on after the first window:
a failed capability check ends it with the version-unavailable error; without
one, a request that needs it has the window destroyed and created again, the
result of the second creation being the result of the function; any other
request succeeds with the first window. -/
theorem negotiate_cases (env : Env) (wndconfig : WndConfig) (fbconfig : FBConfig) (s : State) :
    (failsCapabilityCheck wndconfig s.window.WGL →
      negotiate env wndconfig fbconfig s =
        some (false, setError .GLFW_VERSION_UNAVAILABLE s)) ∧
    (¬ failsCapabilityCheck wndconfig s.window.WGL →
      needsRecreation wndconfig fbconfig s.window.WGL →
      negotiate env wndconfig fbconfig s =
        createWindow env wndconfig fbconfig (destroyWindow s)) ∧
    (¬ failsCapabilityCheck wndconfig s.window.WGL →
      ¬ needsRecreation wndconfig fbconfig s.window.WGL →
      negotiate env wndconfig fbconfig s = some (true, s)) := by
  have hbind : ∀ o : Option (Bool × State),
      (o.bind fun recreated =>
        if !recreated.1 then some (false, recreated.2) else some (true, recreated.2)) = o := by
    intro o
    cases o with
    | none => rfl
    | some p => obtain ⟨b, t⟩ := p; cases b <;> rfl
  have hver : (wndconfig.glMajor, wndconfig.glMinor) ≠ (1, 0) ↔
      (wndconfig.glMajor ≠ 1 ∨ wndconfig.glMinor ≠ 0) := by
    rw [Ne, Prod.mk.injEq, not_and_or]
  unfold failsCapabilityCheck needsRecreation negotiate
  simp only [hbind, hver]
  generalize createWindow env wndconfig fbconfig (destroyWindow s) = second
  by_cases hv : wndconfig.glMajor ≠ 1 ∨ wndconfig.glMinor ≠ 0 <;>
  by_cases hcc : s.window.WGL.has_WGL_ARB_create_context = true <;>
  by_cases hfd : wndconfig.glForward = true ∨ wndconfig.glDebug = true <;>
  by_cases hP : wndconfig.glProfile ≠ 0 <;>
  by_cases hprof : s.window.WGL.has_WGL_ARB_create_context_profile = true <;>
  by_cases hS : fbconfig.samples > 0 ∧ s.window.WGL.has_WGL_ARB_multisample = true ∧
    s.window.WGL.has_WGL_ARB_pixel_format = true <;>
  simp [hv, hcc, hfd, hP, hprof, hS]


/-- Once the first `createWindow` has succeeded, `_glfwPlatformOpenWindow`
goes on with the capability checks on the state that creation left. -/
theorem openWindow_after_first (env : Env) (wndconfig : WndConfig) (fbconfig : FBConfig)
    (s s1 : State) (hstart : (openWindowPrologue env wndconfig fbconfig s).1 = true)
    (hfirst : createWindow env wndconfig fbconfig
      (openWindowPrologue env wndconfig fbconfig s).2 = some (true, s1)) :
    _glfwPlatformOpenWindow env wndconfig fbconfig s = negotiate env wndconfig fbconfig s1 := by
  unfold _glfwPlatformOpenWindow
  simp [hstart, hfirst]

/-- The log the first `createWindow` of `_glfwPlatformOpenWindow` leaves. -/
theorem openWindow_first_attempt (env : Env) (wndconfig : WndConfig) (fbconfig : FBConfig)
    (s : State) (r : Bool) (s1 : State)
    (hfirst : createWindow env wndconfig fbconfig
      (openWindowPrologue env wndconfig fbconfig s).2 = some (r, s1)) :
    s1.native = s.native + 1 ∧ ∃ l, s1.log = s.log ++ l ∧ IsAttempt (s.native + 1) r l := by
  obtain ⟨p1, p2, -⟩ := openWindowPrologue_frame env wndconfig fbconfig s
  obtain ⟨l, hl, ha⟩ := createWindow_attempt env wndconfig fbconfig _ r s1 hfirst
  obtain ⟨hn, -⟩ := createWindow_frame env wndconfig fbconfig _ r s1 hfirst
  rw [p1] at ha hn
  rw [p2] at hl
  exact ⟨hn, l, hl, ha⟩

/-- The log the second `createWindow` of `_glfwPlatformOpenWindow` leaves. -/
theorem openWindow_second_attempt (env : Env) (wndconfig : WndConfig) (fbconfig : FBConfig)
    (s1 : State) (r : Bool) (s2 : State)
    (hsecond : createWindow env wndconfig fbconfig (destroyWindow s1) = some (r, s2)) :
    s2.native = s1.native + 1 ∧
      ∃ l, s2.log = s1.log ++ [.destroyWindow s1.native] ++ l ∧
        IsAttempt (s1.native + 1) r l := by
  obtain ⟨d1, d2, -⟩ := destroyWindow_frame s1
  obtain ⟨l, hl, ha⟩ := createWindow_attempt env wndconfig fbconfig _ r s2 hsecond
  obtain ⟨hn, -⟩ := createWindow_frame env wndconfig fbconfig _ r s2 hsecond
  rw [d1] at ha hn
  rw [d2] at hl
  exact ⟨hn, l, hl, ha⟩

/-- The calls counted in a log that one run of `createWindow` extends. -/
theorem calls_append_attempt (log l : List Event) (n : Nat) (r : Bool) (h : IsAttempt n r l) :
    createWindowCalls (log ++ l) = createWindowCalls log + 1 ∧
      destroyWindowCalls (log ++ l) = destroyWindowCalls log := by
  obtain ⟨h1, h2⟩ := h.calls
  unfold createWindowCalls destroyWindowCalls at *
  rw [List.count_append, List.countP_append, h1, h2]
  exact ⟨rfl, rfl⟩

/-- The calls counted in a log that a destruction and one run of
`createWindow` extend. -/
theorem calls_append_destroy_attempt (log l : List Event) (m n : Nat) (r : Bool)
    (h : IsAttempt n r l) :
    createWindowCalls (log ++ [.destroyWindow m] ++ l) = createWindowCalls log + 1 ∧
      destroyWindowCalls (log ++ [.destroyWindow m] ++ l) = destroyWindowCalls log + 1 := by
  obtain ⟨h1, h2⟩ := h.calls
  unfold createWindowCalls destroyWindowCalls at *
  rw [List.count_append, List.countP_append, List.count_append, List.countP_append, h1, h2]
  simp [Event.isDestroyWindow]

/-- Claim C5. For a request with version 3.2, core profile and the
forward-compatible flag unset, when the first `createWindow` succeeds and its
probe finds neither context creation with attributes nor profile support,
`_glfwPlatformOpenWindow` returns failure with the error
`GLFW_VERSION_UNAVAILABLE`, having called `createWindow` once and `destroyWindow`
never. -/
theorem openWindow_version_unavailable (env : Env) (wndconfig : WndConfig)
    (fbconfig : FBConfig) (s s1 : State)
    (_hmajor : wndconfig.glMajor = 3) (_hminor : wndconfig.glMinor = 2)
    (hprofile : wndconfig.glProfile = GLFW_OPENGL_CORE_PROFILE)
    (_hforward : wndconfig.glForward = false)
    (hstart : (openWindowPrologue env wndconfig fbconfig s).1 = true)
    (hfirst : createWindow env wndconfig fbconfig
      (openWindowPrologue env wndconfig fbconfig s).2 = some (true, s1))
    (_hcc : s1.window.WGL.has_WGL_ARB_create_context = false)
    (hprof : s1.window.WGL.has_WGL_ARB_create_context_profile = false) :
    ∃ s', _glfwPlatformOpenWindow env wndconfig fbconfig s = some (false, s') ∧
      s'.lib.error = .GLFW_VERSION_UNAVAILABLE ∧
      createWindowCalls s'.log = createWindowCalls s.log + 1 ∧
      destroyWindowCalls s'.log = destroyWindowCalls s.log := by
  have hfail : failsCapabilityCheck wndconfig s1.window.WGL :=
    Or.inr ⟨by rw [hprofile]; decide, hprof⟩
  obtain ⟨-, l, hl, ha⟩ := openWindow_first_attempt env wndconfig fbconfig s true s1 hfirst
  obtain ⟨k1, k2⟩ := calls_append_attempt s.log l _ _ ha
  refine ⟨setError .GLFW_VERSION_UNAVAILABLE s1, ?_, rfl, ?_, ?_⟩
  · rw [openWindow_after_first env wndconfig fbconfig s s1 hstart hfirst]
    exact (negotiate_cases env wndconfig fbconfig s1).1 hfail
  · show createWindowCalls s1.log = _
    rw [hl]; exact k1
  · show destroyWindowCalls s1.log = _
    rw [hl]; exact k2

/-- Claim C6. For a request with version 3.2 and core profile, when the probe
of the first window reports context creation with attributes and profile
support and both window creations succeed, `_glfwPlatformOpenWindow` returns
success with the state the second creation left; the log has gained one run of
`createWindow` for the first native window, the call of `destroyWindow` for
that window (which nulls its handle), and one run of `createWindow` for the
second native window, whose handle the window keeps. -/
theorem openWindow_recreates_once (env : Env) (wndconfig : WndConfig)
    (fbconfig : FBConfig) (s s1 s2 : State)
    (hmajor : wndconfig.glMajor = 3) (hminor : wndconfig.glMinor = 2)
    (_hprofile : wndconfig.glProfile = GLFW_OPENGL_CORE_PROFILE)
    (hstart : (openWindowPrologue env wndconfig fbconfig s).1 = true)
    (hfirst : createWindow env wndconfig fbconfig
      (openWindowPrologue env wndconfig fbconfig s).2 = some (true, s1))
    (hcc : s1.window.WGL.has_WGL_ARB_create_context = true)
    (hprof : s1.window.WGL.has_WGL_ARB_create_context_profile = true)
    (hsecond : createWindow env wndconfig fbconfig (destroyWindow s1) = some (true, s2)) :
    _glfwPlatformOpenWindow env wndconfig fbconfig s = some (true, s2) ∧
      (∃ l1 l2, IsAttempt (s.native + 1) true l1 ∧ IsAttempt (s.native + 2) true l2 ∧
        s1.log = s.log ++ l1 ∧
        s2.log = s.log ++ l1 ++ [.destroyWindow (s.native + 1)] ++ l2) ∧
      createWindowCalls s2.log = createWindowCalls s.log + 2 ∧
      destroyWindowCalls s2.log = destroyWindowCalls s.log + 1 ∧
      (destroyWindow s1).window.Win32.handle = 0 ∧
      s2.native = s.native + 2 ∧ s2.window.Win32.handle ≠ 0 := by
  have hok : ¬ failsCapabilityCheck wndconfig s1.window.WGL := by
    unfold failsCapabilityCheck
    rw [hcc, hprof]
    simp
  have hneed : needsRecreation wndconfig fbconfig s1.window.WGL :=
    Or.inl ⟨by rw [hmajor, hminor]; decide, hcc⟩
  obtain ⟨hn1, l1, hl1, ha1⟩ := openWindow_first_attempt env wndconfig fbconfig s true s1 hfirst
  obtain ⟨hn2, l2, hl2, ha2⟩ := openWindow_second_attempt env wndconfig fbconfig s1 true s2 hsecond
  rw [hn1] at hn2 hl2 ha2
  rw [hl1] at hl2
  obtain ⟨k1, k2⟩ := calls_append_attempt s.log l1 _ _ ha1
  obtain ⟨k3, k4⟩ := calls_append_destroy_attempt (s.log ++ l1) l2 (s.native + 1) _ _ ha2
  obtain ⟨-, -, -, hh⟩ := createWindow_frame env wndconfig fbconfig _ true s2 hsecond
  refine ⟨?_, ⟨l1, l2, ha1, ha2, hl1, hl2⟩, ?_, ?_, (destroyWindow_frame s1).2.2.1, hn2,
    (hh rfl).1⟩
  · rw [openWindow_after_first env wndconfig fbconfig s s1 hstart hfirst,
      (negotiate_cases env wndconfig fbconfig s1).2.1 hok hneed, hsecond]
  · rw [hl2, k3, k1]
  · rw [hl2, k4, k2]

/-- Claim C7. For a request with version 1.0, no profile, no forward-compatible
flag and no debug flag, and a requested configuration with no samples, whenever
the first `createWindow` succeeds, whatever its probe finds,
`_glfwPlatformOpenWindow` returns success with the state that creation left:
`createWindow` has been called once and `destroyWindow` never. -/
theorem openWindow_default_single (env : Env) (wndconfig : WndConfig)
    (fbconfig : FBConfig) (s s1 : State)
    (hmajor : wndconfig.glMajor = 1) (hminor : wndconfig.glMinor = 0)
    (hprofile : wndconfig.glProfile = 0) (hforward : wndconfig.glForward = false)
    (hdebug : wndconfig.glDebug = false) (hsamples : fbconfig.samples = 0)
    (hstart : (openWindowPrologue env wndconfig fbconfig s).1 = true)
    (hfirst : createWindow env wndconfig fbconfig
      (openWindowPrologue env wndconfig fbconfig s).2 = some (true, s1)) :
    _glfwPlatformOpenWindow env wndconfig fbconfig s = some (true, s1) ∧
      createWindowCalls s1.log = createWindowCalls s.log + 1 ∧
      destroyWindowCalls s1.log = destroyWindowCalls s.log := by
  have hok : ¬ failsCapabilityCheck wndconfig s1.window.WGL := by
    unfold failsCapabilityCheck
    rw [hforward, hdebug, hprofile]
    simp
  have hneed : ¬ needsRecreation wndconfig fbconfig s1.window.WGL := by
    unfold needsRecreation
    rw [hforward, hdebug, hprofile, hmajor, hminor, hsamples]
    simp
  obtain ⟨-, l, hl, ha⟩ := openWindow_first_attempt env wndconfig fbconfig s true s1 hfirst
  obtain ⟨k1, k2⟩ := calls_append_attempt s.log l _ _ ha
  refine ⟨?_, by rw [hl]; exact k1, by rw [hl]; exact k2⟩
  rw [openWindow_after_first env wndconfig fbconfig s s1 hstart hfirst]
  exact (negotiate_cases env wndconfig fbconfig s1).2.2 hok hneed


/-- Within one run of `createWindow` for the native window `n`: every flag
read is for `n`; a probe is for `n` and comes with the reads of the
pixel-format and context-creation flags; and no flag is read for a window
after its probe. -/
theorem IsAttempt.events {n : Nat} {r : Bool} {l : List Event} (h : IsAttempt n r l) :
    (∀ ev ∈ l, ∀ flag m, ev = .readFlag flag m → m = n) ∧
    (∀ m, .initWGLExtensions m ∈ l →
      m = n ∧ .readFlag .has_WGL_ARB_pixel_format n ∈ l ∧
        .readFlag .has_WGL_ARB_create_context n ∈ l) ∧
    l.Pairwise (fun earlier later =>
      ∀ m flag, earlier = .initWGLExtensions m → later ≠ .readFlag flag m) := by
  obtain ⟨reads, hreads, hl⟩ := h
  have hkind := fun ev hev => Event.isNegotiationOf_kind n ev (hreads ev hev)
  have hpw : reads.Pairwise (fun earlier later =>
      ∀ m flag, earlier = .initWGLExtensions m → later ≠ .readFlag flag m) := by
    apply List.pairwise_of_forall_mem_list
    intro a ha b _ m flag hinit
    exact absurd hinit ((hkind a ha).2.2.1 m)
  rcases hl with ⟨-, hl⟩ | ⟨-, hl, hpf, hcc⟩
  · subst hl
    refine ⟨?_, ?_, ?_⟩
    · intro ev hev flag m he
      rw [List.mem_cons] at hev
      rcases hev with hev | hev
      · rw [hev] at he; exact absurd he (by simp)
      · exact (hkind ev hev).2.2.2 flag m he
    · intro m hm
      rw [List.mem_cons] at hm
      rcases hm with hm | hm
      · exact absurd hm (by simp)
      · exact absurd rfl ((hkind _ hm).2.2.1 m)
    · rw [List.pairwise_cons]
      exact ⟨fun _ _ m flag hinit => absurd hinit (by simp), hpw⟩
  · subst hl
    refine ⟨?_, ?_, ?_⟩
    · intro ev hev flag m he
      rw [List.mem_cons, List.mem_append, List.mem_singleton] at hev
      rcases hev with hev | hev | hev
      · rw [hev] at he; exact absurd he (by simp)
      · exact (hkind ev hev).2.2.2 flag m he
      · rw [hev] at he; exact absurd he (by simp)
    · intro m hm
      rw [List.mem_cons, List.mem_append, List.mem_singleton] at hm
      rcases hm with hm | hm | hm
      · exact absurd hm (by simp)
      · exact absurd rfl ((hkind _ hm).2.2.1 m)
      · simp only [Event.initWGLExtensions.injEq] at hm
        subst hm
        exact ⟨rfl, List.mem_cons_of_mem _ (List.mem_append_left _ hpf),
          List.mem_cons_of_mem _ (List.mem_append_left _ hcc)⟩
    · rw [List.pairwise_cons, List.pairwise_append]
      refine ⟨fun _ _ m flag hinit => absurd hinit (by simp), hpw, List.pairwise_singleton _ _,
        ?_⟩
      intro a ha b _ m flag hinit
      exact absurd hinit ((hkind a ha).2.2.1 m)

/-- One run of `createWindow` reads the flags of a window before it probes
them. -/
theorem IsAttempt.readBeforeProbed {n : Nat} {r : Bool} {l : List Event}
    (h : IsAttempt n r l) : ReadBeforeProbed l := by
  obtain ⟨-, h2, h3⟩ := h.events
  exact ⟨fun m hm => by obtain ⟨rfl, hpf, hcc⟩ := h2 m hm; exact ⟨hpf, hcc⟩, h3⟩

/-- Two runs of `createWindow` for different native windows, with the
destruction of the first window in between, read the flags of each window
before they probe them. -/
theorem readBeforeProbed_recreate {n1 n2 : Nat} {r1 r2 : Bool} {l1 l2 : List Event}
    (hne : n1 ≠ n2) (h1 : IsAttempt n1 r1 l1) (h2 : IsAttempt n2 r2 l2) :
    ReadBeforeProbed (l1 ++ [.destroyWindow n1] ++ l2) := by
  obtain ⟨a1, a2, a3⟩ := h1.events
  obtain ⟨b1, b2, b3⟩ := h2.events
  constructor
  · intro m hm
    rw [List.mem_append, List.mem_append, List.mem_singleton] at hm
    rcases hm with (hm | hm) | hm
    · obtain ⟨rfl, hpf, hcc⟩ := a2 m hm
      exact ⟨List.mem_append_left _ (List.mem_append_left _ hpf),
        List.mem_append_left _ (List.mem_append_left _ hcc)⟩
    · exact absurd hm (by simp)
    · obtain ⟨rfl, hpf, hcc⟩ := b2 m hm
      exact ⟨List.mem_append_right _ hpf, List.mem_append_right _ hcc⟩
  · rw [List.pairwise_append, List.pairwise_append]
    refine ⟨⟨a3, List.pairwise_singleton _ _, ?_⟩, b3, ?_⟩
    · intro a _ b hb m flag _
      rw [List.mem_singleton] at hb
      rw [hb]
      simp
    · intro a ha b hb m flag hinit hread
      rw [List.mem_append, List.mem_singleton] at ha
      rcases ha with ha | ha
      · rw [hinit] at ha
        have e1 := (a2 m ha).1
        have e2 := b1 b hb flag m hread
        exact hne (e1.symm.trans e2)
      · rw [ha] at hinit
        exact absurd hinit (by simp)


/-- The log of any execution of `_glfwPlatformOpenWindow` that returns: nothing
is added, or one run of `createWindow`, or a successful run, the destruction of
its window and a second run. -/
theorem openWindow_log (env : Env) (wndconfig : WndConfig) (fbconfig : FBConfig)
    (s : State) (r : Bool) (s' : State)
    (h : _glfwPlatformOpenWindow env wndconfig fbconfig s = some (r, s')) :
    ∃ added, s'.log = s.log ++ added ∧
      (added = [] ∨ (∃ r1, IsAttempt (s.native + 1) r1 added) ∨
        (∃ l1 l2 r2, IsAttempt (s.native + 1) true l1 ∧ IsAttempt (s.native + 2) r2 l2 ∧
          added = l1 ++ [.destroyWindow (s.native + 1)] ++ l2)) := by
  by_cases hstart : (openWindowPrologue env wndconfig fbconfig s).1 = true
  · cases hfirst : createWindow env wndconfig fbconfig
        (openWindowPrologue env wndconfig fbconfig s).2 with
    | none =>
      unfold _glfwPlatformOpenWindow at h
      simp [hstart, hfirst] at h
    | some first =>
      obtain ⟨r1, s1⟩ := first
      obtain ⟨hn1, l1, hl1, ha1⟩ :=
        openWindow_first_attempt env wndconfig fbconfig s r1 s1 hfirst
      cases r1 with
      | false =>
        unfold _glfwPlatformOpenWindow at h
        simp only [hstart, hfirst, Bool.not_true, Bool.false_eq_true, if_false,
          Option.some_bind, Bool.not_false, if_true, Option.some.injEq, Prod.mk.injEq] at h
        obtain ⟨-, hs'⟩ := h
        subst hs'
        exact ⟨l1, hl1, Or.inr (Or.inl ⟨false, ha1⟩)⟩
      | true =>
        rw [openWindow_after_first env wndconfig fbconfig s s1 hstart hfirst] at h
        obtain ⟨c1, c2, c3⟩ := negotiate_cases env wndconfig fbconfig s1
        by_cases hfail : failsCapabilityCheck wndconfig s1.window.WGL
        · rw [c1 hfail] at h
          simp only [Option.some.injEq, Prod.mk.injEq] at h
          obtain ⟨-, hs'⟩ := h
          subst hs'
          exact ⟨l1, hl1, Or.inr (Or.inl ⟨true, ha1⟩)⟩
        · by_cases hneed : needsRecreation wndconfig fbconfig s1.window.WGL
          · rw [c2 hfail hneed] at h
            obtain ⟨-, l2, hl2, ha2⟩ :=
              openWindow_second_attempt env wndconfig fbconfig s1 r s' h
            rw [hn1] at hl2 ha2
            rw [hl1] at hl2
            refine ⟨l1 ++ [.destroyWindow (s.native + 1)] ++ l2, ?_,
              Or.inr (Or.inr ⟨l1, l2, r, ha1, ha2, rfl⟩)⟩
            rw [hl2]; simp
          · rw [c3 hfail hneed] at h
            simp only [Option.some.injEq, Prod.mk.injEq] at h
            obtain ⟨-, hs'⟩ := h
            subst hs'
            exact ⟨l1, hl1, Or.inr (Or.inl ⟨true, ha1⟩)⟩
  · unfold _glfwPlatformOpenWindow at h
    have hfalse : (openWindowPrologue env wndconfig fbconfig s).1 = false := by
      simpa using hstart
    simp only [hfalse, Bool.not_false, if_true, Option.some.injEq, Prod.mk.injEq] at h
    obtain ⟨-, hs'⟩ := h
    subst hs'
    exact ⟨[], by rw [(openWindowPrologue_frame env wndconfig fbconfig s).2.1]; simp,
      Or.inl rfl⟩

/-- Whenever `_glfwPlatformOpenWindow` returns for a window that held no native
object on entry, the native objects allocated since and not released are
exactly those the fields of the window name. -/
theorem openWindow_recorded (env : Env) (wndconfig : WndConfig) (fbconfig : FBConfig)
    (s : State) (r : Bool) (s' : State)
    (hhandle : s.window.Win32.handle = 0) (hdc : s.window.WGL.DC = 0)
    (hctx : s.window.WGL.context = 0)
    (h : _glfwPlatformOpenWindow env wndconfig fbconfig s = some (r, s')) :
    Recorded (s.liveWindows, s.liveDCs, s.liveContexts) s' := by
  obtain ⟨-, -, p3, p4, p5, p6, p7⟩ := openWindowPrologue_frame env wndconfig fbconfig s
  by_cases hstart : (openWindowPrologue env wndconfig fbconfig s).1 = true
  · cases hfirst : createWindow env wndconfig fbconfig
        (openWindowPrologue env wndconfig fbconfig s).2 with
    | none =>
      unfold _glfwPlatformOpenWindow at h
      simp [hstart, hfirst] at h
    | some first =>
      obtain ⟨r1, s1⟩ := first
      obtain ⟨-, -, hrec, -⟩ := createWindow_frame env wndconfig fbconfig _ r1 s1 hfirst
      rw [p3, p5, p6, p7] at hrec
      have hrec1 := hrec hdc hctx
      cases r1 with
      | false =>
        unfold _glfwPlatformOpenWindow at h
        simp only [hstart, hfirst, Bool.not_true, Bool.false_eq_true, if_false,
          Option.some_bind, Bool.not_false, if_true, Option.some.injEq, Prod.mk.injEq] at h
        obtain ⟨-, hs'⟩ := h
        subst hs'
        exact hrec1
      | true =>
        rw [openWindow_after_first env wndconfig fbconfig s s1 hstart hfirst] at h
        obtain ⟨c1, c2, c3⟩ := negotiate_cases env wndconfig fbconfig s1
        by_cases hfail : failsCapabilityCheck wndconfig s1.window.WGL
        · rw [c1 hfail] at h
          simp only [Option.some.injEq, Prod.mk.injEq] at h
          obtain ⟨-, hs'⟩ := h
          subst hs'
          exact hrec1
        · by_cases hneed : needsRecreation wndconfig fbconfig s1.window.WGL
          · rw [c2 hfail hneed] at h
            obtain ⟨-, -, -, d4, d5⟩ := destroyWindow_frame s1
            obtain ⟨e1, e2, e3⟩ := d5 _ hrec1
            obtain ⟨-, -, hrec2, -⟩ := createWindow_frame env wndconfig fbconfig _ r s' h
            rw [d4, e1, e2, e3] at hrec2
            exact hrec2 rfl rfl
          · rw [c3 hfail hneed] at h
            simp only [Option.some.injEq, Prod.mk.injEq] at h
            obtain ⟨-, hs'⟩ := h
            subst hs'
            exact hrec1
  · unfold _glfwPlatformOpenWindow at h
    have hfalse : (openWindowPrologue env wndconfig fbconfig s).1 = false := by
      simpa using hstart
    simp only [hfalse, Bool.not_false, if_true, Option.some.injEq, Prod.mk.injEq] at h
    obtain ⟨-, hs'⟩ := h
    subst hs'
    simp [Recorded, p3, p4, p5, p6, p7, hhandle, hdc, hctx]


/-- Witness of C5: the 3.2 core request on the legacy sample device. -/
theorem openWindow_version_unavailable_witness :
    ∃ s', _glfwPlatformOpenWindow legacyDevice coreRequest {} {} = some (false, s') ∧
      s'.lib.error = .GLFW_VERSION_UNAVAILABLE ∧
      createWindowCalls s'.log = createWindowCalls ({} : State).log + 1 ∧
      destroyWindowCalls s'.log = destroyWindowCalls ({} : State).log :=
  openWindow_version_unavailable legacyDevice coreRequest {} {}
    (firstWindow legacyDevice coreRequest {} {}) (by decide) (by decide) (by decide)
    (by decide) (by decide) (by decide) (by decide) (by decide)

/-- Witness of C6: the 3.2 core request on the sample device with the
extensions. -/
theorem openWindow_recreates_once_witness :
    _glfwPlatformOpenWindow modernDevice coreRequest {} {} =
        some (true, secondWindow modernDevice coreRequest {} {}) ∧
      (∃ l1 l2, IsAttempt (({} : State).native + 1) true l1 ∧
        IsAttempt (({} : State).native + 2) true l2 ∧
        (firstWindow modernDevice coreRequest {} {}).log = ({} : State).log ++ l1 ∧
        (secondWindow modernDevice coreRequest {} {}).log =
          ({} : State).log ++ l1 ++ [.destroyWindow (({} : State).native + 1)] ++ l2) ∧
      createWindowCalls (secondWindow modernDevice coreRequest {} {}).log =
        createWindowCalls ({} : State).log + 2 ∧
      destroyWindowCalls (secondWindow modernDevice coreRequest {} {}).log =
        destroyWindowCalls ({} : State).log + 1 ∧
      (destroyWindow (firstWindow modernDevice coreRequest {} {})).window.Win32.handle = 0 ∧
      (secondWindow modernDevice coreRequest {} {}).native = ({} : State).native + 2 ∧
      (secondWindow modernDevice coreRequest {} {}).window.Win32.handle ≠ 0 :=
  openWindow_recreates_once modernDevice coreRequest {} {}
    (firstWindow modernDevice coreRequest {} {}) (secondWindow modernDevice coreRequest {} {})
    (by decide) (by decide) (by decide) (by decide) (by decide) (by decide) (by decide)
    (by decide)

/-- Witness of C7: the default request on the sample device with the
extensions. -/
theorem openWindow_default_single_witness :
    _glfwPlatformOpenWindow modernDevice {} {} {} =
        some (true, firstWindow modernDevice {} {} {}) ∧
      createWindowCalls (firstWindow modernDevice {} {} {}).log =
        createWindowCalls ({} : State).log + 1 ∧
      destroyWindowCalls (firstWindow modernDevice {} {} {}).log =
        destroyWindowCalls ({} : State).log :=
  openWindow_default_single modernDevice {} {} {} (firstWindow modernDevice {} {} {})
    (by decide) (by decide) (by decide) (by decide) (by decide) (by decide) (by decide)
    (by decide)

/-- Claim C8 fails as stated. On the legacy sample device the 2.1 request
carries an explicit version other than 1.0, the first `createWindow` succeeds
and no capability check fails, yet the window is not created a second time. -/
theorem openWindow_version_without_recreation :
    createWindow legacyDevice versionRequest {}
        (openWindowPrologue legacyDevice versionRequest {} {}).2 =
        some (true, firstWindow legacyDevice versionRequest {} {}) ∧
      ¬ failsCapabilityCheck versionRequest
        (firstWindow legacyDevice versionRequest {} {}).window.WGL ∧
      carriesRecreationRequest versionRequest {}
        (firstWindow legacyDevice versionRequest {} {}).window.WGL ∧
      ∃ s', _glfwPlatformOpenWindow legacyDevice versionRequest {} {} = some (true, s') ∧
        createWindowCalls s'.log = 1 ∧ destroyWindowCalls s'.log = 0 := by
  refine ⟨by decide, ?_, Or.inl (by decide), _, rfl, by decide, by decide⟩
  unfold failsCapabilityCheck
  decide

/-- Claim C8 as amended. In every execution of `_glfwPlatformOpenWindow` that
returns, `createWindow` is called at most twice. Whenever the first
`createWindow` succeeds and no capability check fails: if the request carries
the forward-compatible flag, the debug flag, a profile, an explicit version
other than 1.0 while context creation with attributes is present, or samples
while the multisample and pixel-format extensions are present, the window is
destroyed and `createWindow` is run a second time, its result being the result
of the function, so that a returning execution has called `createWindow` twice
and `destroyWindow` once; in every other case the function succeeds with the
first window, having called `createWindow` once and `destroyWindow` never. -/
theorem openWindow_recreation (env : Env) (wndconfig : WndConfig) (fbconfig : FBConfig)
    (s : State) :
    (∀ r s', _glfwPlatformOpenWindow env wndconfig fbconfig s = some (r, s') →
      createWindowCalls s'.log ≤ createWindowCalls s.log + 2) ∧
    (∀ s1, (openWindowPrologue env wndconfig fbconfig s).1 = true →
      createWindow env wndconfig fbconfig
        (openWindowPrologue env wndconfig fbconfig s).2 = some (true, s1) →
      ¬ failsCapabilityCheck wndconfig s1.window.WGL →
      (needsRecreation wndconfig fbconfig s1.window.WGL →
        _glfwPlatformOpenWindow env wndconfig fbconfig s =
          createWindow env wndconfig fbconfig (destroyWindow s1) ∧
        ∀ r s', _glfwPlatformOpenWindow env wndconfig fbconfig s = some (r, s') →
          createWindowCalls s'.log = createWindowCalls s.log + 2 ∧
          destroyWindowCalls s'.log = destroyWindowCalls s.log + 1) ∧
      (¬ needsRecreation wndconfig fbconfig s1.window.WGL →
        _glfwPlatformOpenWindow env wndconfig fbconfig s = some (true, s1) ∧
        createWindowCalls s1.log = createWindowCalls s.log + 1 ∧
        destroyWindowCalls s1.log = destroyWindowCalls s.log)) := by
  constructor
  · intro r s' h
    obtain ⟨added, hlog, hshape⟩ := openWindow_log env wndconfig fbconfig s r s' h
    rw [hlog]
    rcases hshape with rfl | ⟨r1, ha⟩ | ⟨l1, l2, r2, ha1, ha2, rfl⟩
    · simp
    · rw [(calls_append_attempt s.log added _ _ ha).1]; omega
    · rw [← List.append_assoc, ← List.append_assoc,
        (calls_append_destroy_attempt (s.log ++ l1) l2 _ _ _ ha2).1,
        (calls_append_attempt s.log l1 _ _ ha1).1]
  · intro s1 hstart hfirst hok
    obtain ⟨hn1, l1, hl1, ha1⟩ :=
      openWindow_first_attempt env wndconfig fbconfig s true s1 hfirst
    obtain ⟨k1, k2⟩ := calls_append_attempt s.log l1 _ _ ha1
    obtain ⟨-, c2, c3⟩ := negotiate_cases env wndconfig fbconfig s1
    have hopen := openWindow_after_first env wndconfig fbconfig s s1 hstart hfirst
    constructor
    · intro hneed
      have heq := hopen.trans (c2 hok hneed)
      refine ⟨heq, fun r s' h => ?_⟩
      rw [heq] at h
      obtain ⟨-, l2, hl2, ha2⟩ := openWindow_second_attempt env wndconfig fbconfig s1 r s' h
      obtain ⟨k3, k4⟩ := calls_append_destroy_attempt s1.log l2 s1.native _ _ ha2
      rw [hl2, k3, k4, hl1, k1, k2]
      exact ⟨rfl, rfl⟩
    · intro hneed
      exact ⟨hopen.trans (c3 hok hneed), by rw [hl1]; exact k1, by rw [hl1]; exact k2⟩

/-- Witness of C8 as amended: on the legacy sample device the 2.1 request needs
no recreation and succeeds with the first window. -/
theorem openWindow_recreation_witness :
    _glfwPlatformOpenWindow legacyDevice versionRequest {} {} =
        some (true, firstWindow legacyDevice versionRequest {} {}) ∧
      createWindowCalls (firstWindow legacyDevice versionRequest {} {}).log =
        createWindowCalls ({} : State).log + 1 ∧
      destroyWindowCalls (firstWindow legacyDevice versionRequest {} {}).log =
        destroyWindowCalls ({} : State).log :=
  ((openWindow_recreation legacyDevice versionRequest {} {}).2
    (firstWindow legacyDevice versionRequest {} {}) (by decide) (by decide)
    (by unfold failsCapabilityCheck; decide)).2 (by unfold needsRecreation; decide)

/-- Claim C9 fails as stated. On a device where `GetDC` fails,
`_glfwPlatformOpenWindow` returns failure while the window still holds the
handle of the native window it created. -/
theorem openWindow_failure_keeps_handle :
    ¬ ∀ s', _glfwPlatformOpenWindow deviceWithoutDC {} {} {} = some (false, s') →
      s'.window.Win32.handle = 0 ∧ s'.window.WGL.DC = 0 ∧ s'.window.WGL.context = 0 := by
  intro h
  have := (h _ rfl).1
  revert this
  decide

/-- Claim C9 as amended. Whenever `_glfwPlatformOpenWindow` returns failure for
a window that held no native object on entry, it has not released the objects
of the failing creation: the native window, device context and rendering
context allocated during the call and still allocated are exactly those the
fields `handle`, `DC` and `context` name (a field is null exactly when there is
no such object), and the call of `destroyWindow` that follows releases them
all and leaves the three fields null. -/
theorem openWindow_failure_recorded (env : Env) (wndconfig : WndConfig)
    (fbconfig : FBConfig) (s s' : State)
    (hhandle : s.window.Win32.handle = 0) (hdc : s.window.WGL.DC = 0)
    (hctx : s.window.WGL.context = 0)
    (h : _glfwPlatformOpenWindow env wndconfig fbconfig s = some (false, s')) :
    s'.liveWindows = s.liveWindows + (if s'.window.Win32.handle = 0 then 0 else 1) ∧
    s'.liveDCs = s.liveDCs + (if s'.window.WGL.DC = 0 then 0 else 1) ∧
    s'.liveContexts = s.liveContexts + (if s'.window.WGL.context = 0 then 0 else 1) ∧
    (destroyWindow s').window.Win32.handle = 0 ∧ (destroyWindow s').window.WGL.DC = 0 ∧
    (destroyWindow s').window.WGL.context = 0 ∧
    (destroyWindow s').liveWindows = s.liveWindows ∧
    (destroyWindow s').liveDCs = s.liveDCs ∧
    (destroyWindow s').liveContexts = s.liveContexts := by
  have hrec := openWindow_recorded env wndconfig fbconfig s false s' hhandle hdc hctx h
  obtain ⟨-, -, d3, d4, d5⟩ := destroyWindow_frame s'
  obtain ⟨e1, e2, e3⟩ := d5 _ hrec
  exact ⟨hrec.1, hrec.2.1, hrec.2.2, d3, by rw [d4], by rw [d4], e1, e2, e3⟩

/-- The state in which `_glfwPlatformOpenWindow` fails on the device where
`GetDC` fails. -/
theorem openWindow_deviceWithoutDC :
    _glfwPlatformOpenWindow deviceWithoutDC {} {} {} =
      some (false, firstWindow deviceWithoutDC {} {} {}) := by
  decide

/-- Witness of C9 as amended: the failure on the device where `GetDC` fails. -/
theorem openWindow_failure_recorded_witness :
    (firstWindow deviceWithoutDC {} {} {}).liveWindows = ({} : State).liveWindows +
        (if (firstWindow deviceWithoutDC {} {} {}).window.Win32.handle = 0 then 0 else 1) ∧
    (firstWindow deviceWithoutDC {} {} {}).liveDCs = ({} : State).liveDCs +
        (if (firstWindow deviceWithoutDC {} {} {}).window.WGL.DC = 0 then 0 else 1) ∧
    (firstWindow deviceWithoutDC {} {} {}).liveContexts = ({} : State).liveContexts +
        (if (firstWindow deviceWithoutDC {} {} {}).window.WGL.context = 0 then 0 else 1) ∧
    (destroyWindow (firstWindow deviceWithoutDC {} {} {})).window.Win32.handle = 0 ∧
    (destroyWindow (firstWindow deviceWithoutDC {} {} {})).window.WGL.DC = 0 ∧
    (destroyWindow (firstWindow deviceWithoutDC {} {} {})).window.WGL.context = 0 ∧
    (destroyWindow (firstWindow deviceWithoutDC {} {} {})).liveWindows =
      ({} : State).liveWindows ∧
    (destroyWindow (firstWindow deviceWithoutDC {} {} {})).liveDCs = ({} : State).liveDCs ∧
    (destroyWindow (firstWindow deviceWithoutDC {} {} {})).liveContexts =
      ({} : State).liveContexts :=
  openWindow_failure_recorded deviceWithoutDC {} {} {} (firstWindow deviceWithoutDC {} {} {})
    rfl rfl rfl openWindow_deviceWithoutDC

/-- Claim C10 fails as stated. On the legacy sample device the default request
succeeds, and in its log the flag `has_WGL_ARB_pixel_format` is read for the
first native window before any run of `initWGLExtensions`. -/
theorem openWindow_reads_unprobed_flags :
    ∃ s', _glfwPlatformOpenWindow legacyDevice {} {} {} = some (true, s') ∧
      ¬ ProbedBeforeRead s'.log := by
  refine ⟨_, rfl, fun h => ?_⟩
  have := h [.createWindow] .has_WGL_ARB_pixel_format 1
    [.readFlag .has_WGL_ARB_create_context 1, .wglCreateContext 11, .initWGLExtensions 1]
    (by decide)
  revert this
  decide

/-- Claim C10 as amended. In every execution of `_glfwPlatformOpenWindow` that
returns, `initWGLExtensions` runs for a native window only after format
enumeration and context creation for that window: whenever the log gains a run
of `initWGLExtensions` for a native window, it has gained the reads of
`has_WGL_ARB_pixel_format` and `has_WGL_ARB_create_context` for that window, and
no capability flag is read for that window after the run. -/
theorem openWindow_reads_before_probe (env : Env) (wndconfig : WndConfig)
    (fbconfig : FBConfig) (s : State) (r : Bool) (s' : State)
    (h : _glfwPlatformOpenWindow env wndconfig fbconfig s = some (r, s')) :
    ∃ added, s'.log = s.log ++ added ∧ ReadBeforeProbed added := by
  obtain ⟨added, hlog, hshape⟩ := openWindow_log env wndconfig fbconfig s r s' h
  refine ⟨added, hlog, ?_⟩
  rcases hshape with rfl | ⟨r1, ha⟩ | ⟨l1, l2, r2, ha1, ha2, rfl⟩
  · exact ⟨fun n hn => absurd hn (by simp), List.Pairwise.nil⟩
  · exact ha.readBeforeProbed
  · exact readBeforeProbed_recreate (by omega) ha1 ha2

/-- The state in which `_glfwPlatformOpenWindow` succeeds for the 3.2 core
request on the sample device with the extensions. -/
theorem openWindow_modernDevice :
    _glfwPlatformOpenWindow modernDevice coreRequest {} {} =
      some (true, secondWindow modernDevice coreRequest {} {}) := by
  decide

/-- Witness of C10 as amended: the 3.2 core request on the sample device with
the extensions, where the window is created twice. -/
theorem openWindow_reads_before_probe_witness :
    ∃ added, (secondWindow modernDevice coreRequest {} {}).log = ({} : State).log ++ added ∧
      ReadBeforeProbed added :=
  openWindow_reads_before_probe modernDevice coreRequest {} {} true
    (secondWindow modernDevice coreRequest {} {}) openWindow_modernDevice


/-! ## The extension capability cache -/

/-- The lookup of the extension-string entry points leaves the context-creation
flags and the context as they are. -/
theorem resolveExtensionsString_es2 (env : Env) (w : WGL) :
    (resolveExtensionsString env w).has_WGL_EXT_create_context_es2_profile =
      w.has_WGL_EXT_create_context_es2_profile ∧
    (resolveExtensionsString env w).has_WGL_ARB_create_context_profile =
      w.has_WGL_ARB_create_context_profile ∧
    (resolveExtensionsString env w).has_WGL_ARB_create_context =
      w.has_WGL_ARB_create_context ∧
    (resolveExtensionsString env w).context = w.context := by
  unfold resolveExtensionsString; simp only; split_ifs <;> exact ⟨rfl, rfl, rfl, rfl⟩

/-- What the multisample probe leaves as it is. -/
theorem probeMultisample_profile (env : Env) (w : WGL) :
    (probeMultisample env w).has_WGL_EXT_create_context_es2_profile =
      w.has_WGL_EXT_create_context_es2_profile ∧
    (probeMultisample env w).has_WGL_ARB_create_context_profile =
      w.has_WGL_ARB_create_context_profile ∧
    (probeMultisample env w).has_WGL_ARB_create_context =
      w.has_WGL_ARB_create_context ∧
    (probeMultisample env w).context = w.context := by
  unfold probeMultisample; split_ifs <;> exact ⟨rfl, rfl, rfl, rfl⟩

/-- What the create-context probe leaves as it is. -/
theorem probeCreateContext_profile (env : Env) (w : WGL) :
    (probeCreateContext env w).has_WGL_EXT_create_context_es2_profile =
      w.has_WGL_EXT_create_context_es2_profile ∧
    (probeCreateContext env w).has_WGL_ARB_create_context_profile =
      w.has_WGL_ARB_create_context_profile ∧
    (probeCreateContext env w).context = w.context := by
  unfold probeCreateContext; simp only; split_ifs <;> exact ⟨rfl, rfl, rfl⟩

/-- What the profile probe leaves as it is. -/
theorem probeCreateContextProfile_profile (env : Env) (w : WGL) :
    (probeCreateContextProfile env w).has_WGL_EXT_create_context_es2_profile =
      w.has_WGL_EXT_create_context_es2_profile ∧
    (probeCreateContextProfile env w).has_WGL_ARB_create_context =
      w.has_WGL_ARB_create_context ∧
    (probeCreateContextProfile env w).context = w.context := by
  unfold probeCreateContextProfile; split_ifs <;> exact ⟨rfl, rfl, rfl⟩

/-- What the ES2 profile probe leaves as it is. -/
theorem probeES2Profile_profile (env : Env) (w : WGL) :
    (probeES2Profile env w).has_WGL_ARB_create_context_profile =
      w.has_WGL_ARB_create_context_profile ∧
    (probeES2Profile env w).has_WGL_ARB_create_context =
      w.has_WGL_ARB_create_context ∧
    (probeES2Profile env w).context = w.context := by
  unfold probeES2Profile; split_ifs <;> exact ⟨rfl, rfl, rfl⟩

/-- What the swap-control probe leaves as it is. -/
theorem probeSwapControl_profile (env : Env) (w : WGL) :
    (probeSwapControl env w).has_WGL_EXT_create_context_es2_profile =
      w.has_WGL_EXT_create_context_es2_profile ∧
    (probeSwapControl env w).has_WGL_ARB_create_context_profile =
      w.has_WGL_ARB_create_context_profile ∧
    (probeSwapControl env w).has_WGL_ARB_create_context =
      w.has_WGL_ARB_create_context ∧
    (probeSwapControl env w).context = w.context := by
  unfold probeSwapControl; simp only; split_ifs <;> exact ⟨rfl, rfl, rfl, rfl⟩

/-- What the pixel-format probe leaves as it is. -/
theorem probePixelFormat_profile (env : Env) (w : WGL) :
    (probePixelFormat env w).has_WGL_EXT_create_context_es2_profile =
      w.has_WGL_EXT_create_context_es2_profile ∧
    (probePixelFormat env w).has_WGL_ARB_create_context_profile =
      w.has_WGL_ARB_create_context_profile ∧
    (probePixelFormat env w).has_WGL_ARB_create_context =
      w.has_WGL_ARB_create_context ∧
    (probePixelFormat env w).context = w.context := by
  unfold probePixelFormat; simp only; split_ifs <;> exact ⟨rfl, rfl, rfl, rfl⟩

/-- The probe of the ES2 profile extension never clears the flag. -/
theorem probeES2Profile_keeps (env : Env) (w : WGL)
    (h : w.has_WGL_EXT_create_context_es2_profile = true) :
    (probeES2Profile env w).has_WGL_EXT_create_context_es2_profile = true := by
  unfold probeES2Profile; split_ifs <;> first | rfl | exact h

/-- The probe of the ES2 profile extension sets the flag only when the
profile flag is set. -/
theorem probeES2Profile_sets (env : Env) (w : WGL)
    (h : w.has_WGL_EXT_create_context_es2_profile = false)
    (h2 : (probeES2Profile env w).has_WGL_EXT_create_context_es2_profile = true) :
    w.has_WGL_ARB_create_context_profile = true := by
  unfold probeES2Profile at h2; split_ifs at h2 with a b
  · exact a.2
  · simp_all
  · simp_all

/-- The probe of the profile extension sets the profile flag only when the
create-context flag is set and the extension is reported. -/
theorem probeCreateContextProfile_sets (env : Env) (w : WGL)
    (h : w.has_WGL_ARB_create_context_profile = false)
    (h2 : (probeCreateContextProfile env w).has_WGL_ARB_create_context_profile = true) :
    w.has_WGL_ARB_create_context = true ∧
      env.extensionSupported w.context "WGL_ARB_create_context_profile" = true := by
  unfold probeCreateContextProfile at h2; split_ifs at h2 with a b
  · exact ⟨a, b⟩
  · simp_all
  · simp_all

/-- When neither extension-string entry point resolves, `initWGLExtensions`
stops after the reset. -/
theorem initWGLExtensions_early (env : Env) (wgl : WGL)
    (hEXT : env.wglGetProcAddress wgl.context "wglGetExtensionsStringEXT" = 0)
    (hARB : env.wglGetProcAddress wgl.context "wglGetExtensionsStringARB" = 0) :
    initWGLExtensions env wgl = resetWGLExtensions wgl := by
  have hc : (resetWGLExtensions wgl).context = wgl.context := rfl
  have h : resolveExtensionsString env (resetWGLExtensions wgl) = resetWGLExtensions wgl := by
    unfold resolveExtensionsString
    simp only [hc, hEXT, hARB, if_true]
    rfl
  unfold initWGLExtensions
  simp only [h]
  rw [if_pos ⟨rfl, rfl⟩]

/-- Claim C11, where the code departs from it. When neither extension-string entry point
resolves, `initWGLExtensions` leaves the five flags of its reset block false
and the five function pointers null, but the ES2 profile flag keeps the value
it had before the call. -/
theorem initWGLExtensions_unresolved_keeps_es2 (env : Env) (wgl : WGL)
    (hEXT : env.wglGetProcAddress wgl.context "wglGetExtensionsStringEXT" = 0)
    (hARB : env.wglGetProcAddress wgl.context "wglGetExtensionsStringARB" = 0) :
    (initWGLExtensions env wgl).has_WGL_EXT_swap_control = false ∧
    (initWGLExtensions env wgl).has_WGL_ARB_pixel_format = false ∧
    (initWGLExtensions env wgl).has_WGL_ARB_multisample = false ∧
    (initWGLExtensions env wgl).has_WGL_ARB_create_context = false ∧
    (initWGLExtensions env wgl).has_WGL_ARB_create_context_profile = false ∧
    (initWGLExtensions env wgl).SwapIntervalEXT = 0 ∧
    (initWGLExtensions env wgl).GetPixelFormatAttribivARB = 0 ∧
    (initWGLExtensions env wgl).GetExtensionsStringARB = 0 ∧
    (initWGLExtensions env wgl).GetExtensionsStringEXT = 0 ∧
    (initWGLExtensions env wgl).CreateContextAttribsARB = 0 ∧
    (initWGLExtensions env wgl).has_WGL_EXT_create_context_es2_profile =
      wgl.has_WGL_EXT_create_context_es2_profile := by
  rw [initWGLExtensions_early env wgl hEXT hARB]
  exact ⟨rfl, rfl, rfl, rfl, rfl, rfl, rfl, rfl, rfl, rfl, rfl⟩

/-- On a device without extension-string entry points a cache that held the
ES2 profile flag still holds it after `initWGLExtensions`, with the profile
flag cleared. -/
theorem initWGLExtensions_unresolved_keeps_es2_witness :
    (initWGLExtensions legacyDevice probedState.window.WGL).has_WGL_ARB_create_context_profile
        = false ∧
    (initWGLExtensions legacyDevice probedState.window.WGL).has_WGL_EXT_create_context_es2_profile
        = true :=
  ⟨(initWGLExtensions_unresolved_keeps_es2 legacyDevice probedState.window.WGL rfl rfl).2.2.2.2.1,
   (initWGLExtensions_unresolved_keeps_es2 legacyDevice probedState.window.WGL rfl rfl).2.2.2.2.2.2.2.2.2.2⟩

/-- After `initWGLExtensions` the profile flag is set only together with the
create-context flag, and only when the profile extension is reported. -/
theorem initWGLExtensions_profile_flags (env : Env) (wgl : WGL) :
    (initWGLExtensions env wgl).has_WGL_ARB_create_context_profile = true →
      (initWGLExtensions env wgl).has_WGL_ARB_create_context = true ∧
      env.extensionSupported wgl.context "WGL_ARB_create_context_profile" = true := by
  intro h
  unfold initWGLExtensions at h ⊢
  simp only at h ⊢
  have r := resolveExtensionsString_es2 env (resetWGLExtensions wgl)
  by_cases he : (resolveExtensionsString env (resetWGLExtensions wgl)).GetExtensionsStringEXT = 0 ∧
      (resolveExtensionsString env (resetWGLExtensions wgl)).GetExtensionsStringARB = 0
  · rw [if_pos he] at h
    rw [r.2.1] at h
    exact absurd h (by simp [resetWGLExtensions])
  · rw [if_neg he] at h ⊢
    generalize resolveExtensionsString env (resetWGLExtensions wgl) = w0 at h r ⊢
    have m := probeMultisample_profile env w0
    generalize probeMultisample env w0 = w1 at h m ⊢
    have c := probeCreateContext_profile env w1
    generalize probeCreateContext env w1 = w2 at h c ⊢
    have p := probeCreateContextProfile_sets env w2
    have p2 := probeCreateContextProfile_profile env w2
    generalize probeCreateContextProfile env w2 = w3 at h p p2 ⊢
    have e := probeES2Profile_profile env w3
    generalize probeES2Profile env w3 = w4 at h e ⊢
    have s := probeSwapControl_profile env w4
    generalize probeSwapControl env w4 = w5 at h s ⊢
    have f := probePixelFormat_profile env w5
    generalize probePixelFormat env w5 = w6 at h f ⊢
    have hw2 : w2.has_WGL_ARB_create_context_profile = false := by
      rw [c.2.1, m.2.1, r.2.1]; rfl
    have hw3 : w3.has_WGL_ARB_create_context_profile = true := by
      rw [← e.1, ← s.2.1, ← f.2.1]; exact h
    have := p hw2 hw3
    refine ⟨?_, ?_⟩
    · rw [f.2.2.1, s.2.2.1, e.2.1, p2.2.1]; exact this.1
    · rw [c.2.2, m.2.2.2, r.2.2.2] at this; exact this.2

/-- Claim C12, where the code departs from it. A cache that held the ES2 profile flag
before `initWGLExtensions` holds it afterwards although the profile flag is
false, whenever the profile extension is not reported. -/
theorem initWGLExtensions_stale_es2 (env : Env) (wgl : WGL)
    (hes2 : wgl.has_WGL_EXT_create_context_es2_profile = true)
    (hprofile : env.extensionSupported wgl.context "WGL_ARB_create_context_profile" = false) :
    (initWGLExtensions env wgl).has_WGL_EXT_create_context_es2_profile = true ∧
    (initWGLExtensions env wgl).has_WGL_ARB_create_context_profile = false := by
  refine ⟨?_, ?_⟩
  · unfold initWGLExtensions
    simp only
    have r := resolveExtensionsString_es2 env (resetWGLExtensions wgl)
    have hr : (resolveExtensionsString env (resetWGLExtensions wgl)).has_WGL_EXT_create_context_es2_profile = true := by
      rw [r.1]; exact hes2
    split_ifs
    · exact hr
    · rw [(probePixelFormat_profile env _).1, (probeSwapControl_profile env _).1]
      apply probeES2Profile_keeps
      rw [(probeCreateContextProfile_profile env _).1, (probeCreateContext_profile env _).1,
        (probeMultisample_profile env _).1]
      exact hr
  · by_contra h
    have h2 := (initWGLExtensions_profile_flags env wgl (by simpa using h)).2
    rw [hprofile] at h2
    exact absurd h2 (by simp)


/-- On a device that reports every extension but the profile one, a cache that
held the ES2 profile flag ends with that flag set and the profile flag clear. -/
theorem initWGLExtensions_stale_es2_witness :
    (initWGLExtensions deviceWithoutProfileExtension
        probedState.window.WGL).has_WGL_EXT_create_context_es2_profile = true ∧
    (initWGLExtensions deviceWithoutProfileExtension
        probedState.window.WGL).has_WGL_ARB_create_context_profile = false :=
  initWGLExtensions_stale_es2 deviceWithoutProfileExtension probedState.window.WGL rfl
    (by decide)

/-- Starting from a cleared ES2 flag, `initWGLExtensions` sets it only together
with the profile flag. -/
theorem initWGLExtensions_es2_of_clear (env : Env) (wgl : WGL)
    (hes2 : wgl.has_WGL_EXT_create_context_es2_profile = false)
    (h : (initWGLExtensions env wgl).has_WGL_EXT_create_context_es2_profile = true) :
    (initWGLExtensions env wgl).has_WGL_ARB_create_context_profile = true := by
  unfold initWGLExtensions at h ⊢
  simp only at h ⊢
  have r := resolveExtensionsString_es2 env (resetWGLExtensions wgl)
  have hr : (resolveExtensionsString env
      (resetWGLExtensions wgl)).has_WGL_EXT_create_context_es2_profile = false := by
    rw [r.1]; exact hes2
  split_ifs at h ⊢ with he
  · rw [hr] at h; exact absurd h (by simp)
  · rw [(probePixelFormat_profile env _).1, (probeSwapControl_profile env _).1] at h
    rw [(probePixelFormat_profile env _).2.1, (probeSwapControl_profile env _).2.1,
      (probeES2Profile_profile env _).1]
    apply probeES2Profile_sets env _ _ h
    rw [(probeCreateContextProfile_profile env _).1, (probeCreateContext_profile env _).1,
      (probeMultisample_profile env _).1]
    exact hr

/-! ## Key translation -/

/-- The mask `0x01000000` of the source selects the extended-key bit. -/
theorem and_extendedKey (l : Nat) : l &&& 0x01000000 ≠ 0 ↔ extendedKey l = true := by
  have h : (0x01000000 : Nat) = 2 ^ 24 := by norm_num
  rw [h, Nat.and_two_pow]
  unfold extendedKey
  cases l.testBit 24 <;> simp

/-- The mask `0x100` on the high word selects the extended-key bit. -/
theorem HIWORD_extendedKey (l : Nat) : HIWORD l &&& 0x100 = 0 ↔ extendedKey l = false := by
  have h : (0x100 : Nat) = 2 ^ 8 := by norm_num
  rw [h, Nat.and_two_pow]
  unfold extendedKey HIWORD
  have h2 : (0xFFFF : Nat) = 2 ^ 16 - 1 := by norm_num
  rw [Nat.testBit_and, Nat.testBit_shiftRight, h2, Nat.testBit_two_pow_sub_one]
  cases l.testBit (16 + 8) <;> simp

/-- The low byte of the high word is the scan code. -/
theorem HIWORD_scanCode (l : Nat) : HIWORD l &&& 0xFF = scanCode l := by
  unfold HIWORD scanCode
  have h2 : (0xFFFF : Nat) = 2 ^ 16 - 1 := by norm_num
  have h3 : (0xFF : Nat) = 2 ^ 8 - 1 := by norm_num
  rw [h2, h3, Nat.and_pow_two_sub_one_eq_mod, Nat.and_pow_two_sub_one_eq_mod,
    Nat.shiftRight_eq_div_pow]
  omega

/-- A key that is not among the keys of a table is not found in it. -/
theorem lookup_eq_none_of_not_mem (table : List (Nat × Int)) (k : Nat)
    (h : k ∉ table.map Prod.fst) : table.lookup k = none := by
  induction table with
  | nil => rfl
  | cons p rest ih =>
    obtain ⟨a, b⟩ := p
    simp only [List.map_cons, List.mem_cons, not_or] at h
    rw [List.lookup_cons]
    have : (k == a) = false := by simpa using h.1
    rw [this]
    exact ih h.2

/-- With the extended-key bit set the keypad overlap table is not consulted. -/
theorem keypadKey_extended (env : Env) (l : Nat) (h : extendedKey l = true) :
    keypadKey env l = none := by
  unfold keypadKey
  have : ¬ HIWORD l &&& 0x100 = 0 := by
    rw [HIWORD_extendedKey, h]; simp
  simp only [this, if_false]

/-- With the extended-key bit clear the keypad check looks up the virtual key
code of the scan code. -/
theorem keypadKey_not_extended (env : Env) (l : Nat) (h : extendedKey l = false) :
    keypadKey env l = keypadOverlap.lookup (env.MapVirtualKey (scanCode l) 1) := by
  unfold keypadKey
  have : HIWORD l &&& 0x100 = 0 := (HIWORD_extendedKey l).2 h
  simp only [this, if_true, HIWORD_scanCode]

/-- The keypad check finds nothing when the extended-key bit is set or the scan
code does not hit the table. -/
theorem keypadKey_none (env : Env) (l : Nat)
    (h : ¬ (extendedKey l = false ∧ hitsKeypad env l)) : keypadKey env l = none := by
  cases he : extendedKey l with
  | true => exact keypadKey_extended env l he
  | false =>
    rw [keypadKey_not_extended env l he]
    apply lookup_eq_none_of_not_mem
    intro hm
    exact h ⟨he, hm⟩

/-- The case `VK_CONTROL` with the extended-key bit clear. -/
theorem translateControl_eq (queue : MessageContext) (l : Nat) (h : extendedKey l = false) :
    (RightAltDownFollows queue → translateControl queue l = GLFW_KEY_UNKNOWN) ∧
    (¬ RightAltDownFollows queue → translateControl queue l = GLFW_KEY_LCTRL) := by
  have hl : ¬ l &&& 0x01000000 ≠ 0 := by rw [and_extendedKey, h]; simp
  unfold translateControl RightAltDownFollows
  rw [if_neg hl]
  cases hn : queue.next with
  | none => simp
  | some next =>
    simp only [Option.some.injEq, exists_eq_left']
    constructor
    · rintro ⟨a, b, c, d⟩
      rw [if_pos a, if_pos ⟨b, (and_extendedKey _).2 c, d⟩]
    · intro hno
      by_cases a : next.message = WM_KEYDOWN ∨ next.message = WM_SYSKEYDOWN
      · rw [if_pos a, if_neg]
        rintro ⟨b, c, d⟩
        exact hno ⟨a, b, (and_extendedKey _).1 c, d⟩
      · rw [if_neg a]

/-- Claim C13. For a `VK_CONTROL` event with the extended-key bit clear whose
scan code does not hit the keypad overlap table, `translateKey` returns
`GLFW_KEY_UNKNOWN` when the next queued message is a key-down or
system-key-down for `VK_MENU` with the extended-key bit set and the time of
the current message, and `GLFW_KEY_LCTRL` in every other case. -/
theorem translateKey_left_control (env : Env) (queue : MessageContext) (lParam : Nat)
    (hext : extendedKey lParam = false) (hpad : ¬ hitsKeypad env lParam) :
    (RightAltDownFollows queue →
      translateKey env queue VK_CONTROL lParam = GLFW_KEY_UNKNOWN) ∧
    (¬ RightAltDownFollows queue →
      translateKey env queue VK_CONTROL lParam = GLFW_KEY_LCTRL) := by
  have hk : keypadKey env lParam = none := keypadKey_none env lParam (fun h => hpad h.2)
  have ht : translateKey env queue VK_CONTROL lParam = translateControl queue lParam := by
    unfold translateKey; rw [hk]; simp [VK_CONTROL, VK_SHIFT]
  rw [ht]
  exact translateControl_eq queue lParam hext

/-- The left-control event of Alt-Gr is unknown when the right-alt key-down
follows with the same time, and left control when a key-up follows instead. -/
theorem translateKey_left_control_witness :
    translateKey sampleKeyboard
        { time := 100
          next := some { message := WM_KEYDOWN, wParam := VK_MENU, lParam := 0x01380000,
                         time := 100 } }
        VK_CONTROL 0x001D0000 = GLFW_KEY_UNKNOWN ∧
    translateKey sampleKeyboard
        { time := 100
          next := some { message := WM_KEYUP, wParam := VK_MENU, lParam := 0x01380000,
                         time := 100 } }
        VK_CONTROL 0x001D0000 = GLFW_KEY_LCTRL :=
  ⟨(translateKey_left_control sampleKeyboard _ 0x001D0000 (by decide) (by decide)).1
      ⟨_, rfl, by decide, by decide, by decide, by decide⟩,
   (translateKey_left_control sampleKeyboard _ 0x001D0000 (by decide) (by decide)).2
      (by rintro ⟨next, h, a, _⟩; cases h; revert a; decide)⟩

/-- Claim C16. With the extended-key bit set `translateKey` returns
`GLFW_KEY_RCTRL`, `GLFW_KEY_RALT` and `GLFW_KEY_KP_ENTER` for `VK_CONTROL`,
`VK_MENU` and `VK_RETURN`, whatever the scan code and the queue; with the bit
clear and no hit in the keypad overlap table it returns `GLFW_KEY_LALT` and
`GLFW_KEY_ENTER` for `VK_MENU` and `VK_RETURN`. -/
theorem translateKey_extended (env : Env) (queue : MessageContext) (lParam : Nat) :
    (extendedKey lParam = true →
      translateKey env queue VK_CONTROL lParam = GLFW_KEY_RCTRL ∧
      translateKey env queue VK_MENU lParam = GLFW_KEY_RALT ∧
      translateKey env queue VK_RETURN lParam = GLFW_KEY_KP_ENTER) ∧
    (extendedKey lParam = false → ¬ hitsKeypad env lParam →
      translateKey env queue VK_MENU lParam = GLFW_KEY_LALT ∧
      translateKey env queue VK_RETURN lParam = GLFW_KEY_ENTER) := by
  constructor
  · intro h
    have hk := keypadKey_extended env lParam h
    have hl : lParam &&& 0x01000000 ≠ 0 := (and_extendedKey _).2 h
    refine ⟨?_, ?_, ?_⟩
    · unfold translateKey translateControl; rw [hk]
      simp [VK_CONTROL, VK_SHIFT, hl]
    · unfold translateKey; rw [hk]
      simp [VK_CONTROL, VK_SHIFT, VK_MENU, hl]
    · unfold translateKey; rw [hk]
      simp [VK_CONTROL, VK_SHIFT, VK_MENU, VK_RETURN, hl]
  · intro h hpad
    have hk : keypadKey env lParam = none := keypadKey_none env lParam (fun h => hpad h.2)
    have hl : ¬ lParam &&& 0x01000000 ≠ 0 := by rw [and_extendedKey, h]; simp
    refine ⟨?_, ?_⟩
    · unfold translateKey; rw [hk]
      simp [VK_CONTROL, VK_SHIFT, VK_MENU, hl]
    · unfold translateKey; rw [hk]
      simp [VK_CONTROL, VK_SHIFT, VK_MENU, VK_RETURN, hl]

/-- An extended control event is right control, a plain alt event left alt. -/
theorem translateKey_extended_witness :
    translateKey sampleKeyboard {} VK_CONTROL 0x011D0000 = GLFW_KEY_RCTRL ∧
    translateKey sampleKeyboard {} VK_MENU 0x00380000 = GLFW_KEY_LALT :=
  ⟨((translateKey_extended sampleKeyboard {} 0x011D0000).1 (by decide)).1,
   ((translateKey_extended sampleKeyboard {} 0x00380000).2 (by decide) (by decide)).1⟩

/-- The mask `0x01ff0000` of the source, shifted down, gives bits 16 to 24. -/
theorem shift_extendedScanCode (l : Nat) :
    (l &&& 0x01ff0000) >>> 16 = extendedScanCode l := by
  unfold extendedScanCode
  have hm : (0x01ff0000 : Nat) = (2 ^ 9 - 1) <<< 16 := by decide
  apply Nat.eq_of_testBit_eq
  intro i
  rw [Nat.testBit_shiftRight, Nat.testBit_and, hm, Nat.testBit_shiftLeft,
    Nat.testBit_two_pow_sub_one, Nat.testBit_mod_two_pow, ← Nat.shiftRight_eq_div_pow,
    Nat.testBit_shiftRight]
  have : 16 + i - 16 = i := by omega
  rw [this]
  have h16 : decide (16 + i ≥ 16) = true := by simp
  rw [h16]
  cases l.testBit (16 + i) <;> simp

/-- Bits 16 to 24 are the scan code plus 256 when the extended-key bit is set. -/
theorem extendedScanCode_eq (l : Nat) :
    extendedScanCode l = scanCode l + (if extendedKey l then 256 else 0) := by
  unfold extendedScanCode scanCode extendedKey
  rw [Nat.testBit_to_div_mod]
  have h : l / 2 ^ 24 = l / 2 ^ 16 / 2 ^ 8 := by
    rw [Nat.div_div_eq_div_mul]; norm_num
  rw [h]
  generalize l / 2 ^ 16 = x
  by_cases hx : x / 2 ^ 8 % 2 = 1
  · simp only [hx, decide_True, if_true]; omega
  · simp only [hx, decide_False]; simp; omega

/-- Claim C17 fails as stated. A `VK_SHIFT` event with the extended-key bit set
whose scan code is the right-shift scan code of the layout is translated to
`GLFW_KEY_LSHIFT`. -/
theorem translateKey_shift_extended :
    extendedKey 0x01360000 = true ∧
    scanCode 0x01360000 = sampleKeyboard.MapVirtualKey VK_RSHIFT 0 ∧
    translateKey sampleKeyboard {} VK_SHIFT 0x01360000 = GLFW_KEY_LSHIFT := by
  decide

/-- Claim C17 as amended. For a `VK_SHIFT` event to which the keypad overlap rule
does not apply, `translateKey` returns `GLFW_KEY_RSHIFT` exactly when bits 16
to 24 of the flag word (the scan code with the extended-key bit on top) equal
the right-shift scan code of the layout, and `GLFW_KEY_LSHIFT` otherwise; with
the extended-key bit clear this is the comparison of the scan code alone. -/
theorem translateKey_shift (env : Env) (queue : MessageContext) (lParam : Nat)
    (hpad : ¬ (extendedKey lParam = false ∧ hitsKeypad env lParam)) :
    translateKey env queue VK_SHIFT lParam =
      (if extendedScanCode lParam = env.MapVirtualKey VK_RSHIFT 0 then GLFW_KEY_RSHIFT
       else GLFW_KEY_LSHIFT) ∧
    (extendedKey lParam = false →
      translateKey env queue VK_SHIFT lParam =
        if scanCode lParam = env.MapVirtualKey VK_RSHIFT 0 then GLFW_KEY_RSHIFT
        else GLFW_KEY_LSHIFT) := by
  have hk := keypadKey_none env lParam hpad
  have ht : translateKey env queue VK_SHIFT lParam =
      if extendedScanCode lParam = env.MapVirtualKey VK_RSHIFT 0 then GLFW_KEY_RSHIFT
      else GLFW_KEY_LSHIFT := by
    unfold translateKey translateShift; rw [hk]
    simp only [if_true, shift_extendedScanCode]
  refine ⟨ht, ?_⟩
  intro he
  rw [ht, extendedScanCode_eq, he]
  simp

/-- The scan code `0x36` is right shift, the scan code `0x2A` left shift. -/
theorem translateKey_shift_witness :
    translateKey sampleKeyboard {} VK_SHIFT 0x00360000 = GLFW_KEY_RSHIFT ∧
    translateKey sampleKeyboard {} VK_SHIFT 0x002A0000 = GLFW_KEY_LSHIFT :=
  ⟨(translateKey_shift sampleKeyboard {} 0x00360000 (by decide)).1,
   (translateKey_shift sampleKeyboard {} 0x002A0000 (by decide)).1⟩

/-- Claim C18. With the extended-key bit clear, a scan code that the layout maps
to a virtual key code of the keypad overlap table gives the numeric-keypad
identifier of that entry, whatever the virtual key code of the event; with the
bit set the table is not consulted and the navigation keys give the
navigation identifiers. -/
theorem translateKey_keypad (env : Env) (queue : MessageContext) (wParam lParam : Nat) :
    (extendedKey lParam = false →
      ∀ vk key, (vk, key) ∈
        [(VK_INSERT, GLFW_KEY_KP_0),
        (VK_END, GLFW_KEY_KP_1),
        (VK_DOWN, GLFW_KEY_KP_2),
        (VK_NEXT, GLFW_KEY_KP_3),
        (VK_LEFT, GLFW_KEY_KP_4),
        (VK_CLEAR, GLFW_KEY_KP_5),
        (VK_RIGHT, GLFW_KEY_KP_6),
        (VK_HOME, GLFW_KEY_KP_7),
        (VK_UP, GLFW_KEY_KP_8),
        (VK_PRIOR, GLFW_KEY_KP_9),
        (VK_DIVIDE, GLFW_KEY_KP_DIVIDE),
        (VK_MULTIPLY, GLFW_KEY_KP_MULTIPLY),
        (VK_SUBTRACT, GLFW_KEY_KP_SUBTRACT),
        (VK_ADD, GLFW_KEY_KP_ADD),
        (VK_DELETE, GLFW_KEY_KP_DECIMAL)] →
      env.MapVirtualKey (scanCode lParam) 1 = vk →
      translateKey env queue wParam lParam = key) ∧
    (extendedKey lParam = true →
      keypadKey env lParam = none ∧
      ∀ vk key, (vk, key) ∈
        [(VK_HOME, GLFW_KEY_HOME),
        (VK_END, GLFW_KEY_END),
        (VK_INSERT, GLFW_KEY_INSERT),
        (VK_DELETE, GLFW_KEY_DEL),
        (VK_LEFT, GLFW_KEY_LEFT),
        (VK_UP, GLFW_KEY_UP),
        (VK_RIGHT, GLFW_KEY_RIGHT),
        (VK_DOWN, GLFW_KEY_DOWN),
        (VK_PRIOR, GLFW_KEY_PAGEUP),
        (VK_NEXT, GLFW_KEY_PAGEDOWN)] →
      translateKey env queue vk lParam = key) := by
  constructor
  · intro hext vk key hmem hmap
    have hk := keypadKey_not_extended env lParam hext
    have hsub : ∀ p ∈
        [(VK_INSERT, GLFW_KEY_KP_0),
        (VK_END, GLFW_KEY_KP_1),
        (VK_DOWN, GLFW_KEY_KP_2),
        (VK_NEXT, GLFW_KEY_KP_3),
        (VK_LEFT, GLFW_KEY_KP_4),
        (VK_CLEAR, GLFW_KEY_KP_5),
        (VK_RIGHT, GLFW_KEY_KP_6),
        (VK_HOME, GLFW_KEY_KP_7),
        (VK_UP, GLFW_KEY_KP_8),
        (VK_PRIOR, GLFW_KEY_KP_9),
        (VK_DIVIDE, GLFW_KEY_KP_DIVIDE),
        (VK_MULTIPLY, GLFW_KEY_KP_MULTIPLY),
        (VK_SUBTRACT, GLFW_KEY_KP_SUBTRACT),
        (VK_ADD, GLFW_KEY_KP_ADD),
        (VK_DELETE, GLFW_KEY_KP_DECIMAL)],
        keypadOverlap.lookup p.1 = some p.2 := by decide
    rw [hmap, hsub (vk, key) hmem] at hk
    unfold translateKey
    rw [hk]
  · intro hext
    have hk := keypadKey_extended env lParam hext
    refine ⟨hk, ?_⟩
    intro vk key hmem
    have hsub : ∀ p ∈
        [(VK_HOME, GLFW_KEY_HOME),
        (VK_END, GLFW_KEY_END),
        (VK_INSERT, GLFW_KEY_INSERT),
        (VK_DELETE, GLFW_KEY_DEL),
        (VK_LEFT, GLFW_KEY_LEFT),
        (VK_UP, GLFW_KEY_UP),
        (VK_RIGHT, GLFW_KEY_RIGHT),
        (VK_DOWN, GLFW_KEY_DOWN),
        (VK_PRIOR, GLFW_KEY_PAGEUP),
        (VK_NEXT, GLFW_KEY_PAGEDOWN)],
        p.1 ≠ VK_SHIFT ∧ p.1 ≠ VK_CONTROL ∧ p.1 ≠ VK_MENU ∧ p.1 ≠ VK_RETURN ∧
          specialKeys.lookup p.1 = some p.2 := by decide
    obtain ⟨h1, h2, h3, h4, h5⟩ := hsub (vk, key) hmem
    unfold translateKey
    rw [hk]
    simp only [h1, h2, h3, h4, if_false]
    simp only at h5
    rw [h5]

/-- The keypad key 7 is `GLFW_KEY_KP_7` without the extended-key bit; the same
scan code with the bit is the Home key. -/
theorem translateKey_keypad_witness :
    translateKey sampleKeyboard {} VK_HOME 0x00470000 = GLFW_KEY_KP_7 ∧
    translateKey sampleKeyboard {} VK_HOME 0x01470000 = GLFW_KEY_HOME :=
  ⟨(translateKey_keypad sampleKeyboard {} VK_HOME 0x00470000).1 (by decide) VK_HOME
      GLFW_KEY_KP_7 (by decide) (by decide),
   ((translateKey_keypad sampleKeyboard {} VK_HOME 0x01470000).2 (by decide)).2 VK_HOME
      GLFW_KEY_HOME (by decide)⟩

/-- Claim C19. For a virtual key code outside the special cases and the table,
whose event does not hit the keypad overlap table, `translateKey` returns the
upper-cased character of the layout when it lies in 32..126 or 160..255 and
`GLFW_KEY_UNKNOWN` otherwise; the result is `GLFW_KEY_UNKNOWN` or lies in those
ranges. -/
theorem translateKey_printable (env : Env) (queue : MessageContext) (wParam lParam : Nat)
    (hpad : ¬ (extendedKey lParam = false ∧ hitsKeypad env lParam))
    (hspecial : wParam ∉ [VK_SHIFT, VK_CONTROL, VK_MENU, VK_RETURN])
    (htable : wParam ∉ specialKeys.map Prod.fst) :
    translateKey env queue wParam lParam =
      (if (32 ≤ layoutCharacter env (wParam % 2 ^ 32) ∧
            layoutCharacter env (wParam % 2 ^ 32) ≤ 126) ∨
          (160 ≤ layoutCharacter env (wParam % 2 ^ 32) ∧
            layoutCharacter env (wParam % 2 ^ 32) ≤ 255) then
        (layoutCharacter env (wParam % 2 ^ 32) : Int)
       else GLFW_KEY_UNKNOWN) ∧
    (translateKey env queue wParam lParam = GLFW_KEY_UNKNOWN ∨
      (32 ≤ translateKey env queue wParam lParam ∧
        translateKey env queue wParam lParam ≤ 126) ∨
      (160 ≤ translateKey env queue wParam lParam ∧
        translateKey env queue wParam lParam ≤ 255)) := by
  have hk := keypadKey_none env lParam hpad
  have hl := lookup_eq_none_of_not_mem specialKeys wParam htable
  simp only [List.mem_cons, List.mem_singleton, List.not_mem_nil, or_false, not_or] at hspecial
  have hm : ∀ x : Nat, x &&& 0x0000FFFF = x % 2 ^ 16 := by
    intro x
    have h2 : (0x0000FFFF : Nat) = 2 ^ 16 - 1 := by norm_num
    rw [h2, Nat.and_pow_two_sub_one_eq_mod]
  have ht : translateKey env queue wParam lParam =
      (if (32 ≤ layoutCharacter env (wParam % 2 ^ 32) ∧
            layoutCharacter env (wParam % 2 ^ 32) ≤ 126) ∨
          (160 ≤ layoutCharacter env (wParam % 2 ^ 32) ∧
            layoutCharacter env (wParam % 2 ^ 32) ≤ 255) then
        (layoutCharacter env (wParam % 2 ^ 32) : Int)
       else GLFW_KEY_UNKNOWN) := by
    unfold translateKey translatePrintable layoutCharacter
    rw [hk, hl]
    simp only [hspecial.1, hspecial.2.1, hspecial.2.2.1, hspecial.2.2.2, if_false, hm, ge_iff_le]
  refine ⟨ht, ?_⟩
  rw [ht]
  generalize layoutCharacter env (wParam % 2 ^ 32) = c
  split_ifs with h
  · right
    rcases h with h | h
    · left; exact ⟨by exact_mod_cast h.1, by exact_mod_cast h.2⟩
    · right; exact ⟨by exact_mod_cast h.1, by exact_mod_cast h.2⟩
  · left; rfl

/-- The key A gives 65; a key without a character gives `GLFW_KEY_UNKNOWN`. -/
theorem translateKey_printable_witness :
    translateKey sampleKeyboard {} 0x41 0x001E0000 = 65 ∧
    translateKey sampleKeyboard {} 0xFF 0x001E0000 = GLFW_KEY_UNKNOWN :=
  ⟨(translateKey_printable sampleKeyboard {} 0x41 0x001E0000 (by decide) (by decide)
      (by decide)).1,
   (translateKey_printable sampleKeyboard {} 0xFF 0x001E0000 (by decide) (by decide)
      (by decide)).1⟩

/-! ## Key messages in the window procedure -/

/-- Claim C14. For a key-up or system-key-up message with the virtual key code
`VK_SHIFT`, whatever its flag word, `windowProc` returns 0 and sends exactly a
release of `GLFW_KEY_LSHIFT` followed by a release of `GLFW_KEY_RSHIFT`;
`translateKey` is not called and nothing else changes. -/
theorem windowProc_shift_up (env : Env) (queue : MessageContext) (hWnd uMsg lParam : Nat)
    (s : State) (hmsg : uMsg = WM_KEYUP ∨ uMsg = WM_SYSKEYUP) :
    windowProc env queue hWnd uMsg VK_SHIFT lParam s =
      (0, { s with
            input := s.input ++ [.inputKey GLFW_KEY_LSHIFT GLFW_RELEASE,
                                 .inputKey GLFW_KEY_RSHIFT GLFW_RELEASE] }) := by
  have h : windowProc env queue hWnd uMsg VK_SHIFT lParam s =
      onKeyUp env queue VK_SHIFT lParam s := by
    unfold windowProc
    rcases hmsg with rfl | rfl <;> simp [WM_KEYUP, WM_SYSKEYUP, WM_CREATE, WM_ACTIVATE,
      WM_SYSCOMMAND, WM_CLOSE, WM_KEYDOWN, WM_SYSKEYDOWN]
  rw [h]
  simp [onKeyUp, send]

/-- A key-up of the left shift key releases both shift identifiers. -/
theorem windowProc_shift_up_witness :
    windowProc sampleKeyboard {} 10 WM_KEYUP VK_SHIFT 0x002A0000 {} =
      (0, { input := [.inputKey GLFW_KEY_LSHIFT GLFW_RELEASE,
                      .inputKey GLFW_KEY_RSHIFT GLFW_RELEASE] }) :=
  windowProc_shift_up sampleKeyboard {} 10 WM_KEYUP 0x002A0000 {} (Or.inl rfl)

/-- Claim C15, where the code departs from it. In the Alt-Gr sequence each key-up follows
a key-down with the same virtual key code and flag word, the key sink receives
a press of `GLFW_KEY_UNKNOWN`, a press of `GLFW_KEY_RALT`, a release of
`GLFW_KEY_LCTRL` and a release of `GLFW_KEY_RALT`, and the release of
`GLFW_KEY_LCTRL` has no earlier press. -/
theorem altGr_release_without_press :
    UpsFollowDowns altGrSequence ∧
    keyEvents (dispatchAll sampleKeyboard 10 altGrSequence {}).input =
      [ .inputKey GLFW_KEY_UNKNOWN GLFW_PRESS,
        .inputKey GLFW_KEY_RALT GLFW_PRESS,
        .inputKey GLFW_KEY_LCTRL GLFW_RELEASE,
        .inputKey GLFW_KEY_RALT GLFW_RELEASE ] ∧
    ¬ ReleasesFollowPresses (dispatchAll sampleKeyboard 10 altGrSequence {}).input := by
  refine ⟨by decide, by decide, by decide⟩

/-! ## Full window size -/

/-- A value in the 32-bit range is stored as it is. -/
theorem toLong_of_fits (x : Int) (hlo : -2 ^ 31 ≤ x) (hhi : x < 2 ^ 31) : toLong x = x := by
  unfold toLong
  omega

/-- Claim C20 fails as stated. On the sample desktop a captioned window of
client width 2147483647 has borders 8 and 8, so its full width 2147483663 is
beyond the 32-bit range: the width that `getFullWindowSize` returns is not
the client width plus the borders, and taking the borders off does not give
the client width back. -/
theorem getFullWindowSize_overflow :
    ¬ ((2147483647 : Int) + 8 + 8 < 2 ^ 31) ∧
    getFullWindowSize sampleDesktop { Win32 := { dwStyle := WS_CAPTION } } 2147483647 480 =
      (-2147483633, 519) ∧
    clientSize sampleBorders { Win32 := { dwStyle := WS_CAPTION } }
      (getFullWindowSize sampleDesktop { Win32 := { dwStyle := WS_CAPTION } }
        2147483647 480) ≠ (2147483647, 480) := by
  decide

/-- Claim C20 as amended. When the native frame adjustment moves each edge
outward by a border that depends only on the style bits, then for every client
width and height `>= 0` whose full size (the client size plus the two borders
of each direction) is below `2^31`, taking the borders off the size that
`getFullWindowSize` returns gives back the client width and height, and the
full size exceeds the client size by the borders of the style bits. -/
theorem getFullWindowSize_round_trip (env : Env) (borders : Nat → Nat → Borders)
    (hframe : IsFrameAdjustment env borders) (window : GLFWwindow)
    (clientWidth clientHeight : Int) (hw : 0 ≤ clientWidth) (hh : 0 ≤ clientHeight)
    (hleft : 0 ≤ (borders window.Win32.dwStyle window.Win32.dwExStyle).left)
    (htop : 0 ≤ (borders window.Win32.dwStyle window.Win32.dwExStyle).top)
    (hright : 0 ≤ (borders window.Win32.dwStyle window.Win32.dwExStyle).right)
    (hbottom : 0 ≤ (borders window.Win32.dwStyle window.Win32.dwExStyle).bottom)
    (hfullWidth : clientWidth + (borders window.Win32.dwStyle window.Win32.dwExStyle).left +
      (borders window.Win32.dwStyle window.Win32.dwExStyle).right < 2 ^ 31)
    (hfullHeight : clientHeight + (borders window.Win32.dwStyle window.Win32.dwExStyle).top +
      (borders window.Win32.dwStyle window.Win32.dwExStyle).bottom < 2 ^ 31) :
    clientSize borders window (getFullWindowSize env window clientWidth clientHeight) =
      (clientWidth, clientHeight) ∧
    (getFullWindowSize env window clientWidth clientHeight).1 - clientWidth =
      (borders window.Win32.dwStyle window.Win32.dwExStyle).left +
        (borders window.Win32.dwStyle window.Win32.dwExStyle).right ∧
    (getFullWindowSize env window clientWidth clientHeight).2 - clientHeight =
      (borders window.Win32.dwStyle window.Win32.dwExStyle).top +
        (borders window.Win32.dwStyle window.Win32.dwExStyle).bottom := by
  have hfull : getFullWindowSize env window clientWidth clientHeight =
      (clientWidth + (borders window.Win32.dwStyle window.Win32.dwExStyle).left +
          (borders window.Win32.dwStyle window.Win32.dwExStyle).right,
       clientHeight + (borders window.Win32.dwStyle window.Win32.dwExStyle).top +
          (borders window.Win32.dwStyle window.Win32.dwExStyle).bottom) := by
    unfold getFullWindowSize
    simp only
    rw [toLong_of_fits (clientWidth - 1) (by omega) (by omega),
      toLong_of_fits (clientHeight - 1) (by omega) (by omega),
      hframe 0 0 (clientWidth - 1) (clientHeight - 1) window.Win32.dwStyle
        window.Win32.dwExStyle]
    simp only
    generalize (borders window.Win32.dwStyle window.Win32.dwExStyle).left = bl at *
    generalize (borders window.Win32.dwStyle window.Win32.dwExStyle).top = bt at *
    generalize (borders window.Win32.dwStyle window.Win32.dwExStyle).right = br at *
    generalize (borders window.Win32.dwStyle window.Win32.dwExStyle).bottom = bb at *
    rw [toLong_of_fits (0 - bl) (by omega) (by omega),
      toLong_of_fits (0 - bt) (by omega) (by omega),
      toLong_of_fits (clientWidth - 1 + br) (by omega) (by omega),
      toLong_of_fits (clientHeight - 1 + bb) (by omega) (by omega),
      toLong_of_fits (clientWidth - 1 + br - (0 - bl)) (by omega) (by omega),
      toLong_of_fits (clientHeight - 1 + bb - (0 - bt)) (by omega) (by omega),
      toLong_of_fits (clientWidth - 1 + br - (0 - bl) + 1) (by omega) (by omega),
      toLong_of_fits (clientHeight - 1 + bb - (0 - bt) + 1) (by omega) (by omega)]
    ext <;> simp only <;> omega
  rw [hfull]
  unfold clientSize
  refine ⟨?_, ?_, ?_⟩
  · ext <;> simp only <;> omega
  · simp only; omega
  · simp only; omega

/-- A captioned window of client size 640 by 480 has full size 656 by 519 on the
sample desktop, and the inverse adjustment gives 640 by 480 back. -/
theorem getFullWindowSize_round_trip_witness :
    getFullWindowSize sampleDesktop { Win32 := { dwStyle := WS_CAPTION } } 640 480 =
      (656, 519) ∧
    clientSize sampleBorders { Win32 := { dwStyle := WS_CAPTION } }
      (getFullWindowSize sampleDesktop { Win32 := { dwStyle := WS_CAPTION } } 640 480) =
      (640, 480) :=
  ⟨by decide,
   (getFullWindowSize_round_trip sampleDesktop sampleBorders (fun _ _ _ _ _ _ => rfl)
      { Win32 := { dwStyle := WS_CAPTION } } 640 480 (by decide) (by decide) (by decide)
      (by decide) (by decide) (by decide) (by decide) (by decide)).1⟩

/-! ## Colour depth -/

/-- Claim C30. For every `bpp >= 0`, with `n = 24` when `bpp = 32` and `n = bpp`
otherwise, `bpp2rgb` gives sizes with `r + g + b = n` and `b <= r <= g <= b + 1`:
blue is `n / 3`, green gets the first unit of the remainder and red the second;
16 gives (5, 6, 5), 15 gives (5, 5, 5) and 32 gives (8, 8, 8). -/
theorem bpp2rgb_split (bpp : Int) (hbpp : 0 ≤ bpp) :
    (bpp2rgb bpp).1 + (bpp2rgb bpp).2.1 + (bpp2rgb bpp).2.2 =
      (if bpp = 32 then 24 else bpp) ∧
    (bpp2rgb bpp).2.2 ≤ (bpp2rgb bpp).1 ∧
    (bpp2rgb bpp).1 ≤ (bpp2rgb bpp).2.1 ∧
    (bpp2rgb bpp).2.1 ≤ (bpp2rgb bpp).2.2 + 1 ∧
    (bpp2rgb bpp).2.2 = (if bpp = 32 then 24 else bpp) / 3 ∧
    (bpp2rgb bpp).2.1 = (if bpp = 32 then 24 else bpp) / 3 +
      (if (if bpp = 32 then 24 else bpp) % 3 ≥ 1 then 1 else 0) ∧
    (bpp2rgb bpp).1 = (if bpp = 32 then 24 else bpp) / 3 +
      (if (if bpp = 32 then 24 else bpp) % 3 = 2 then 1 else 0) ∧
    bpp2rgb 16 = (5, 6, 5) ∧ bpp2rgb 15 = (5, 5, 5) ∧ bpp2rgb 32 = (8, 8, 8) := by
  have hn : (0 : Int) ≤ (if bpp = 32 then 24 else bpp) := by split_ifs <;> omega
  unfold bpp2rgb
  simp only
  generalize (if bpp = 32 then 24 else bpp) = n at hn
  rw [Int.tdiv_eq_ediv hn (by norm_num)]
  refine ⟨?_, ?_, ?_, ?_, rfl, ?_, ?_, by decide, by decide, by decide⟩ <;>
    split_ifs <;> omega

/-- The sizes for 16 bits per pixel are (5, 6, 5) and add up to 16. -/
theorem bpp2rgb_split_witness :
    (bpp2rgb 16).1 + (bpp2rgb 16).2.1 + (bpp2rgb 16).2.2 = 16 ∧ bpp2rgb 16 = (5, 6, 5) :=
  ⟨(bpp2rgb_split 16 (by decide)).1, (bpp2rgb_split 16 (by decide)).2.2.2.2.2.2.2.1⟩

/-! ## Guard flags and function pointers -/

/-- The function `createContext` keeps the guards: it writes the context only. -/
theorem guardsResolved_createContext_call (env : Env) (wndconfig : WndConfig)
    (pixelFormat : Int) (s : State) (r : Bool) (s' : State)
    (h : createContext env wndconfig pixelFormat s = some (r, s'))
    (hs : GuardsResolved s.window.WGL) : GuardsResolved s'.window.WGL := by
  rw [(createContext_frame env wndconfig pixelFormat s r s' h).2.1]
  exact hs

/-- Claim C27, where the code departs from it. For a request with an explicit
version, a context flag and a profile the attribute list has nine entries with
its terminating zero; the version and the flags fill indices 0 to 5 of the
array of seven, the profile mask name goes to index 6, and the store of the
profile mask value at index 7 is outside the array. -/
theorem attribs_index_out_of_bounds (env : Env) (wndconfig : WndConfig)
    (hv : wndconfig.glMajor ≠ 1 ∨ wndconfig.glMinor ≠ 0)
    (hf : wndconfig.glForward = true ∨ wndconfig.glDebug = true)
    (hp : wndconfig.glProfile ≠ 0) :
    (expectedAttribs wndconfig (profileFlags wndconfig)).length = 9 ∧
    ∃ b, storeVersionAndFlags wndconfig (AttribBuf.declare env) = some b ∧
      b.attribs.length = 7 ∧ b.i = 6 ∧
      ∃ b', b.store WGL_CONTEXT_PROFILE_MASK_ARB = some b' ∧ b'.attribs.length = 7 ∧
        b'.i = 7 ∧ b'.store (profileFlags wndconfig) = none ∧
        storeProfile wndconfig b = none := by
  have hv' : (wndconfig.glMajor, wndconfig.glMinor) ≠ (1, 0) := by
    intro h; simp only [Prod.mk.injEq] at h; omega
  have hf' : wndconfig.glForward = true ∨ wndconfig.glDebug = true := hf
  have hlen : (versionAttribs wndconfig ++ flagAttribs wndconfig).length = 6 := by
    simp [versionAttribs, flagAttribs, hv', hf']
  refine ⟨?_, ?_⟩
  · unfold expectedAttribs profileAttribs
    rw [if_pos hp, List.length_append, List.length_append, hlen]
    rfl
  · obtain ⟨b, hb, hl, hi, _⟩ := storeVersionAndFlags_some env wndconfig
    rw [hlen] at hi
    refine ⟨b, hb, hl, hi, ?_⟩
    obtain ⟨b', hb', hi', hl', _⟩ := b.store_of_lt WGL_CONTEXT_PROFILE_MASK_ARB (by omega)
    have hn : b'.store (profileFlags wndconfig) = none :=
      b'.store_of_not_lt _ (by omega)
    refine ⟨b', hb', by omega, by omega, hn, ?_⟩
    simp [storeProfile, hb', hn]

/-- The forward-compatible 3.2 core request needs nine entries, and its profile
block stores outside the array. -/
theorem attribs_index_out_of_bounds_witness :
    (expectedAttribs forwardCoreRequest (profileFlags forwardCoreRequest)).length = 9 ∧
    ((storeVersionAndFlags forwardCoreRequest (AttribBuf.declare {})).bind
      (storeProfile forwardCoreRequest)) = none :=
  ⟨(attribs_index_out_of_bounds {} forwardCoreRequest (by decide) (by decide) (by decide)).1,
   by
    obtain ⟨b, hb, _, _, _, _, _, _, _, h⟩ :=
      (attribs_index_out_of_bounds {} forwardCoreRequest (by decide) (by decide)
        (by decide)).2
    rw [hb]; exact h⟩

/-! ## Format selection -/

/-- The entries `getFBConfigs` returns as valid carry a platform identifier of
at least 1. -/
theorem getFBConfigs_platformID_pos (env : Env) (wgl : WGL) (configs : List FBConfig)
    (found : Nat) (h : getFBConfigs env wgl = .ok (configs, found)) (cfg : FBConfig)
    (hcfg : cfg ∈ configs.take found) : 1 ≤ cfg.platformID := by
  obtain ⟨_, _, _, _, htake⟩ := getFBConfigs_ok_inv env wgl configs found h
  rw [htake] at hcfg
  have hm : cfg.platformID ∈
      (acceptedUpTo env wgl (formatCount env wgl).toNat).map (fun c => c.platformID) :=
    List.mem_map.2 ⟨cfg, hcfg, rfl⟩
  rw [acceptedUpTo_platformIDs] at hm
  obtain ⟨i, hi, hi2⟩ := List.mem_map.1 hm
  unfold passingIndices at hi
  have hr := (List.mem_filter.1 hi).1
  rw [List.mem_range'_1] at hr
  rw [← hi2]
  simp only [Int.ofNat_eq_coe]
  omega

/-- Claim C21. When the external chooser returns only candidates among the
valid entries it was given, `choosePixelFormat` returns 0 when the enumeration
fails, when no entry is valid, or when the chooser returns none; otherwise it
returns the platform identifier of the chosen candidate, which is not 0. -/
theorem choosePixelFormat_result (env : Env) (fbconfig : FBConfig) (s : State)
    (hchooser : ChoosesCandidate env) :
    ((∃ e, getFBConfigs env s.window.WGL = .error e) →
      (choosePixelFormat env fbconfig s).1 = 0) ∧
    (∀ configs found, getFBConfigs env s.window.WGL = .ok (configs, found) →
      (found = 0 → (choosePixelFormat env fbconfig s).1 = 0) ∧
      (env.chooseFBConfig fbconfig configs found = none →
        (choosePixelFormat env fbconfig s).1 = 0) ∧
      (∀ closest, env.chooseFBConfig fbconfig configs found = some closest →
        (choosePixelFormat env fbconfig s).1 = closest.platformID ∧
        closest.platformID ≠ 0)) := by
  have hw : (if (emit (.readFlag .has_WGL_ARB_pixel_format
        s.native) s).window.WGL.has_WGL_ARB_pixel_format = true then
      callThrough (emit (.readFlag .has_WGL_ARB_pixel_format
        s.native) s).window.WGL.GetPixelFormatAttribivARB
        (emit (.readFlag .has_WGL_ARB_pixel_format s.native) s)
      else emit (.readFlag .has_WGL_ARB_pixel_format s.native) s).window = s.window := by
    split_ifs <;> rfl
  refine ⟨?_, ?_⟩
  · rintro ⟨e, he⟩
    unfold choosePixelFormat
    simp only [hw, he]
  · intro configs found hok
    have hnone : env.chooseFBConfig fbconfig configs found = none →
        (choosePixelFormat env fbconfig s).1 = 0 := by
      intro hc
      unfold choosePixelFormat
      simp only [hw, hok, hc]
    refine ⟨?_, hnone, ?_⟩
    · intro hfound
      apply hnone
      cases hc : env.chooseFBConfig fbconfig configs found with
      | none => rfl
      | some closest =>
        have := hchooser fbconfig configs found closest hc
        rw [hfound] at this
        simp at this
    · intro closest hc
      refine ⟨?_, ?_⟩
      · unfold choosePixelFormat
        simp only [hw, hok, hc]
      · have := getFBConfigs_platformID_pos env s.window.WGL configs found hok closest
          (hchooser fbconfig configs found closest hc)
        omega

/-- The chooser of the sample devices takes the first valid entry. -/
theorem choosesCandidate_legacyDevice : ChoosesCandidate legacyDevice := by
  intro fbconfig configs found closest h
  exact List.mem_of_mem_head? h

/-- Without any pixel format the result is 0; on the legacy sample device a
format is chosen and the result is not 0. -/
theorem choosePixelFormat_result_witness :
    (choosePixelFormat {} {} {}).1 = 0 ∧ (choosePixelFormat legacyDevice {} {}).1 ≠ 0 :=
  ⟨(choosePixelFormat_result {} {} {} (fun _ _ _ _ h => by cases h)).1 ⟨_, rfl⟩,
   fun h0 =>
    (((choosePixelFormat_result legacyDevice {} {} choosesCandidate_legacyDevice).2 _ _
      rfl).2.2 _ rfl).2
      ((((choosePixelFormat_result legacyDevice {} {} choosesCandidate_legacyDevice).2 _ _
        rfl).2.2 _ rfl).1.symm.trans h0)⟩

/-! ## Mouse, size and activation messages -/

/-- The macro `LOWORD` is the remainder modulo 65536. -/
theorem LOWORD_eq (l : Nat) : LOWORD l = l % 2 ^ 16 := by
  unfold LOWORD
  have h2 : (0xFFFF : Nat) = 2 ^ 16 - 1 := by norm_num
  rw [h2, Nat.and_pow_two_sub_one_eq_mod]

/-- The macro `HIWORD` is the second 16-bit word. -/
theorem HIWORD_eq (l : Nat) : HIWORD l = l / 2 ^ 16 % 2 ^ 16 := by
  unfold HIWORD
  have h2 : (0xFFFF : Nat) = 2 ^ 16 - 1 := by norm_num
  rw [h2, Nat.and_pow_two_sub_one_eq_mod, Nat.shiftRight_eq_div_pow]

/-- The shift `((int) w) >> 16` is the sign-extended high word. -/
theorem toInt32_shift (w : Nat) : toInt32 w >>> (16 : Nat) = signedHighWord w := by
  unfold toInt32 signedHighWord
  rw [Int.shiftRight_eq_div_pow]
  have h1 : w / 2 ^ 16 % 2 ^ 16 = w % 2 ^ 32 / 2 ^ 16 := by omega
  rw [h1]
  split_ifs <;> omega

/-- The wheel amount is the sign-extended high word divided by 120, truncated
toward zero. -/
theorem wheelSteps_eq (w : Nat) : wheelSteps w = Int.tdiv (signedHighWord w) 120 := by
  unfold wheelSteps WHEEL_DELTA
  rw [toInt32_shift]

/-- Claim C25. For a vertical wheel message `windowProc` returns 0 and sends
exactly one scroll event whose y component is the signed 16-bit delta of bits
16 to 31 of `wParam` divided by 120 with truncation toward zero, the x
component being 0; for a horizontal wheel message the components are swapped.
A delta strictly between -120 and 120 gives 0, and the delta -120 gives -1. -/
theorem windowProc_wheel (env : Env) (queue : MessageContext) (hWnd wParam lParam : Nat)
    (s : State) :
    windowProc env queue hWnd WM_MOUSEWHEEL wParam lParam s =
      (0, { s with
            input := s.input ++ [.inputScroll 0 (Int.tdiv (signedHighWord wParam) 120)] }) ∧
    windowProc env queue hWnd WM_MOUSEHWHEEL wParam lParam s =
      (0, { s with
            input := s.input ++ [.inputScroll (Int.tdiv (signedHighWord wParam) 120) 0] }) ∧
    (-120 < signedHighWord wParam → signedHighWord wParam < 120 →
      wheelSteps wParam = 0) ∧
    (signedHighWord wParam = -120 → wheelSteps wParam = -1) := by
  refine ⟨?_, ?_, ?_, ?_⟩
  · simp [windowProc, WM_MOUSEWHEEL, WM_CREATE, WM_ACTIVATE, WM_SYSCOMMAND, WM_CLOSE,
      WM_KEYDOWN, WM_SYSKEYDOWN, WM_KEYUP, WM_SYSKEYUP, WM_LBUTTONDOWN, WM_RBUTTONDOWN,
      WM_MBUTTONDOWN, WM_XBUTTONDOWN, WM_LBUTTONUP, WM_RBUTTONUP, WM_MBUTTONUP,
      WM_XBUTTONUP, WM_MOUSEMOVE, send, wheelSteps_eq]
  · simp [windowProc, WM_MOUSEWHEEL, WM_MOUSEHWHEEL, WM_CREATE, WM_ACTIVATE, WM_SYSCOMMAND,
      WM_CLOSE, WM_KEYDOWN, WM_SYSKEYDOWN, WM_KEYUP, WM_SYSKEYUP, WM_LBUTTONDOWN,
      WM_RBUTTONDOWN, WM_MBUTTONDOWN, WM_XBUTTONDOWN, WM_LBUTTONUP, WM_RBUTTONUP,
      WM_MBUTTONUP, WM_XBUTTONUP, WM_MOUSEMOVE, send, wheelSteps_eq]
  · intro h1 h2
    rw [wheelSteps_eq]
    generalize signedHighWord wParam = d at h1 h2
    rcases Int.lt_or_le d 0 with hd | hd
    · have : Int.tdiv d 120 = -(Int.tdiv (-d) 120) := by
        rw [Int.neg_tdiv, neg_neg]
      rw [this, Int.tdiv_eq_ediv (by omega) (by norm_num)]
      omega
    · rw [Int.tdiv_eq_ediv hd (by norm_num)]
      omega
  · intro h
    rw [wheelSteps_eq, h]
    decide

/-- The delta -120 scrolls by -1, the delta -60 by 0. -/
theorem windowProc_wheel_witness :
    windowProc {} {} 10 WM_MOUSEWHEEL 0xFF880000 0 {} = (0, { input := [.inputScroll 0 (-1)] }) ∧
    wheelSteps 0xFFC40000 = 0 ∧ wheelSteps 0xFF880000 = -1 :=
  ⟨(windowProc_wheel {} {} 10 0xFF880000 0 {}).1,
   (windowProc_wheel {} {} 10 0xFFC40000 0 {}).2.2.1 (by decide) (by decide),
   (windowProc_wheel {} {} 10 0xFF880000 0 {}).2.2.2 (by decide)⟩

/-- The window procedure hands a resize message to `onSize`. -/
theorem windowProc_WM_SIZE (env : Env) (queue : MessageContext)
    (hWnd wParam lParam : Nat) (s : State) :
    windowProc env queue hWnd WM_SIZE wParam lParam s = onSize env lParam s := by
  simp [windowProc, WM_CREATE, WM_ACTIVATE, WM_SYSCOMMAND, WM_CLOSE,
      WM_KEYDOWN, WM_SYSKEYDOWN, WM_KEYUP, WM_SYSKEYUP, WM_LBUTTONDOWN, WM_RBUTTONDOWN,
      WM_MBUTTONDOWN, WM_XBUTTONDOWN, WM_LBUTTONUP, WM_RBUTTONUP, WM_MBUTTONUP,
      WM_XBUTTONUP, WM_MOUSEMOVE, WM_MOUSEWHEEL, WM_MOUSEHWHEEL, WM_SIZE, WM_MOVE]

/-- The window procedure hands a move message to `onMove`. -/
theorem windowProc_WM_MOVE (env : Env) (queue : MessageContext)
    (hWnd wParam lParam : Nat) (s : State) :
    windowProc env queue hWnd WM_MOVE wParam lParam s = onMove env lParam s := by
  simp [windowProc, WM_CREATE, WM_ACTIVATE, WM_SYSCOMMAND, WM_CLOSE,
      WM_KEYDOWN, WM_SYSKEYDOWN, WM_KEYUP, WM_SYSKEYUP, WM_LBUTTONDOWN, WM_RBUTTONDOWN,
      WM_MBUTTONDOWN, WM_XBUTTONDOWN, WM_LBUTTONUP, WM_RBUTTONUP, WM_MBUTTONUP,
      WM_XBUTTONUP, WM_MOUSEMOVE, WM_MOUSEWHEEL, WM_MOUSEHWHEEL, WM_SIZE, WM_MOVE]

/-- The window procedure hands an activation message to `onActivate`. -/
theorem windowProc_WM_ACTIVATE (env : Env) (queue : MessageContext)
    (hWnd wParam lParam : Nat) (s : State) :
    windowProc env queue hWnd WM_ACTIVATE wParam lParam s = onActivate env wParam s := by
  simp [windowProc, WM_CREATE, WM_ACTIVATE, WM_SYSCOMMAND, WM_CLOSE,
      WM_KEYDOWN, WM_SYSKEYDOWN, WM_KEYUP, WM_SYSKEYUP, WM_LBUTTONDOWN, WM_RBUTTONDOWN,
      WM_MBUTTONDOWN, WM_XBUTTONDOWN, WM_LBUTTONUP, WM_RBUTTONUP, WM_MBUTTONUP,
      WM_XBUTTONUP, WM_MOUSEMOVE, WM_MOUSEWHEEL, WM_MOUSEHWHEEL, WM_SIZE, WM_MOVE]

/-- The events of the update of the clipping rectangle. -/
theorem updateClipRect_eq (env : Env) (s : State) :
    updateClipRect env s =
      { s with
        input := s.input ++
          (if s.lib.cursorLockWindow = .this then
            match env.GetWindowRect s.window.Win32.handle with
            | some rect => [.ClipCursor (some rect)]
            | none => []
           else []) } := by
  unfold updateClipRect
  by_cases hlock : s.lib.cursorLockWindow = .this
  · rw [if_pos hlock, if_pos hlock]
    cases env.GetWindowRect s.window.Win32.handle <;> simp [send]
  · rw [if_neg hlock, if_neg hlock]; simp

/-- Claim C26 fails as stated. With every callback of the library registered, a
move message records the position and sends no event. -/
theorem windowProc_move_sends_nothing :
    windowProc {} {} 10 WM_MOVE 0 0x00640032 windowWithCallbacks =
      (0, { windowWithCallbacks with window := { positionX := 50, positionY := 100 } }) ∧
    (windowProc {} {} 10 WM_MOVE 0 0x00640032 windowWithCallbacks).2.input = [] := by
  decide

/-- Claim C26 as amended. A resize message sets the width and height from the
message (the low and high words of `lParam`) and, when a size callback is
registered, sends one size event with them. A move message returns 0, stores
the position from the message, which for every non-negative coordinate is the
coordinate carried, and sends no event to any callback; nothing else changes,
and the position stored depends on `lParam` alone. In both cases the clipping
rectangle is applied again when the window owns the cursor lock. -/
theorem windowProc_size_move (env : Env) (queue : MessageContext)
    (hWnd wParam lParam : Nat) (s r : State)
    (hr : r = (windowProc env queue hWnd WM_MOVE wParam lParam s).2) :
    windowProc env queue hWnd WM_SIZE wParam lParam s =
      (0, { s with
            window :=
              { s.window with
                width := ((lParam % 2 ^ 16 : Nat) : Int)
                height := ((lParam / 2 ^ 16 % 2 ^ 16 : Nat) : Int) }
            input := s.input ++
              (if s.lib.cursorLockWindow = .this then
                match env.GetWindowRect s.window.Win32.handle with
                | some rect => [.ClipCursor (some rect)]
                | none => []
               else []) ++
              (if s.lib.windowSizeCallback then
                [.windowSizeCallback ((lParam % 2 ^ 16 : Nat) : Int)
                  ((lParam / 2 ^ 16 % 2 ^ 16 : Nat) : Int)]
               else []) }) ∧
    (windowProc env queue hWnd WM_MOVE wParam lParam s).1 = 0 ∧
    (0 ≤ signedLowWord lParam → r.window.positionX = signedLowWord lParam) ∧
    (0 ≤ signedHighWord lParam → r.window.positionY = signedHighWord lParam) ∧
    r.input = s.input ++
      (if s.lib.cursorLockWindow = .this then
        match env.GetWindowRect s.window.Win32.handle with
        | some rect => [.ClipCursor (some rect)]
        | none => []
       else []) ∧
    r = { s with
          window :=
            { s.window with positionX := r.window.positionX, positionY := r.window.positionY }
          input := r.input } ∧
    (∀ (env2 : Env) (queue2 : MessageContext) (hWnd2 wParam2 : Nat) (t : State),
      (windowProc env2 queue2 hWnd2 WM_MOVE wParam2 lParam t).2.window.positionX =
        r.window.positionX ∧
      (windowProc env2 queue2 hWnd2 WM_MOVE wParam2 lParam t).2.window.positionY =
        r.window.positionY) := by
  refine ⟨?_, ?_⟩
  · rw [windowProc_WM_SIZE]
    unfold onSize
    simp only [updateClipRect_eq, LOWORD_eq, HIWORD_eq]
    cases s.lib.windowSizeCallback <;> simp [send]
  · have hres : windowProc env queue hWnd WM_MOVE wParam lParam s =
        (0, { s with
              window :=
                { s.window with
                  positionX := ((lParam % 2 ^ 16 : Nat) : Int)
                  positionY := ((lParam / 2 ^ 16 % 2 ^ 16 : Nat) : Int) }
              input := s.input ++
                (if s.lib.cursorLockWindow = .this then
                  match env.GetWindowRect s.window.Win32.handle with
                  | some rect => [.ClipCursor (some rect)]
                  | none => []
                 else []) }) := by
      rw [windowProc_WM_MOVE]
      unfold onMove
      simp only [updateClipRect_eq, LOWORD_eq, HIWORD_eq]
    rw [hres] at hr
    simp only at hr
    have hx : r.window.positionX = ((lParam % 2 ^ 16 : Nat) : Int) := by rw [hr]
    have hy : r.window.positionY = ((lParam / 2 ^ 16 % 2 ^ 16 : Nat) : Int) := by rw [hr]
    have hi : r.input = s.input ++
        (if s.lib.cursorLockWindow = .this then
          match env.GetWindowRect s.window.Win32.handle with
          | some rect => [.ClipCursor (some rect)]
          | none => []
         else []) := by rw [hr]
    refine ⟨by rw [hres], ?_, ?_, hi, ?_, ?_⟩
    · intro h
      rw [hx]
      unfold signedLowWord at h ⊢
      split_ifs at h ⊢ <;> omega
    · intro h
      rw [hy]
      unfold signedHighWord at h ⊢
      split_ifs at h ⊢ <;> omega
    · rw [hx, hy, hi]
      exact hr
    · intro env2 queue2 hWnd2 wParam2 t
      rw [windowProc_WM_MOVE, hx, hy]
      unfold onMove
      simp only [updateClipRect_eq, LOWORD_eq, HIWORD_eq]
      exact ⟨trivial, trivial⟩

/-- A window moved to (50, 100) with every callback registered is recorded at
(50, 100) and nothing is sent. -/
theorem windowProc_size_move_witness :
    (windowProc {} {} 10 WM_MOVE 0 0x00640032 windowWithCallbacks).2.window.positionX = 50 ∧
    (windowProc {} {} 10 WM_MOVE 0 0x00640032 windowWithCallbacks).2.window.positionY = 100 ∧
    (windowProc {} {} 10 WM_MOVE 0 0x00640032 windowWithCallbacks).2.input = [] :=
  ⟨(windowProc_size_move {} {} 10 0 0x00640032 windowWithCallbacks _ rfl).2.2.1 (by decide),
   (windowProc_size_move {} {} 10 0 0x00640032 windowWithCallbacks _ rfl).2.2.2.1 (by decide),
   (windowProc_size_move {} {} 10 0 0x00640032 windowWithCallbacks _ rfl).2.2.2.2.1⟩

/-- Claim C29, where the code departs from it. The position stored for a move
message is the low and the high word of `lParam` read as unsigned numbers: a
negative screen coordinate is recorded 65536 too high, as a value in
32768..65535. -/
theorem windowProc_move_unsigned (env : Env) (queue : MessageContext)
    (hWnd wParam lParam : Nat) (s : State) :
    (windowProc env queue hWnd WM_MOVE wParam lParam s).2.window.positionX =
      ((lParam % 2 ^ 16 : Nat) : Int) ∧
    (windowProc env queue hWnd WM_MOVE wParam lParam s).2.window.positionY =
      ((lParam / 2 ^ 16 % 2 ^ 16 : Nat) : Int) ∧
    (signedLowWord lParam < 0 →
      (windowProc env queue hWnd WM_MOVE wParam lParam s).2.window.positionX =
        signedLowWord lParam + 65536 ∧
      32768 ≤ (windowProc env queue hWnd WM_MOVE wParam lParam s).2.window.positionX ∧
      (windowProc env queue hWnd WM_MOVE wParam lParam s).2.window.positionX ≤ 65535) ∧
    (signedHighWord lParam < 0 →
      (windowProc env queue hWnd WM_MOVE wParam lParam s).2.window.positionY =
        signedHighWord lParam + 65536 ∧
      32768 ≤ (windowProc env queue hWnd WM_MOVE wParam lParam s).2.window.positionY ∧
      (windowProc env queue hWnd WM_MOVE wParam lParam s).2.window.positionY ≤ 65535) := by
  rw [windowProc_WM_MOVE]
  unfold onMove
  simp only [updateClipRect_eq, LOWORD_eq, HIWORD_eq]
  refine ⟨trivial, trivial, ?_, ?_⟩
  · unfold signedLowWord
    intro h
    split_ifs at h ⊢ <;> omega
  · unfold signedHighWord
    intro h
    split_ifs at h ⊢ <;> omega

/-- A window moved to (-10, -10) is recorded at (65526, 65526). -/
theorem windowProc_move_unsigned_witness :
    signedLowWord 0xFFF6FFF6 = -10 ∧ signedHighWord 0xFFF6FFF6 = -10 ∧
    (windowProc {} {} 10 WM_MOVE 0 0xFFF6FFF6 {}).2.window.positionX = 65526 ∧
    (windowProc {} {} 10 WM_MOVE 0 0xFFF6FFF6 {}).2.window.positionY = 65526 :=
  ⟨by decide, by decide,
   ((windowProc_move_unsigned {} {} 10 0 0xFFF6FFF6 {}).2.2.1 (by decide)).1,
   ((windowProc_move_unsigned {} {} 10 0 0xFFF6FFF6 {}).2.2.2 (by decide)).1⟩

/-- What the deactivation branch sends and changes. -/
theorem deactivated_eq (iconified : Bool) (s : State) :
    deactivated iconified s =
      { s with
        lib :=
          { s.lib with
            monitor :=
              { s.lib.monitor with
                modeChanged :=
                  if s.window.mode = GLFW_FULLSCREEN then false
                  else s.lib.monitor.modeChanged } }
        input := s.input ++
          (if s.lib.cursorLockWindow = .this then
            [.ReleaseCapture, .ClipCursor none, .ShowCursor true] else []) ++
          (if s.window.mode = GLFW_FULLSCREEN then
            (if iconified then [] else [.ShowWindow s.window.Win32.handle SW_MINIMIZE]) ++
            (if s.lib.monitor.modeChanged then [.restoreVideoMode] else [])
           else []) } := by
  rcases s with ⟨w, ⟨cur, act, lock, c1, c2, c3, c4, c5, atom, ⟨mw, mh, mr, mb, mc⟩, err⟩,
    lg, inp, n, lw, ld, lc⟩
  unfold deactivated _glfwPlatformShowMouseCursor _glfwPlatformIconifyWindow
  by_cases hlock : lock = .this <;>
    by_cases hmode : w.mode = GLFW_FULLSCREEN <;>
    cases iconified <;> cases mc <;>
    simp [hlock, hmode, send]

/-- What the activation branch sends and changes. -/
theorem activated_eq (env : Env) (s : State) :
    activated env s =
      { s with
        lib :=
          { s.lib with
            monitor :=
              if s.window.mode = GLFW_FULLSCREEN ∧ s.lib.monitor.modeChanged = false then
                { width := (env.setVideoMode (s.lib.monitor.width, s.lib.monitor.height,
                    s.lib.monitor.bitsPerPixel, s.lib.monitor.refreshRate) true).1
                  height := (env.setVideoMode (s.lib.monitor.width, s.lib.monitor.height,
                    s.lib.monitor.bitsPerPixel, s.lib.monitor.refreshRate) true).2.1
                  bitsPerPixel := (env.setVideoMode (s.lib.monitor.width, s.lib.monitor.height,
                    s.lib.monitor.bitsPerPixel, s.lib.monitor.refreshRate) true).2.2.1
                  refreshRate := (env.setVideoMode (s.lib.monitor.width, s.lib.monitor.height,
                    s.lib.monitor.bitsPerPixel, s.lib.monitor.refreshRate) true).2.2.2
                  modeChanged := true }
              else s.lib.monitor }
        input := s.input ++
          (if s.lib.cursorLockWindow = .this then
            [.ShowCursor false] ++
            (match env.GetWindowRect s.window.Win32.handle with
              | some rect => [.ClipCursor (some rect)]
              | none => []) ++
            [.SetCapture s.window.Win32.handle]
           else []) } := by
  rcases s with ⟨w, ⟨cur, act, lock, c1, c2, c3, c4, c5, atom, ⟨mw, mh, mr, mb, mc⟩, err⟩,
    lg, inp, n, lw, ld, lc⟩
  unfold activated _glfwPlatformHideMouseCursor
  by_cases hlock : lock = .this <;>
    by_cases hmode : w.mode = GLFW_FULLSCREEN <;>
    cases mc <;>
    cases hr : env.GetWindowRect w.Win32.handle <;>
    simp [hlock, hmode, hr, send]

/-- What the end of the activation case sends and changes. -/
theorem reportActivation_eq (active iconified : Bool) (s : State) :
    reportActivation active iconified s =
      { s with
        window := { s.window with iconified := if iconified then 1 else 0 }
        input := s.input ++ [.inputWindowFocus active] ++
          (if (if iconified then (1 : Int) else 0) ≠ s.window.iconified ∧
              s.lib.windowIconifyCallback = true then
            [.windowIconifyCallback (if iconified then 1 else 0)]
           else []) } := by
  rcases s with ⟨⟨m, wd, ht, px, py, ic, cr, mx, my, wgl, w32⟩,
    ⟨cur, act, lock, c1, c2, c3, c4, c5, atom, mon, err⟩, lg, inp, n, lw, ld, lc⟩
  unfold reportActivation
  by_cases hic : (if iconified then (1 : Int) else 0) = ic <;> cases c4 <;>
    simp [hic, send]

/-- The events sent since a state, when the later list of events extends the
earlier one. -/
theorem sentSince_of_append (s r : State) (new : List InputEvent)
    (h : r.input = s.input ++ new) : sentSince s r = new := by
  unfold sentSince
  rw [h, List.drop_left]

/-- Claim C22. For an activation message that reports the window both active
and iconified, `windowProc` returns 0 and goes on as for an inactive window:
the deactivation branch runs when the window was the active window and no
branch otherwise, the one focus event carries "inactive", the cursor is not
hidden and no video mode is applied. -/
theorem windowProc_active_iconified (env : Env) (queue : MessageContext)
    (hWnd wParam lParam : Nat) (s r : State)
    (hr : r = (windowProc env queue hWnd WM_ACTIVATE wParam lParam s).2)
    (hactive : LOWORD wParam ≠ WA_INACTIVE) (hicon : HIWORD wParam ≠ 0) :
    (windowProc env queue hWnd WM_ACTIVATE wParam lParam s).1 = 0 ∧
    r = reportActivation false true
      (if s.lib.activeWindow = .this then deactivated true s else s) ∧
    (sentSince s r).count (.inputWindowFocus false) = 1 ∧
    (sentSince s r).count (.inputWindowFocus true) = 0 ∧
    .ShowCursor false ∉ sentSince s r ∧
    (∀ h, .SetCapture h ∉ sentSince s r) ∧
    (r.lib.monitor.modeChanged = true → s.lib.monitor.modeChanged = true) ∧
    (s.lib.activeWindow ≠ .this → r.lib.monitor = s.lib.monitor) := by
  have hA : (decide (LOWORD wParam ≠ WA_INACTIVE)) = true := by simpa using hactive
  have hI : (decide (HIWORD wParam ≠ 0)) = true := by simpa using hicon
  have hres : windowProc env queue hWnd WM_ACTIVATE wParam lParam s =
      (0, reportActivation false true
        (if s.lib.activeWindow = .this then deactivated true s else s)) := by
    rw [windowProc_WM_ACTIVATE]
    unfold onActivate
    simp only [hA, hI]
    by_cases hact : s.lib.activeWindow = .this <;> simp [hact]
  rw [hres] at hr
  simp only at hr
  refine ⟨by rw [hres], hr, ?_⟩
  have hin : r.input = s.input ++
      ((if s.lib.activeWindow = .this then
          (if s.lib.cursorLockWindow = .this then
            [.ReleaseCapture, .ClipCursor none, .ShowCursor true] else []) ++
          (if s.window.mode = GLFW_FULLSCREEN then
            (if s.lib.monitor.modeChanged then [.restoreVideoMode] else [])
           else [])
        else []) ++ [.inputWindowFocus false] ++
        (if (1 : Int) ≠ s.window.iconified ∧ s.lib.windowIconifyCallback = true then
          [.windowIconifyCallback 1] else [])) := by
    rw [hr, reportActivation_eq]
    by_cases hact : s.lib.activeWindow = .this
    · simp only [hact, if_true, deactivated_eq]
      simp
    · simp only [hact, if_false]
      simp
  have hmon : r.lib.monitor =
      (if s.lib.activeWindow = .this then
        { s.lib.monitor with
          modeChanged :=
            if s.window.mode = GLFW_FULLSCREEN then false else s.lib.monitor.modeChanged }
       else s.lib.monitor) := by
    rw [hr, reportActivation_eq]
    by_cases hact : s.lib.activeWindow = .this
    · simp only [hact, if_true, deactivated_eq]
    · simp only [hact, if_false]
  rw [sentSince_of_append s r _ hin]
  refine ⟨?_, ?_, ?_, ?_, ?_, ?_⟩
  · split_ifs <;> simp
  · split_ifs <;> simp
  · split_ifs <;> simp
  · intro h; split_ifs <;> simp
  · rw [hmon]
    split_ifs <;> simp
  · intro hact
    rw [hmon, if_neg hact]

/-- The fullscreen active window that is told it is active and iconified gets
its video mode restored and an "inactive" focus event. -/
theorem windowProc_active_iconified_witness :
    (windowProc {} {} 10 WM_ACTIVATE 0x00010001 0 fullscreenActive).2.input =
      [.restoreVideoMode, .inputWindowFocus false] ∧
    (windowProc {} {} 10 WM_ACTIVATE 0x00010001 0 fullscreenActive).2.lib.monitor.modeChanged
      = false ∧
    (sentSince fullscreenActive
      (windowProc {} {} 10 WM_ACTIVATE 0x00010001 0 fullscreenActive).2).count
        (.inputWindowFocus false) = 1 :=
  ⟨by decide, by decide,
   (windowProc_active_iconified {} {} 10 0x00010001 0 fullscreenActive _ rfl (by decide)
      (by decide)).2.2.1⟩

/-- Claim C23. For a fullscreen window: when it becomes inactive while it was
the active window, it is iconified exactly when the message does not report it
iconified, the video mode is restored exactly when the mode-changed flag was
set, and the flag is clear afterwards; when it becomes active while it was not
the active window, the video mode is applied exactly when the flag was clear,
and the flag is set afterwards. For a window that is not fullscreen the
monitor record is left as it is and no video mode is restored. -/
theorem windowProc_fullscreen_activation (env : Env) (queue : MessageContext)
    (hWnd wParam lParam : Nat) (s r : State)
    (hr : r = (windowProc env queue hWnd WM_ACTIVATE wParam lParam s).2) :
    (s.window.mode = GLFW_FULLSCREEN → s.lib.activeWindow = .this →
      LOWORD wParam = WA_INACTIVE ∨ HIWORD wParam ≠ 0 →
      (sentSince s r).count (.ShowWindow s.window.Win32.handle SW_MINIMIZE) =
        (if HIWORD wParam = 0 then 1 else 0) ∧
      (sentSince s r).count .restoreVideoMode =
        (if s.lib.monitor.modeChanged then 1 else 0) ∧
      r.lib.monitor = { s.lib.monitor with modeChanged := false }) ∧
    (s.window.mode = GLFW_FULLSCREEN → s.lib.activeWindow ≠ .this →
      LOWORD wParam ≠ WA_INACTIVE → HIWORD wParam = 0 →
      r.lib.monitor =
        (if s.lib.monitor.modeChanged then s.lib.monitor
         else
          { width := (env.setVideoMode (s.lib.monitor.width, s.lib.monitor.height,
              s.lib.monitor.bitsPerPixel, s.lib.monitor.refreshRate) true).1
            height := (env.setVideoMode (s.lib.monitor.width, s.lib.monitor.height,
              s.lib.monitor.bitsPerPixel, s.lib.monitor.refreshRate) true).2.1
            bitsPerPixel := (env.setVideoMode (s.lib.monitor.width, s.lib.monitor.height,
              s.lib.monitor.bitsPerPixel, s.lib.monitor.refreshRate) true).2.2.1
            refreshRate := (env.setVideoMode (s.lib.monitor.width, s.lib.monitor.height,
              s.lib.monitor.bitsPerPixel, s.lib.monitor.refreshRate) true).2.2.2
            modeChanged := true }) ∧
      r.lib.monitor.modeChanged = true ∧
      (sentSince s r).count .restoreVideoMode = 0) ∧
    (s.window.mode ≠ GLFW_FULLSCREEN →
      r.lib.monitor = s.lib.monitor ∧ (sentSince s r).count .restoreVideoMode = 0) := by
  rw [windowProc_WM_ACTIVATE] at hr
  unfold onActivate at hr
  simp only at hr
  refine ⟨?_, ?_, ?_⟩
  · intro hmode hact hinactive
    have hA : (if decide (LOWORD wParam ≠ WA_INACTIVE) = true ∧
        decide (HIWORD wParam ≠ 0) = true then false
        else decide (LOWORD wParam ≠ WA_INACTIVE)) = false := by
      rcases hinactive with h | h <;> simp [h]
    rw [hA] at hr
    simp only [hact, Bool.false_eq_true, not_false_eq_true, and_self, if_true] at hr
    rw [deactivated_eq, reportActivation_eq] at hr
    have hin : r.input = s.input ++
        ((if s.lib.cursorLockWindow = .this then
            [.ReleaseCapture, .ClipCursor none, .ShowCursor true] else []) ++
          ((if decide (HIWORD wParam ≠ 0) = true then []
            else [.ShowWindow s.window.Win32.handle SW_MINIMIZE]) ++
           (if s.lib.monitor.modeChanged then [.restoreVideoMode] else [])) ++
          [.inputWindowFocus false] ++
          (if (if decide (HIWORD wParam ≠ 0) = true then (1 : Int) else 0) ≠
              s.window.iconified ∧ s.lib.windowIconifyCallback = true then
            [.windowIconifyCallback (if decide (HIWORD wParam ≠ 0) = true then 1 else 0)]
           else [])) := by
      rw [hr]; simp [hmode]
    have hmon : r.lib.monitor = { s.lib.monitor with modeChanged := false } := by
      rw [hr]; simp [hmode]
    rw [sentSince_of_append s r _ hin]
    refine ⟨?_, ?_, hmon⟩
    · by_cases hz : HIWORD wParam = 0 <;> simp [hz, SW_MINIMIZE] <;> split_ifs <;> simp
    · by_cases hz : HIWORD wParam = 0 <;> simp [hz] <;> split_ifs <;> simp
  · intro hmode hact hactive hicon
    have hA : (if decide (LOWORD wParam ≠ WA_INACTIVE) = true ∧
        decide (HIWORD wParam ≠ 0) = true then false
        else decide (LOWORD wParam ≠ WA_INACTIVE)) = true := by
      simp [hactive, hicon]
    rw [hA] at hr
    simp only [hact, not_true_eq_false, false_and, if_false, ne_eq, not_false_eq_true,
      and_self, if_true] at hr
    rw [activated_eq, reportActivation_eq] at hr
    have hin : r.input = s.input ++
        ((if s.lib.cursorLockWindow = .this then
            [.ShowCursor false] ++
            (match env.GetWindowRect s.window.Win32.handle with
              | some rect => [.ClipCursor (some rect)]
              | none => []) ++
            [.SetCapture s.window.Win32.handle]
           else []) ++
          [.inputWindowFocus true] ++
          (if (if decide (HIWORD wParam ≠ 0) = true then (1 : Int) else 0) ≠
              s.window.iconified ∧ s.lib.windowIconifyCallback = true then
            [.windowIconifyCallback (if decide (HIWORD wParam ≠ 0) = true then 1 else 0)]
           else [])) := by
      rw [hr]; simp
    rw [sentSince_of_append s r _ hin]
    refine ⟨?_, ?_, ?_⟩
    · rw [hr]
      cases hm : s.lib.monitor.modeChanged <;> simp [hmode, hm]
    · rw [hr]
      cases hm : s.lib.monitor.modeChanged <;> simp [hmode, hm]
    · cases env.GetWindowRect s.window.Win32.handle <;> simp <;> split_ifs <;> simp
  · intro hmode
    generalize (if decide (LOWORD wParam ≠ WA_INACTIVE) = true ∧
        decide (HIWORD wParam ≠ 0) = true then false
        else decide (LOWORD wParam ≠ WA_INACTIVE)) = a at hr
    generalize decide (HIWORD wParam ≠ 0) = i at hr
    have hpre : ∀ pre : State, pre = deactivated i s ∨ pre = activated env s ∨ pre = s →
        pre.lib.monitor = s.lib.monitor ∧
        ∃ new, pre.input = s.input ++ new ∧ new.count .restoreVideoMode = 0 := by
      intro pre hp
      rcases hp with h | h | h
      · rw [h, deactivated_eq]
        refine ⟨?_, _, by simp only [List.append_assoc]; rfl, ?_⟩
        · simp [hmode]
        · simp only [hmode, if_false]
          split_ifs <;> simp
      · rw [h, activated_eq]
        refine ⟨?_, _, rfl, ?_⟩
        · simp [hmode]
        · cases env.GetWindowRect s.window.Win32.handle <;> simp <;> split_ifs <;> simp
      · rw [h]
        exact ⟨rfl, [], by simp, rfl⟩
    have hcase : ∃ pre : State, (pre = deactivated i s ∨ pre = activated env s ∨ pre = s) ∧
        r = reportActivation a i pre := by
      by_cases h1 : ¬ a = true ∧ s.lib.activeWindow = .this
      · exact ⟨_, Or.inl rfl, by rw [hr, if_pos h1]⟩
      · by_cases h2 : a = true ∧ s.lib.activeWindow ≠ .this
        · exact ⟨_, Or.inr (Or.inl rfl), by rw [hr, if_neg h1, if_pos h2]⟩
        · exact ⟨_, Or.inr (Or.inr rfl), by rw [hr, if_neg h1, if_neg h2]⟩
    obtain ⟨pre, hp, hrp⟩ := hcase
    obtain ⟨hmon, new, hnew, hcount⟩ := hpre pre hp
    rw [reportActivation_eq] at hrp
    have hin : r.input = s.input ++ (new ++ [.inputWindowFocus a] ++
        (if (if i = true then (1 : Int) else 0) ≠ pre.window.iconified ∧
            pre.lib.windowIconifyCallback = true then
          [.windowIconifyCallback (if i = true then 1 else 0)] else [])) := by
      rw [hrp]; simp [hnew]
    rw [sentSince_of_append s r _ hin]
    refine ⟨by rw [hrp]; exact hmon, ?_⟩
    rw [List.count_append, List.count_append, hcount]
    split_ifs <;> simp

/-- The fullscreen active window that becomes inactive is minimised, its video
mode is restored once and the flag is cleared. -/
theorem windowProc_fullscreen_activation_witness :
    (sentSince fullscreenActive
      (windowProc {} {} 10 WM_ACTIVATE 0 0 fullscreenActive).2).count
        (.ShowWindow 10 SW_MINIMIZE) = 1 ∧
    (sentSince fullscreenActive
      (windowProc {} {} 10 WM_ACTIVATE 0 0 fullscreenActive).2).count .restoreVideoMode = 1 ∧
    (windowProc {} {} 10 WM_ACTIVATE 0 0 fullscreenActive).2.lib.monitor =
      { width := 800, height := 600, bitsPerPixel := 32, refreshRate := 60,
        modeChanged := false } :=
  (windowProc_fullscreen_activation {} {} 10 0 0 fullscreenActive _ rfl).1 rfl rfl
    (Or.inl (by decide))

/-! ## Guarded calls through function pointers -/

end Glfw
